import Mathlib

/-!
# Live-update installer: swap orchestrator, overlay install and install server

A shallow embedding of `deploy/installer/base_swap.cc` (the swap orchestrator
`BaseSwapCommand`), of `deploy/installer/overlay_install.cc` (the overlay install
command) and of `deploy/installer/server/install_server.cc` (the on-device install
server and its launcher), with the properties of the specification that concern
them.

Conventions of the embedding.

* C++ `int` values (pids, counts, return codes) are `Int`; uids are `Nat`.
* Protocol messages (`deploy.proto`, which is not among the sources) are records
  holding the fields the code reads or writes.  Enumerations list the enumerators
  the code names; the remaining ones are kept as numbered codes.
* Collaborators whose code is not among the sources (the install client,
  `CmdCommand`, the file system, the class `Overlay`) are parameters: a record of
  oracles gives the outcome of each call.  Theorems quantify over every such record.
* A run of `Swap` returns, next to the values the C++ code leaves behind, the calls it
  issued on the install client and on `CmdCommand` and the `/proc` probes of its
  diagnosis, in program order, each with its outcome.  A run of the server returns
  the state-changing calls it issued on the file system and on the overlay.
* A result of `size_t` that may be `std::string::npos` is an `Option Nat`, with `none`
  for `npos`: a value that is no position in any string and is not zero.
* The event stream (`Phase`, `LogEvent`, `ErrEvent`, `AddRawEvent`) is write-only
  diagnostic output; it influences neither control flow nor any response of a
  handled request and is left out.  The events that the server drains into its final
  response are a parameter of its run.
* The input of the server is the finite sequence of the outcomes of its reads; the
  read after the last one fails, so that every run of the request loop ends.
* Where a property depends on what the class `Overlay` does, its operations are
  modelled from the specification; these definitions say so.
-/

namespace deploy

/-! ## Protocol messages -/

namespace proto

/-- A diagnostic event carried by a response. -/
structure Event where
  text : String
deriving DecidableEq, Repr

/-- Enumeration `AgentSwapResponse::Status`.  The code compares it with `OK` only. -/
inductive AgentSwapResponse.Status where
  | OK
  | NOT_OK (code : Nat)
deriving DecidableEq, Repr

/-- Reply of one agent, as relayed by the install server. -/
structure AgentSwapResponse where
  pid : Int
  status : AgentSwapResponse.Status
  events : List Event
deriving DecidableEq, Repr

/-- Enumeration `SwapResponse::Status`. -/
inductive SwapResponse.Status where
  | UNKNOWN
  | OK
  | SETUP_FAILED
  | START_SERVER_FAILED
  | START_SERVER_FAILED_USERDEBUG
  | AGENT_ATTACH_FAILED
  | WRITE_TO_SERVER_FAILED
  | READ_FROM_SERVER_FAILED
  | READY_FOR_AGENTS_NOT_RECEIVED
  | AGENT_ERROR
  | PROCESS_CRASHING
  | PROCESS_NOT_RESPONDING
  | PROCESS_TERMINATED
  | MISSING_AGENT_RESPONSES
deriving DecidableEq, Repr

/-- Message `SwapResponse`: the outcome of one swap command. -/
structure SwapResponse where
  status : SwapResponse.Status
  extra : String
  failed_agents : List AgentSwapResponse
deriving DecidableEq, Repr

/-- Message `SwapRequest`.  `process_ids` is read by the diagnosis; `payload` stands
for every other field, which the orchestrator forwards untouched. -/
structure SwapRequest where
  process_ids : List Int
  payload : String
deriving DecidableEq, Repr

/-- Message `OpenAgentSocketRequest`. -/
structure OpenAgentSocketRequest where
  socket_name : String
deriving DecidableEq, Repr

/-- Message `SendAgentMessageRequest`. -/
structure SendAgentMessageRequest where
  agent_count : Int
  swap_request : SwapRequest
deriving DecidableEq, Repr

/-- Message `CheckSetupRequest`. -/
structure CheckSetupRequest where
  files : List String
deriving DecidableEq, Repr

/-- Message `OverlayFile`. -/
structure OverlayFile where
  path : String
  content : String
deriving DecidableEq, Repr

/-- Message `OverlayUpdateRequest`. -/
structure OverlayUpdateRequest where
  overlay_path : String
  overlay_id : String
  expected_overlay_id : String
  wipe_all_files : Bool
  files_to_delete : List String
  files_to_write : List OverlayFile
deriving DecidableEq, Repr

/-- Message `GetAgentExceptionLogRequest` (the `log_request` variant). -/
structure GetAgentExceptionLogRequest where
  package_name : String
deriving DecidableEq, Repr

/-- Enumeration `InstallServerRequest::Type`. -/
inductive InstallServerRequest.Type where
  | HANDLE_REQUEST
  | SERVER_EXIT
  | OTHER (code : Nat)
deriving DecidableEq, Repr

/-- The `message` one-of of `InstallServerRequest`. -/
inductive InstallServerRequest.Message where
  | MESSAGE_NOT_SET
  | check_request (r : CheckSetupRequest)
  | overlay_request (r : OverlayUpdateRequest)
  | socket_request (r : OpenAgentSocketRequest)
  | send_request (r : SendAgentMessageRequest)
  | log_request (r : GetAgentExceptionLogRequest)
deriving DecidableEq, Repr

/-- Message `InstallServerRequest`. -/
structure InstallServerRequest where
  type : InstallServerRequest.Type
  message : InstallServerRequest.Message
deriving DecidableEq, Repr

/-- Enumeration `InstallServerResponse::Status`. -/
inductive InstallServerResponse.Status where
  | REQUEST_COMPLETED
  | SERVER_STARTED
  | SERVER_EXITED
  | OTHER (code : Nat)
deriving DecidableEq, Repr

/-- Enumeration `OpenAgentSocketResponse::Status`. -/
inductive OpenAgentSocketResponse.Status where
  | OK
  | NOT_OK (code : Nat)
deriving DecidableEq, Repr

/-- Message `OpenAgentSocketResponse`. -/
structure OpenAgentSocketResponse where
  status : OpenAgentSocketResponse.Status
deriving DecidableEq, Repr

/-- Enumeration `SendAgentMessageResponse::Status`. -/
inductive SendAgentMessageResponse.Status where
  | OK
  | NOT_OK (code : Nat)
deriving DecidableEq, Repr

/-- Message `SendAgentMessageResponse`. -/
structure SendAgentMessageResponse where
  status : SendAgentMessageResponse.Status
  agent_responses : List AgentSwapResponse
deriving DecidableEq, Repr

/-- Message `CheckSetupResponse`. -/
structure CheckSetupResponse where
  missing_files : List String
deriving DecidableEq, Repr

/-- Enumeration `OverlayUpdateResponse::Status`. -/
inductive OverlayUpdateResponse.Status where
  | OK
  | ID_MISMATCH
  | UPDATE_FAILED
deriving DecidableEq, Repr

/-- Message `OverlayUpdateResponse`. -/
structure OverlayUpdateResponse where
  status : OverlayUpdateResponse.Status
  error_message : String
deriving DecidableEq, Repr

/-- Message `AgentExceptionLog`, one entry of the agent logs.  `payload` stands for
all its fields, which the code copies untouched. -/
structure AgentExceptionLog where
  payload : String
deriving DecidableEq, Repr

/-- Message `GetAgentExceptionLogResponse` (the `log_response` sub-response). -/
structure GetAgentExceptionLogResponse where
  logs : List AgentExceptionLog
deriving DecidableEq, Repr

/-- Message `InstallServerResponse`.  Every sub-response is a field, as the C++
accessors always yield a value (the default instance when the field is unset). -/
structure InstallServerResponse where
  status : InstallServerResponse.Status
  socket_response : OpenAgentSocketResponse
  send_response : SendAgentMessageResponse
  check_response : CheckSetupResponse
  overlay_response : OverlayUpdateResponse
  events : List Event
  log_response : GetAgentExceptionLogResponse := { logs := [] }
deriving DecidableEq, Repr

/-- Enumeration `Arch`.  The code compares it with `ARCH_64_BIT` only. -/
inductive Arch where
  | ARCH_64_BIT
  | OTHER (code : Nat)
deriving DecidableEq, Repr

/-- Message `OverlayInstallRequest`. -/
structure OverlayInstallRequest where
  package_name : String
  arch : Arch
  overlay_id : String
  expected_overlay_id : String
  overlay_files : List OverlayFile
  deleted_files : List String
deriving DecidableEq, Repr

/-- Enumeration `OverlayInstallResponse::Status`. -/
inductive OverlayInstallResponse.Status where
  | OK
  | SETUP_FAILED
  | START_SERVER_FAILED
  | OVERLAY_ID_MISMATCH
  | OVERLAY_UPDATE_FAILED
  | WRITE_TO_SERVER_FAILED
  | READ_FROM_SERVER_FAILED
  | OTHER (code : Nat)
deriving DecidableEq, Repr

/-- Message `OverlayInstallResponse`: the outcome of one overlay install command. -/
structure OverlayInstallResponse where
  status : OverlayInstallResponse.Status
  extra : String
  agent_logs : List AgentExceptionLog
deriving DecidableEq, Repr

end proto

/-! ## Swap orchestrator (`base_swap.cc`) -/

/-- Constant `kFirstAppUid` of `base_swap.cc`. -/
def kFirstAppUid : Nat := 10000

/-- Constant `kLastAppUid` of `base_swap.cc`. -/
def kLastAppUid : Nat := 19999

/-- The helper `to_string` of `common/utils.h`, applied to an `int`: its decimal
rendering. -/
def to_string (n : Int) : String := toString n

/-- Narrowing to a 32-bit `int` by wrap-around, as done when the `size_t` sum
`process_ids_.size() + extra_agents_count_` is stored in the `int32` field
`agent_count`. -/
def toInt32 (x : Int) : Int := (x + 2147483648) % 4294967296 - 2147483648

/-- Record `ProcessRecord` filled by `CmdCommand::GetProcessInfo`. -/
structure ProcessRecord where
  process_name : String
  crashing : Bool
  not_responding : Bool
deriving DecidableEq, Repr

/-- One call issued by the orchestrator on a collaborator, with its outcome. -/
inductive Action where
  | ClientWrite (request : proto.InstallServerRequest) (ok : Bool)
  | ClientRead (result : Option proto.InstallServerResponse)
  | AttachAgent (pid : Int) (agent_path : String) (args : List String) (ok : Bool)
  | GetProcessInfo (package_name : String) (result : Option (List ProcessRecord))
  | Access (path : String) (result : Int)
deriving DecidableEq, Repr

/-- True for a write to the install client. -/
def Action.isClientWrite : Action → Bool
  | .ClientWrite _ _ => true
  | _ => false

/-- True for a read from the install client. -/
def Action.isClientRead : Action → Bool
  | .ClientRead _ => true
  | _ => false

/-- True for an agent attach. -/
def Action.isAttachAgent : Action → Bool
  | .AttachAgent _ _ _ _ => true
  | _ => false

/-- True for a call of the process diagnosis (process inspection, /proc probe). -/
def Action.isDiagnosis : Action → Bool
  | .GetProcessInfo _ _ => true
  | .Access _ _ => true
  | _ => false

/-- The collaborators of one `Swap` run.

* `stat path` is `IO::stat`: `none` when it fails (negative return), else the
  `st_uid` of the entry;
* `clientWrite k request` is the result of the `k`-th call (from 0, counted within
  the run) of `client_->Write`;
* `clientRead k` is the outcome of the `k`-th call of `client_->Read`: `none` when
  it returns false, else the response it filled in;
* `AttachAgent k pid agent_path args` is the result of the `k`-th call of
  `CmdCommand::AttachAgent`;
* `GetProcessInfo package` is `CmdCommand::GetProcessInfo`: `none` when it returns
  false, else the records it filled in;
* `access path` is `IO::access(path, F_OK)`;
* `kDefaultAddress` is the constant `Socket::kDefaultAddress`. -/
structure Env where
  stat : String → Option Nat
  clientWrite : Nat → proto.InstallServerRequest → Bool
  clientRead : Nat → Option proto.InstallServerResponse
  AttachAgent : Nat → Int → String → List String → Bool
  GetProcessInfo : String → Option (List ProcessRecord)
  access : String → Int
  kDefaultAddress : String

/-- The data members of `BaseSwapCommand` that `Swap` uses. -/
structure BaseSwapCommand where
  package_name_ : String
  process_ids_ : List Int
  extra_agents_count_ : Int
  agent_path_ : String
deriving DecidableEq, Repr

/-- The method `BaseSwapCommand::FilterProcessIds`.  The iterator of the C++ loop
stands at the head of the list still to visit: `erase` drops that element and
moves on, `++it` keeps it and moves on. -/
def FilterProcessIds (stat : String → Option Nat) : List Int → List Int
  | [] => []
  | pid :: rest =>
    match stat ("/proc/" ++ to_string pid) with
    | none => FilterProcessIds stat rest
    | some st_uid =>
      if st_uid < kFirstAppUid ∨ st_uid > kLastAppUid then
        FilterProcessIds stat rest
      else
        pid :: FilterProcessIds stat rest

/-- The method `BaseSwapCommand::ListenForAgents`, issuing the write and read
number `0` of the run.  Returns the status and the calls issued. -/
def ListenForAgents (env : Env) : proto.SwapResponse.Status × List Action :=
  let server_request : proto.InstallServerRequest :=
    { type := .HANDLE_REQUEST
      message := .socket_request { socket_name := env.kDefaultAddress } }
  if env.clientWrite 0 server_request = false then
    (.WRITE_TO_SERVER_FAILED, [.ClientWrite server_request false])
  else
    match env.clientRead 0 with
    | none =>
      (.READ_FROM_SERVER_FAILED, [.ClientWrite server_request true, .ClientRead none])
    | some server_response =>
      if server_response.status ≠ .REQUEST_COMPLETED ∨
          server_response.socket_response.status ≠ .OK then
        (.READY_FOR_AGENTS_NOT_RECEIVED,
          [.ClientWrite server_request true, .ClientRead (some server_response)])
      else
        (.OK, [.ClientWrite server_request true, .ClientRead (some server_response)])

/-- The loop of `BaseSwapCommand::AttachAgents` from its `k`-th iteration on, over
the pids still to attach.  Returns the result and the calls issued. -/
def AttachAgents.loop (env : Env) (agent_path_ : String) :
    Nat → List Int → Bool × List Action
  | _, [] => (true, [])
  | k, pid :: rest =>
    if env.AttachAgent k pid agent_path_ [env.kDefaultAddress] = false then
      (false, [.AttachAgent pid agent_path_ [env.kDefaultAddress] false])
    else
      let r := AttachAgents.loop env agent_path_ (k + 1) rest
      (r.1, .AttachAgent pid agent_path_ [env.kDefaultAddress] true :: r.2)

/-- The method `BaseSwapCommand::AttachAgents`. -/
def AttachAgents (env : Env) (self : BaseSwapCommand) : Bool × List Action :=
  AttachAgents.loop env self.agent_path_ 0 self.process_ids_

/-- The loop of `Swap` over the agent responses of the server: every response whose
status is not `OK` is copied to the end of `failed_agents`. -/
def Swap.collectFailedAgents :
    List proto.AgentSwapResponse → proto.SwapResponse → proto.SwapResponse
  | [], swap_response => swap_response
  | agent_response :: rest, swap_response =>
    if agent_response.status ≠ .OK then
      Swap.collectFailedAgents rest
        { swap_response with
          failed_agents := swap_response.failed_agents ++ [agent_response] }
    else
      Swap.collectFailedAgents rest swap_response

/-- The loop of `Swap` over the process records: `some (status, extra)` when the
loop returns from `Swap`, `none` when it runs to its end. -/
def Swap.inspectRecords :
    List ProcessRecord → Option (proto.SwapResponse.Status × String)
  | [] => none
  | record :: rest =>
    if record.crashing then
      some (.PROCESS_CRASHING, record.process_name)
    else if record.not_responding then
      some (.PROCESS_NOT_RESPONDING, record.process_name)
    else
      Swap.inspectRecords rest

/-- The loop of `Swap` over the pids of the swap request: `some pid_string` for the
first pid whose `/proc` entry cannot be accessed, with the probes issued. -/
def Swap.findTerminated (env : Env) : List Int → Option String × List Action
  | [] => (none, [])
  | pid :: rest =>
    let pid_string := to_string pid
    if env.access ("/proc/" ++ pid_string) ≠ 0 then
      (some pid_string, [.Access ("/proc/" ++ pid_string) (env.access ("/proc/" ++ pid_string))])
    else
      let r := Swap.findTerminated env rest
      (r.1, .Access ("/proc/" ++ pid_string) (env.access ("/proc/" ++ pid_string)) :: r.2)

/-- What a run of `Swap` leaves behind: the command object (its `process_ids_` have
been filtered), the swap response, and the calls issued in program order. -/
structure SwapResult where
  self : BaseSwapCommand
  swap_response : proto.SwapResponse
  trace : List Action
deriving DecidableEq, Repr

/-- The tail of `Swap` that follows a server response whose send status is not `OK`:
process inspection, then the probe of the pids of the request. -/
def Swap.diagnose (env : Env) (self : BaseSwapCommand) (swap_request : proto.SwapRequest)
    (swap_response : proto.SwapResponse) (trace : List Action) : SwapResult :=
  let records := env.GetProcessInfo self.package_name_
  let trace := trace ++ [.GetProcessInfo self.package_name_ records]
  match records.bind Swap.inspectRecords with
  | some (status, extra) =>
    { self := self
      swap_response := { swap_response with status := status, extra := extra }
      trace := trace }
  | none =>
    match Swap.findTerminated env swap_request.process_ids with
    | (some pid_string, probes) =>
      { self := self
        swap_response :=
          { swap_response with status := .PROCESS_TERMINATED, extra := pid_string }
        trace := trace ++ probes }
    | (none, probes) =>
      { self := self
        swap_response := { swap_response with status := .MISSING_AGENT_RESPONSES }
        trace := trace ++ probes }

/-- The part of `Swap` that follows a successful read of the server response in the
request step; `trace` holds the calls issued up to and including that read. -/
def Swap.aggregate (env : Env) (self : BaseSwapCommand) (swap_request : proto.SwapRequest)
    (swap_response : proto.SwapResponse) (server_response : proto.InstallServerResponse)
    (trace : List Action) : SwapResult :=
  if server_response.status ≠ .REQUEST_COMPLETED then
    { self := self
      swap_response := { swap_response with status := .READ_FROM_SERVER_FAILED }
      trace := trace }
  else
    let agent_server_response := server_response.send_response
    let swap_response :=
      Swap.collectFailedAgents agent_server_response.agent_responses swap_response
    if agent_server_response.status = .OK then
      if swap_response.failed_agents.length = 0 then
        { self := self
          swap_response := { swap_response with status := .OK }
          trace := trace }
      else
        { self := self
          swap_response := { swap_response with status := .AGENT_ERROR }
          trace := trace }
    else
      Swap.diagnose env self swap_request swap_response trace

/-- The method `BaseSwapCommand::Swap`. -/
def Swap (env : Env) (self : BaseSwapCommand) (swap_request : proto.SwapRequest)
    (swap_response : proto.SwapResponse) : SwapResult :=
  if swap_response.status ≠ .UNKNOWN then
    { self := self, swap_response := swap_response, trace := [] }
  else
    -- Remove process ids that we do not need to swap.
    let self := { self with process_ids_ := FilterProcessIds env.stat self.process_ids_ }
    -- No work to do: the server is not engaged.
    if self.process_ids_.isEmpty ∧ self.extra_agents_count_ = 0 then
      { self := self, swap_response := { swap_response with status := .OK }, trace := [] }
    else
      let listen := ListenForAgents env
      if listen.1 ≠ .OK then
        { self := self
          swap_response := { swap_response with status := listen.1 }
          trace := listen.2 }
      else
        let attach := AttachAgents env self
        let trace := listen.2 ++ attach.2
        if attach.1 = false then
          { self := self
            swap_response := { swap_response with status := .AGENT_ATTACH_FAILED }
            trace := trace }
        else
          let server_request : proto.InstallServerRequest :=
            { type := .HANDLE_REQUEST
              message := .send_request
                { agent_count :=
                    toInt32 (self.process_ids_.length + self.extra_agents_count_)
                  swap_request := swap_request } }
          if env.clientWrite 1 server_request = false then
            { self := self
              swap_response := { swap_response with status := .WRITE_TO_SERVER_FAILED }
              trace := trace ++ [.ClientWrite server_request false] }
          else
            let trace := trace ++ [.ClientWrite server_request true]
            match env.clientRead 1 with
            | none =>
              { self := self
                swap_response := { swap_response with status := .READ_FROM_SERVER_FAILED }
                trace := trace ++ [.ClientRead none] }
            | some server_response =>
              Swap.aggregate env self swap_request swap_response server_response
                (trace ++ [.ClientRead (some server_response)])

/-- The response obtained by the second read of a run, which is the read of the
request step (the first one is the read of the listen step), if there is one. -/
def requestStepResponse (trace : List Action) : Option proto.InstallServerResponse :=
  match trace.filter Action.isClientRead with
  | _ :: .ClientRead (some server_response) :: _ => some server_response
  | _ => none

/-! ## Install server (`install_server.cc`) -/

/-- One state-changing call issued by the server on the file system or on the
`Overlay` object, with its outcome. -/
inductive ServerAction where
  | Nftw (path : String) (result : Int)
  | OverlayOpen (overlay_folder : String) (id : String) (ok : Bool)
  | OverlayDeleteFile (file : String) (ok : Bool)
  | OverlayWriteFile (path : String) (content : String) (ok : Bool)
  | OverlayCommit (ok : Bool)
deriving DecidableEq, Repr

/-- The device the server runs on, over a state `σ` (the file system together with
the staging state of the `Overlay` object).  None of these operations is among the
sources: `nftw_remove` is the call `nftw(path, remove, ...)` and `access` is
`access(path, F_OK)` of the C library; the others are the operations of the class
`Overlay` (`overlay/overlay.h`), which take the folder and the id the object was
built with.  The two queries leave the state as it is. -/
structure Device (σ : Type) where
  nftw_remove : σ → String → Int × σ
  access : σ → String → Int
  Overlay_Exists : σ → String → String → Bool
  Overlay_Open : σ → String → String → Bool × σ
  Overlay_DeleteFile : σ → String → String → String → Bool × σ
  Overlay_WriteFile : σ → String → String → String → String → Bool × σ
  Overlay_Commit : σ → String → String → Bool × σ

/-- The method `InstallServer::DoesOverlayIdMatch`. -/
def DoesOverlayIdMatch {σ : Type} (dev : Device σ) (s : σ) (overlay_folder : String)
    (expected_id : String) : Bool :=
  -- If the overlay folder is not present, expected id must be empty.
  if dev.access s overlay_folder ≠ 0 then
    expected_id.isEmpty
  else
    -- If the overlay folder is present, the correct id must be present.
    dev.Overlay_Exists s overlay_folder expected_id

/-- The loop of `HandleOverlayUpdate` over `files_to_delete`: the file at which it
failed (if any), the state it leaves and the calls issued. -/
def HandleOverlayUpdate.deleteFiles {σ : Type} (dev : Device σ) (overlay_folder : String)
    (id : String) : σ → List String → Option String × σ × List ServerAction
  | s, [] => (none, s, [])
  | s, file :: rest =>
    let r := dev.Overlay_DeleteFile s overlay_folder id file
    if r.1 = false then
      (some file, r.2, [.OverlayDeleteFile file false])
    else
      let t := HandleOverlayUpdate.deleteFiles dev overlay_folder id r.2 rest
      (t.1, t.2.1, .OverlayDeleteFile file true :: t.2.2)

/-- The loop of `HandleOverlayUpdate` over `files_to_write`: the file at which it
failed (if any), the state it leaves and the calls issued. -/
def HandleOverlayUpdate.writeFiles {σ : Type} (dev : Device σ) (overlay_folder : String)
    (id : String) : σ → List proto.OverlayFile →
      Option proto.OverlayFile × σ × List ServerAction
  | s, [] => (none, s, [])
  | s, file :: rest =>
    let r := dev.Overlay_WriteFile s overlay_folder id file.path file.content
    if r.1 = false then
      (some file, r.2, [.OverlayWriteFile file.path file.content false])
    else
      let t := HandleOverlayUpdate.writeFiles dev overlay_folder id r.2 rest
      (t.1, t.2.1, .OverlayWriteFile file.path file.content true :: t.2.2)

/-- What a run of `HandleOverlayUpdate` leaves behind: the response, the state of
the device and the state-changing calls issued in program order. -/
structure OverlayUpdateResult (σ : Type) where
  response : proto.OverlayUpdateResponse
  state : σ
  trace : List ServerAction

/-- The first statement of `HandleOverlayUpdate`, the wipe requested by
`wipe_all_files`.  A failed wipe sets status and message and does not return. -/
def HandleOverlayUpdate.wipe {σ : Type} (dev : Device σ) (s : σ)
    (request : proto.OverlayUpdateRequest) (response : proto.OverlayUpdateResponse) :
    OverlayUpdateResult σ :=
  let overlay_folder := request.overlay_path ++ "/.overlay"
  if request.wipe_all_files then
    let r := dev.nftw_remove s overlay_folder
    if r.1 ≠ 0 then
      { response :=
          { response with
            status := .UPDATE_FAILED
            error_message := "Could not wipe existing overlays" }
        state := r.2
        trace := [.Nftw overlay_folder r.1] }
    else
      { response := response, state := r.2, trace := [.Nftw overlay_folder r.1] }
  else
    { response := response, state := s, trace := [] }

/-- The method `InstallServer::HandleOverlayUpdate`. -/
def HandleOverlayUpdate {σ : Type} (dev : Device σ) (s : σ)
    (request : proto.OverlayUpdateRequest) (response : proto.OverlayUpdateResponse) :
    OverlayUpdateResult σ :=
  let overlay_folder := request.overlay_path ++ "/.overlay"
  let wiped := HandleOverlayUpdate.wipe dev s request response
  let response := wiped.response
  if DoesOverlayIdMatch dev wiped.state overlay_folder request.expected_overlay_id
      = false then
    { response := { response with status := .ID_MISMATCH }
      state := wiped.state
      trace := wiped.trace }
  else
    let opened := dev.Overlay_Open wiped.state overlay_folder request.overlay_id
    let trace := wiped.trace ++ [.OverlayOpen overlay_folder request.overlay_id opened.1]
    if opened.1 = false then
      { response :=
          { response with
            status := .UPDATE_FAILED
            error_message := "Could not open overlay" }
        state := opened.2
        trace := trace }
    else
      match HandleOverlayUpdate.deleteFiles dev overlay_folder request.overlay_id
          opened.2 request.files_to_delete with
      | (some file, s1, deletions) =>
        { response :=
            { response with
              status := .UPDATE_FAILED
              error_message := "Could not delete file: \x27" ++ file ++ "\x27" }
          state := s1
          trace := trace ++ deletions }
      | (none, s1, deletions) =>
        match HandleOverlayUpdate.writeFiles dev overlay_folder request.overlay_id
            s1 request.files_to_write with
        | (some file, s2, writes) =>
          { response :=
              { response with
                status := .UPDATE_FAILED
                error_message := "Could not write file: \x27" ++ file.path ++ "\x27" }
            state := s2
            trace := trace ++ deletions ++ writes }
        | (none, s2, writes) =>
          let committed := dev.Overlay_Commit s2 overlay_folder request.overlay_id
          let trace := trace ++ deletions ++ writes ++ [.OverlayCommit committed.1]
          if committed.1 = false then
            { response :=
                { response with
                  status := .UPDATE_FAILED
                  error_message := "Could not commit overlay update" }
              state := committed.2
              trace := trace }
          else
            { response := { response with status := .OK }
              state := committed.2
              trace := trace }

/-! ## Request loop of the install server (`install_server.cc`) -/

/-- The loop of `HandleCheckSetup` over the files of the request, on the list
`missing_files` of the response: a file whose `access(file, F_OK)` is not zero is
added at the end. -/
def HandleCheckSetup.loop {σ : Type} (dev : Device σ) (s : σ) :
    List String → List String → List String
  | [], missing_files => missing_files
  | file :: rest, missing_files =>
    if dev.access s file ≠ 0 then
      HandleCheckSetup.loop dev s rest (missing_files ++ [file])
    else
      HandleCheckSetup.loop dev s rest missing_files

/-- The method `InstallServer::HandleCheckSetup`.  It is `const` and calls nothing
but `access`, a query of the device: it returns the response only. -/
def HandleCheckSetup {σ : Type} (dev : Device σ) (s : σ)
    (request : proto.CheckSetupRequest) (response : proto.CheckSetupResponse) :
    proto.CheckSetupResponse :=
  { response with
    missing_files := HandleCheckSetup.loop dev s request.files response.missing_files }

/-- The enumerators numbered zero in `deploy.proto` (not among the sources), which
the enumeration fields of a default-constructed `ServerResponse` hold. -/
structure ZeroEnumerators where
  status : proto.InstallServerResponse.Status
  socket_status : proto.OpenAgentSocketResponse.Status
  send_status : proto.SendAgentMessageResponse.Status
  overlay_status : proto.OverlayUpdateResponse.Status
deriving DecidableEq, Repr

/-- A default-constructed `ServerResponse`: repeated fields are empty, strings are
empty, enumeration fields hold their zero enumerator. -/
def ServerResponse.fresh (zero : ZeroEnumerators) : proto.InstallServerResponse where
  status := zero.status
  socket_response := { status := zero.socket_status }
  send_response := { status := zero.send_status, agent_responses := [] }
  check_response := { missing_files := [] }
  overlay_response := { status := zero.overlay_status, error_message := "" }
  events := []
  log_response := { logs := [] }

/-- The collaborators of the request loop, next to the device: the outcome of the
`k`-th call of `output_.Write` in a run, the events that `ConsumeEvents` returns
when the loop has ended, over a type `ε` of events (`common/event.h` is not among
the sources), their conversion `ConvertEventToProtoEvent`, and the zero
enumerators. -/
structure ServerEnv (ε : Type) where
  Write : Nat → proto.InstallServerResponse → Bool
  ConsumeEvents : List ε
  ConvertEventToProtoEvent : ε → proto.Event
  zero : ZeroEnumerators

/-- One call issued by a run of the server: a call of `input_.Read` with the
request it gave (`none` when it returned false), a call of `output_.Write` with the
response passed and its outcome, or a state-changing call on the device. -/
inductive ChannelAction where
  | Read (result : Option proto.InstallServerRequest)
  | Write (response : proto.InstallServerResponse) (ok : Bool)
  | Device (call : ServerAction)
deriving DecidableEq, Repr

/-- True for a call of `input_.Read`. -/
def ChannelAction.isRead : ChannelAction → Bool
  | .Read _ => true
  | _ => false

/-- True for a call of `output_.Write`. -/
def ChannelAction.isWrite : ChannelAction → Bool
  | .Write _ _ => true
  | _ => false

/-- The response passed to `output_.Write`, for a call of it. -/
def ChannelAction.written : ChannelAction → Option proto.InstallServerResponse
  | .Write response _ => some response
  | _ => none

/-- What `HandleRequest` leaves behind: the response it passed to `output_.Write`,
the state of the device, and the calls issued in program order. -/
structure HandleResult (σ : Type) where
  response : proto.InstallServerResponse
  state : σ
  trace : List ChannelAction

/-- The method `InstallServer::HandleRequest`, whose write is the `k`-th of the
run.  The `switch` has a case for `kCheckRequest` and one for `kOverlayRequest`, and
no other. -/
def HandleRequest {σ ε : Type} (dev : Device σ) (env : ServerEnv ε) (k : Nat) (s : σ)
    (request : proto.InstallServerRequest) : HandleResult σ :=
  let response := ServerResponse.fresh env.zero
  let handled : proto.InstallServerResponse × σ × List ServerAction :=
    match request.message with
    | .check_request check_request =>
      ({ response with
          check_response := HandleCheckSetup dev s check_request response.check_response },
        s, [])
    | .overlay_request overlay_request =>
      let updated := HandleOverlayUpdate dev s overlay_request response.overlay_response
      ({ response with overlay_response := updated.response }, updated.state,
        updated.trace)
    | _ => (response, s, [])
  let response := { handled.1 with status := .REQUEST_COMPLETED }
  { response := response
    state := handled.2.1
    trace := handled.2.2.map .Device ++ [.Write response (env.Write k response)] }

/-- The method `InstallServer::Acknowledge`, whose write is the first of the run
(number `0`).  When the write fails it logs and returns; it returns nothing. -/
def Acknowledge {ε : Type} (env : ServerEnv ε) : List ChannelAction :=
  let response := { ServerResponse.fresh env.zero with status := .SERVER_STARTED }
  [.Write response (env.Write 0 response)]

/-- The method `InstallServer::Pump`, from a point where `k` writes have been issued.
The input is the sequence of outcomes of the calls of `input_.Read` still to come,
`none` standing for a call that returns false; the call after the last one returns
false as well (the channel is closed).  Returns the state of the device, the number
of writes issued and the calls, in program order. -/
def Pump {σ ε : Type} (dev : Device σ) (env : ServerEnv ε) :
    Nat → σ → List (Option proto.InstallServerRequest) → σ × Nat × List ChannelAction
  | k, s, [] => (s, k, [.Read none])
  | k, s, none :: _ => (s, k, [.Read none])
  | k, s, some request :: rest =>
    if request.type = .HANDLE_REQUEST then
      let handled := HandleRequest dev env k s request
      let pumped := Pump dev env (k + 1) handled.state rest
      (pumped.1, pumped.2.1, .Read (some request) :: handled.trace ++ pumped.2.2)
    else if request.type = .SERVER_EXIT then
      (s, k, [.Read (some request)])
    else
      let pumped := Pump dev env k s rest
      (pumped.1, pumped.2.1, .Read (some request) :: pumped.2.2)

/-- The final response of `InstallServer::Run`: a default-constructed response
that is given the converted events, in their order, and the status
`SERVER_EXITED`. -/
def InstallServer.exit_response {ε : Type} (env : ServerEnv ε) :
    proto.InstallServerResponse :=
  { ServerResponse.fresh env.zero with
    events := env.ConsumeEvents.map env.ConvertEventToProtoEvent
    status := .SERVER_EXITED }

/-- The method `InstallServer::Run`: the state of the device it leaves and the calls
it issued, in program order. -/
def InstallServer.Run {σ ε : Type} (dev : Device σ) (env : ServerEnv ε) (s : σ)
    (input : List (Option proto.InstallServerRequest)) : σ × List ChannelAction :=
  let acknowledged := Acknowledge env
  let pumped := Pump dev env 1 s input
  let response := InstallServer.exit_response env
  (pumped.1,
    acknowledged ++ pumped.2.2 ++ [.Write response (env.Write pumped.2.1 response)])

/-! ## The overlay store, after the specification

The class `Overlay` is not among the sources.  Where a property needs to
know what its operations do, they are taken from the specification of the Overlay
Store: a directory with a version id, and pending sets of writes and deletions that
a commit applies in one step. -/

/-- Modelled from the spec: the content of an overlay directory of the missing class
`Overlay`: the stored version id ("identified by an opaque version id string") and
the files of the directory, as pairs of path and content. -/
structure OverlayDir where
  id : String
  files : List (String × String)
deriving DecidableEq, Repr

/-- Modelled from the spec: the device state the missing class `Overlay` works on:
the overlay directories that exist, by folder path, and "a pending set of
(path, content) writes and a pending set of paths-to-delete accumulated before
commit". -/
structure Disk where
  dirs : List (String × OverlayDir)
  pending_writes : List (String × String)
  pending_deletes : List String
deriving DecidableEq, Repr

/-- Modelled from the spec: which operations of the missing class `Overlay` fail
(the specification names a failure outcome for each, not its cause). -/
structure Faults where
  open_ok : Bool
  delete_ok : String → Bool
  write_ok : String → Bool
  commit_ok : Bool

/-- The overlay directory stored at a folder path, if that folder exists. -/
def Disk.find (d : Disk) (overlay_folder : String) : Option OverlayDir :=
  d.dirs.lookup overlay_folder

/-- Existence test `access(folder, F_OK)` on the modelled disk: `0` when the folder
exists, `-1` otherwise. -/
def Disk.access (d : Disk) (overlay_folder : String) : Int :=
  if (d.find overlay_folder).isSome then 0 else -1

/-- Tree removal `nftw(folder, remove, ...)` on the modelled disk: an existing folder
is removed with all its content (result `0`); a missing one cannot be walked (result
`-1`). -/
def Disk.nftw_remove (d : Disk) (overlay_folder : String) : Int × Disk :=
  if (d.find overlay_folder).isSome then
    (0, { d with dirs := d.dirs.filter (fun e => e.1 ≠ overlay_folder) })
  else
    (-1, d)

/-- Modelled from the spec: the missing static method `Overlay::Exists(dir, id)`: for
a directory that is present, "the expected id must equal the stored current id". -/
def Overlay.Exists (d : Disk) (overlay_folder : String) (id : String) : Bool :=
  match d.find overlay_folder with
  | some dir => decide (dir.id = id)
  | none => false

/-- Modelled from the spec: the missing method `Overlay::Open`, which "loads (or
validates absence of) the current overlay"; it starts with nothing pending. -/
def Overlay.Open (f : Faults) (d : Disk) : Bool × Disk :=
  if f.open_ok then (true, { d with pending_writes := [], pending_deletes := [] })
  else (false, d)

/-- Modelled from the spec: the missing method `Overlay::DeleteFile`, which "stages a
deletion". -/
def Overlay.DeleteFile (f : Faults) (d : Disk) (file : String) : Bool × Disk :=
  if f.delete_ok file then (true, { d with pending_deletes := d.pending_deletes ++ [file] })
  else (false, d)

/-- Modelled from the spec: the missing method `Overlay::WriteFile`, which "stages
content". -/
def Overlay.WriteFile (f : Faults) (d : Disk) (path : String) (content : String) :
    Bool × Disk :=
  if f.write_ok path then
    (true, { d with pending_writes := d.pending_writes ++ [(path, content)] })
  else (false, d)

/-- Modelled from the spec: the files of a directory once the pending deletions, then
the pending writes, have been applied ("every staged write/delete reflected"). -/
def Disk.applyPending (d : Disk) (files : List (String × String)) : List (String × String) :=
  d.pending_writes.foldl (fun fs w => fs.filter (fun e => e.1 ≠ w.1) ++ [w])
    (files.filter (fun e => ¬ e.1 ∈ d.pending_deletes))

/-- Modelled from the spec: the missing method `Overlay::Commit`, which "atomically
applies all staged operations and advances the version id", or else "leaves the
directory exactly as it was". -/
def Overlay.Commit (f : Faults) (d : Disk) (overlay_folder : String) (id : String) :
    Bool × Disk :=
  if f.commit_ok then
    let files := d.applyPending ((d.find overlay_folder).elim [] OverlayDir.files)
    (true,
      { dirs := (overlay_folder, { id := id, files := files }) ::
          d.dirs.filter (fun e => e.1 ≠ overlay_folder)
        pending_writes := []
        pending_deletes := [] })
  else (false, d)

/-- Modelled from the spec: the device made of the modelled disk and of the modelled
operations of the missing class `Overlay`. -/
def specDevice (f : Faults) : Device Disk where
  nftw_remove := Disk.nftw_remove
  access := Disk.access
  Overlay_Exists := Overlay.Exists
  Overlay_Open := fun d _ _ => Overlay.Open f d
  Overlay_DeleteFile := fun d _ _ file => Overlay.DeleteFile f d file
  Overlay_WriteFile := fun d _ _ path content => Overlay.WriteFile f d path content
  Overlay_Commit := fun d overlay_folder id => Overlay.Commit f d overlay_folder id

/-! ## Further views of a `Swap` run -/

/-- The response obtained by the first read of a run, which is the read of the listen
step, if that read gave one. -/
def listenStepResponse (trace : List Action) : Option proto.InstallServerResponse :=
  match trace.filter Action.isClientRead with
  | .ClientRead (some server_response) :: _ => some server_response
  | _ => none

/-- True for a write of a request whose message is a `send_request`: the request of
the request step. -/
def Action.isSendRequest : Action → Bool
  | .ClientWrite request _ =>
    match request.message with
    | .send_request _ => true
    | _ => false
  | _ => false

/-- True for a call that failed: a write or an attach that returned false, a read
that returned false. -/
def Action.failed : Action → Bool
  | .ClientWrite _ ok => !ok
  | .ClientRead result => result.isNone
  | .AttachAgent _ _ _ ok => !ok
  | _ => false

/-- The command object once `Swap` has filtered its process ids. -/
def Swap.filtered (env : Env) (self : BaseSwapCommand) : BaseSwapCommand :=
  { self with process_ids_ := FilterProcessIds env.stat self.process_ids_ }

/-- The request that `Swap` builds for the request step, from the command object
with its filtered process ids. -/
def Swap.server_request (self : BaseSwapCommand) (swap_request : proto.SwapRequest) :
    proto.InstallServerRequest :=
  { type := .HANDLE_REQUEST
    message := .send_request
      { agent_count := toInt32 (self.process_ids_.length + self.extra_agents_count_)
        swap_request := swap_request } }

/-! ## Server launcher (`install_server.cc`) -/

/-- Constant `kRunAsExecFailed` of `install_server.cc`. -/
def kRunAsExecFailed : String := "exec failed"

/-- Enumeration `StartResult` of `install_server.cc`. -/
inductive StartResult where
  | SUCCESS
  | TRY_COPY
  | FAILURE
deriving DecidableEq, Repr

/-- The search of `std::string::find` in the characters from position `pos` on: the
first position at which `str` occurs, `none` when there is none. -/
def string_find.from (str : List Char) : List Char → Nat → Option Nat
  | [], pos => if str.isPrefixOf [] then some pos else none
  | c :: cs, pos =>
    if str.isPrefixOf (c :: cs) then some pos else string_find.from str cs (pos + 1)

/-- The method `std::string::find(str)`: the first position at which `str` occurs in
`s`.  The result `none` stands for `std::string::npos`, a value of `size_t` that is
no position of any string and is not zero. -/
def string_find (s : String) (str : String) : Option Nat :=
  string_find.from str.toList s.toList 0

/-- The class `InstallClient`, reduced to the two descriptors it is built with. -/
structure InstallClient where
  input_fd : Int
  output_fd : Int
deriving DecidableEq, Repr

/-- What one launch of the server through `run-as` brings about:

* `forked` is the result of `ForkAndExec`, false only when the pipes cannot be made;
* `stdin_fd` and `stdout_fd` are the descriptors it hands out;
* `started` is the result of `WaitForStart` on the client built on them;
* `stderr` is what the process had written to its diagnostic stream when it went
  away without acknowledging. -/
structure Launch where
  forked : Bool
  stdin_fd : Int
  stdout_fd : Int
  started : Bool
  stderr : String
deriving DecidableEq, Repr

/-- The collaborators of the launcher: `ForkAndExec k package path` is what the
`k`-th launch (from 0) of `path` through the `run-as` executor of `package` brings
about, `Run package cmd args` the result of running a command through it. -/
structure LaunchEnv where
  ForkAndExec : Nat → String → String → Launch
  Run : String → String → List String → Bool

/-- One call issued by the launcher, with its outcome. -/
inductive LaunchAction where
  | ForkAndExec (exec_path : String) (result : StartResult)
  | Run (cmd : String) (args : List String) (ok : Bool)
deriving DecidableEq, Repr

/-- True for a launch attempt. -/
def LaunchAction.isLaunch : LaunchAction → Bool
  | .ForkAndExec _ _ => true
  | _ => false

/-- True for a copy of the server binary. -/
def LaunchAction.isCopy : LaunchAction → Bool
  | .Run cmd _ _ => cmd = "cp"
  | _ => false

/-- The number `count` that `read(stderr_fd, err_buffer, 127)` returns once the
process has gone away: the length of its diagnostic output, but 127 at most.  (A
failing read gives a negative number and takes the path of an empty output.) -/
def TryStartServer.count (stderr : String) : Int :=
  min stderr.length 127

/-- The string `error_message(err_buffer, 0, count)`: the bytes read, up to the first
zero byte. -/
def TryStartServer.error_message (stderr : String) : String :=
  String.mk ((stderr.toList.take 127).takeWhile (fun c => c ≠ Char.ofNat 0))

/-- The function `TryStartServer`, at the `k`-th launch of a run: the client, if any,
and the start result. -/
def TryStartServer (env : LaunchEnv) (k : Nat) (package_name : String)
    (exec_path : String) : Option InstallClient × StartResult :=
  let launch := env.ForkAndExec k package_name exec_path
  if launch.forked = false then
    -- ForkAndExec only returns false if the pipe creation fails.
    (none, .FAILURE)
  else if launch.started then
    (some { input_fd := launch.stdout_fd, output_fd := launch.stdin_fd }, .SUCCESS)
  else if TryStartServer.count launch.stderr > 0 then
    -- `if (error_message.find(kRunAsExecFailed))` tests the position for being
    -- different from zero.
    if string_find (TryStartServer.error_message launch.stderr) kRunAsExecFailed
        ≠ some 0 then
      (none, .TRY_COPY)
    else
      (none, .FAILURE)
  else
    (none, .FAILURE)

/-- The function `StartInstallServer`: the client, if any, and the calls issued. -/
def StartInstallServer (env : LaunchEnv) (server_path : String) (package_name : String)
    (exec_name : String) : Option InstallClient × List LaunchAction :=
  let exec_path := "/data/data/" ++ package_name ++ "/code_cache/"
  let first := TryStartServer env 0 package_name (exec_path ++ exec_name)
  if first.2 = .SUCCESS then
    (first.1, [.ForkAndExec (exec_path ++ exec_name) first.2])
  else if first.2 = .TRY_COPY then
    if env.Run package_name "cp" [server_path, exec_path ++ exec_name] = false then
      (none,
        [.ForkAndExec (exec_path ++ exec_name) first.2,
          .Run "cp" [server_path, exec_path ++ exec_name] false])
    else
      let second := TryStartServer env 1 package_name (exec_path ++ exec_name)
      (second.1,
        [.ForkAndExec (exec_path ++ exec_name) first.2,
          .Run "cp" [server_path, exec_path ++ exec_name] true,
          .ForkAndExec (exec_path ++ exec_name) second.2])
  else
    (none, [.ForkAndExec (exec_path ++ exec_name) first.2])

/-! ## The command (`BaseSwapCommand::Run`) -/

/-- Constant `kAgent` of `base_swap.h`. -/
def kAgent : String := "agent.so"

/-- Constant `kAgentAlt` of `base_swap.h`. -/
def kAgentAlt : String := "agent-alt.so"

/-- Constant `kInstallServer` of `base_swap.h`. -/
def kInstallServer : String := "install_server"

/-- The function `isUserDebug` of `base_swap.cc`, on the string that
`Env::build_type()` returns. -/
def isUserDebug (build_type : String) : Bool :=
  decide (string_find build_type "userdebug" ≠ none)

/-- The collaborators of one `Run`: the workspace (`GetTmpFolder`, `GetVersion`),
`ExtractBinaries`, the build type of the device, the launcher, the two methods a
derived class supplies (`PrepareAndBuildRequest` may change the command object and
the response, `ProcessResponse` the response), and the collaborators of `Swap`. -/
structure RunEnv where
  GetTmpFolder : String
  GetVersion : String
  ExtractBinaries : String → List String → Bool
  build_type : String
  launcher : LaunchEnv
  PrepareAndBuildRequest :
    BaseSwapCommand → proto.SwapResponse →
      BaseSwapCommand × proto.SwapRequest × proto.SwapResponse
  swap : Env
  ProcessResponse : BaseSwapCommand → proto.SwapResponse → proto.SwapResponse

/-- One step taken by `Run`, with its outcome where it has one. -/
inductive RunAction where
  | ExtractBinaries (target_dir : String) (files : List String) (ok : Bool)
  | StartInstallServer (server_path : String) (package_name : String)
      (exec_name : String) (client : Option InstallClient)
  | PrepareAndBuildRequest
  | Swap
  | ProcessResponse
deriving DecidableEq, Repr

/-- What a run of `Run` leaves behind: the swap response, the member `client_`, and
the steps taken in program order. -/
structure RunResult where
  swap_response : proto.SwapResponse
  client_ : Option InstallClient
  trace : List RunAction
deriving DecidableEq, Repr

/-- The method `BaseSwapCommand::Run`, on the swap response of the installer
response it is given. -/
def Run (env : RunEnv) (self : BaseSwapCommand) (swap_response : proto.SwapResponse) :
    RunResult :=
  if env.ExtractBinaries env.GetTmpFolder [kAgent, kAgentAlt, kInstallServer] = false then
    { swap_response := { swap_response with status := .SETUP_FAILED }
      client_ := none
      trace := [.ExtractBinaries env.GetTmpFolder [kAgent, kAgentAlt, kInstallServer] false] }
  else
    let client_ :=
      (StartInstallServer env.launcher (env.GetTmpFolder ++ kInstallServer)
        self.package_name_ (kInstallServer ++ "-" ++ env.GetVersion)).1
    let trace : List RunAction :=
      [.ExtractBinaries env.GetTmpFolder [kAgent, kAgentAlt, kInstallServer] true,
        .StartInstallServer (env.GetTmpFolder ++ kInstallServer) self.package_name_
          (kInstallServer ++ "-" ++ env.GetVersion) client_]
    if client_.isNone then
      if isUserDebug env.build_type then
        { swap_response :=
            { swap_response with
              status := .START_SERVER_FAILED_USERDEBUG
              extra := kInstallServer }
          client_ := client_
          trace := trace }
      else
        { swap_response :=
            { swap_response with
              status := .START_SERVER_FAILED
              extra := kInstallServer }
          client_ := client_
          trace := trace }
    else
      let prepared := env.PrepareAndBuildRequest self swap_response
      let swapped := Swap env.swap prepared.1 prepared.2.1 prepared.2.2
      { swap_response := env.ProcessResponse swapped.self swapped.swap_response
        client_ := client_
        trace := trace ++ [.PrepareAndBuildRequest, .Swap, .ProcessResponse] }


/-! ## The overlay install command (`overlay_install.cc`)

The constants `kAgent`, `kAgentAlt` and `kInstallServer` of `overlay_install.cc` have
the values of their namesakes of `base_swap.h`, defined above. -/

/-- The data member `request_` of `OverlayInstallCommand`. -/
structure OverlayInstallCommand where
  request_ : proto.OverlayInstallRequest
deriving DecidableEq, Repr

/-- The collaborators of an overlay install: the workspace, `ExtractBinaries`,
whether the build defines `__aarch64__` or `__x86_64__`, the launcher, whose `Run`
also gives the outcome of a command run through a `RunasExecutor`, and the install
client.  An exchange with the server is one write followed by one read; the
oracles of the client give the outcome of the write and of the read of the `k`-th
exchange.  `KillServerAndWait` gives the response it read, or `none` when it returns
false. -/
structure InstallEnv where
  GetTmpFolder : String
  GetVersion : String
  ExtractBinaries : String → List String → Bool
  wide_build : Bool
  launcher : LaunchEnv
  clientWrite : Nat → proto.InstallServerRequest → Bool
  clientRead : Nat → Option proto.InstallServerResponse
  KillServerAndWait : Option proto.InstallServerResponse

/-- One call issued by the overlay install command on a collaborator, with its
outcome. -/
inductive InstallAction where
  | ExtractBinaries (target_dir : String) (files : List String) (ok : Bool)
  | StartInstallServer (server_path : String) (package_name : String)
      (exec_name : String) (client : Option InstallClient)
  | ClientWrite (request : proto.InstallServerRequest) (ok : Bool)
  | ClientRead (result : Option proto.InstallServerResponse)
  | RunAs (cmd : String) (args : List String) (ok : Bool)
  | KillServerAndWait (result : Option proto.InstallServerResponse)
deriving DecidableEq, Repr

/-- True for a command run through the `RunasExecutor`: a provisioning step. -/
def InstallAction.isRunAs : InstallAction → Bool
  | .RunAs _ _ _ => true
  | _ => false

/-- The method `OverlayInstallCommand::CheckFilesExist`, as exchange number `k`.  The
set `missing_files` is a list of which only membership is used.  Returns the result,
the set and the calls issued. -/
def OverlayInstallCommand.CheckFilesExist (env : InstallEnv) (k : Nat)
    (files : List String) (missing_files : List String) :
    Bool × List String × List InstallAction :=
  let request : proto.InstallServerRequest :=
    { type := .HANDLE_REQUEST
      message := if files = [] then .MESSAGE_NOT_SET else .check_request { files := files } }
  if env.clientWrite k request = false then
    (false, missing_files, [.ClientWrite request false])
  else
    match env.clientRead k with
    | none => (false, missing_files, [.ClientWrite request true, .ClientRead none])
    | some response =>
      (true, missing_files ++ response.check_response.missing_files,
        [.ClientWrite request true, .ClientRead (some response)])

/-- The local `code_cache` of `SetUpAgent`. -/
def SetUpAgent.code_cache (self : OverlayInstallCommand) : String :=
  "/data/data/" ++ self.request_.package_name ++ "/code_cache/"

/-- The local `startup_path` of `SetUpAgent`. -/
def SetUpAgent.startup_path (self : OverlayInstallCommand) : String :=
  SetUpAgent.code_cache self ++ "startup_agents/"

/-- The local `studio_path` of `SetUpAgent`. -/
def SetUpAgent.studio_path (self : OverlayInstallCommand) : String :=
  SetUpAgent.code_cache self ++ ".studio/"

/-- The local `agent_path` of `SetUpAgent`: the agent file, versioned by its name. -/
def SetUpAgent.agent_path (env : InstallEnv) (self : OverlayInstallCommand)
    (agent : String) : String :=
  SetUpAgent.startup_path self ++ (env.GetVersion ++ "-") ++ agent

/-- The local `tmp_agent` of `SetUpAgent`. -/
def SetUpAgent.tmp_agent (env : InstallEnv) (agent : String) : String :=
  env.GetTmpFolder ++ agent

/-- The statements of `SetUpAgent` that follow the clean-up of other agents, from
the value that `missing_startup` has there and the calls issued so far. -/
def SetUpAgent.provision (env : InstallEnv) (self : OverlayInstallCommand)
    (agent : String) (overlay_response : proto.OverlayInstallResponse)
    (missing_files : List String) (missing_startup : Bool) (trace : List InstallAction) :
    proto.OverlayInstallResponse × List InstallAction :=
  let startup_path := SetUpAgent.startup_path self
  let studio_path := SetUpAgent.studio_path self
  let agent_path := SetUpAgent.agent_path env self agent
  let run_as := env.launcher.Run self.request_.package_name
  let missing_agent : Bool := decide (agent_path ∈ missing_files)
  if missing_startup && !run_as "mkdir" [startup_path] then
    ({ overlay_response with status := .SETUP_FAILED },
      trace ++ [.RunAs "mkdir" [startup_path] false])
  else
    let trace := trace ++
      (if missing_startup then [InstallAction.RunAs "mkdir" [startup_path] true] else [])
    if decide (studio_path ∈ missing_files) && !run_as "mkdir" [studio_path] then
      ({ overlay_response with status := .SETUP_FAILED },
        trace ++ [.RunAs "mkdir" [studio_path] false])
    else
      let trace := trace ++
        (if studio_path ∈ missing_files then
          [InstallAction.RunAs "mkdir" [studio_path] true] else [])
      let tmp_agent := SetUpAgent.tmp_agent env agent
      if missing_agent && !run_as "cp" ["-F", tmp_agent, agent_path] then
        ({ overlay_response with status := .SETUP_FAILED },
          trace ++ [.RunAs "cp" ["-F", tmp_agent, agent_path] false])
      else
        (overlay_response,
          trace ++
            (if missing_agent then
              [InstallAction.RunAs "cp" ["-F", tmp_agent, agent_path] true] else []))

/-- The set `missing_files` that `SetUpAgent` obtains from `CheckFilesExist`, as
exchange number `k`: empty when the check fails. -/
def SetUpAgent.missing_files (env : InstallEnv) (self : OverlayInstallCommand) (k : Nat)
    (agent : String) : List String :=
  (OverlayInstallCommand.CheckFilesExist env k
    [SetUpAgent.startup_path self, SetUpAgent.studio_path self,
      SetUpAgent.agent_path env self agent] []).2.1

/-- The method `OverlayInstallCommand::SetUpAgent`, whose check is exchange number
`k`.  Returns the response and the calls issued. -/
def OverlayInstallCommand.SetUpAgent (env : InstallEnv) (self : OverlayInstallCommand)
    (k : Nat) (agent : String) (overlay_response : proto.OverlayInstallResponse) :
    proto.OverlayInstallResponse × List InstallAction :=
  let startup_path := SetUpAgent.startup_path self
  let agent_path := SetUpAgent.agent_path env self agent
  let checked := OverlayInstallCommand.CheckFilesExist env k
    [startup_path, SetUpAgent.studio_path self, agent_path] []
  let missing_files := checked.2.1
  let run_as := env.launcher.Run self.request_.package_name
  let missing_startup : Bool := decide (startup_path ∈ missing_files)
  let missing_agent : Bool := decide (agent_path ∈ missing_files)
  -- Clean up other agents from the startup_agent directory.
  if !missing_startup && missing_agent then
    if run_as "rm" ["-f", "-r", startup_path] = false then
      ({ overlay_response with status := .SETUP_FAILED },
        checked.2.2 ++ [.RunAs "rm" ["-f", "-r", startup_path] false])
    else
      SetUpAgent.provision env self agent overlay_response missing_files true
        (checked.2.2 ++ [.RunAs "rm" ["-f", "-r", startup_path] true])
  else
    SetUpAgent.provision env self agent overlay_response missing_files missing_startup
      checked.2.2

/-- The method `OverlayInstallCommand::UpdateOverlay`, as exchange number `k`.
Returns the response and the calls issued. -/
def OverlayInstallCommand.UpdateOverlay (env : InstallEnv) (self : OverlayInstallCommand)
    (k : Nat) (overlay_response : proto.OverlayInstallResponse) :
    proto.OverlayInstallResponse × List InstallAction :=
  let install_request : proto.InstallServerRequest :=
    { type := .HANDLE_REQUEST
      message := .overlay_request
        { overlay_path := "/data/data/" ++ self.request_.package_name ++ "/code_cache"
          overlay_id := self.request_.overlay_id
          expected_overlay_id := self.request_.expected_overlay_id
          wipe_all_files := false
          files_to_delete := self.request_.deleted_files
          files_to_write := self.request_.overlay_files } }
  if env.clientWrite k install_request = false then
    ({ overlay_response with status := .WRITE_TO_SERVER_FAILED },
      [.ClientWrite install_request false])
  else
    match env.clientRead k with
    | none =>
      ({ overlay_response with status := .READ_FROM_SERVER_FAILED },
        [.ClientWrite install_request true, .ClientRead none])
    | some install_response =>
      let trace : List InstallAction :=
        [.ClientWrite install_request true, .ClientRead (some install_response)]
      match install_response.overlay_response.status with
      | .OK => ({ overlay_response with status := .OK }, trace)
      | .ID_MISMATCH =>
        ({ overlay_response with
            status := .OVERLAY_ID_MISMATCH
            extra := install_response.overlay_response.error_message }, trace)
      | .UPDATE_FAILED =>
        ({ overlay_response with
            status := .OVERLAY_UPDATE_FAILED
            extra := install_response.overlay_response.error_message }, trace)

/-- The method `OverlayInstallCommand::GetAgentLogs`, as exchange number `k`.
Returns the response and the calls issued. -/
def OverlayInstallCommand.GetAgentLogs (env : InstallEnv) (self : OverlayInstallCommand)
    (k : Nat) (response : proto.OverlayInstallResponse) :
    proto.OverlayInstallResponse × List InstallAction :=
  let install_request : proto.InstallServerRequest :=
    { type := .HANDLE_REQUEST
      message := .log_request { package_name := self.request_.package_name } }
  -- If this fails, we do not really care: it is best effort.
  if env.clientWrite k install_request = false then
    (response, [.ClientWrite install_request false])
  else
    match env.clientRead k with
    | none => (response, [.ClientWrite install_request true, .ClientRead none])
    | some install_response =>
      ({ response with
          agent_logs := response.agent_logs ++ install_response.log_response.logs },
        [.ClientWrite install_request true, .ClientRead (some install_response)])

/-- What a run of `OverlayInstallCommand::Run` leaves behind: the overlay install
response, the member `client_`, and the calls issued in program order. -/
structure InstallResult where
  overlay_response : proto.OverlayInstallResponse
  client_ : Option InstallClient
  trace : List InstallAction
deriving DecidableEq, Repr

/-- The method `OverlayInstallCommand::Run`, on the overlay install response of
the installer response it is given.  The three exchanges with the server are
numbered 0 (the check of `SetUpAgent`), 1 (`UpdateOverlay`) and 2
(`GetAgentLogs`). -/
def OverlayInstallCommand.Run (env : InstallEnv) (self : OverlayInstallCommand)
    (overlay_response : proto.OverlayInstallResponse) : InstallResult :=
  -- Determine which agent we need to use.
  let agent :=
    if env.wide_build then
      if self.request_.arch = .ARCH_64_BIT then kAgent else kAgentAlt
    else kAgent
  if env.ExtractBinaries env.GetTmpFolder [agent, kInstallServer] = false then
    { overlay_response := { overlay_response with status := .SETUP_FAILED }
      client_ := none
      trace := [.ExtractBinaries env.GetTmpFolder [agent, kInstallServer] false] }
  else
    let server_name := kInstallServer ++ "-" ++ env.GetVersion
    let client_ :=
      (StartInstallServer env.launcher (env.GetTmpFolder ++ kInstallServer)
        self.request_.package_name server_name).1
    let trace : List InstallAction :=
      [.ExtractBinaries env.GetTmpFolder [agent, kInstallServer] true,
        .StartInstallServer (env.GetTmpFolder ++ kInstallServer)
          self.request_.package_name server_name client_]
    if client_.isNone then
      { overlay_response := { overlay_response with status := .START_SERVER_FAILED }
        client_ := client_
        trace := trace }
    else
      let set_up := OverlayInstallCommand.SetUpAgent env self 0 agent overlay_response
      let updated := OverlayInstallCommand.UpdateOverlay env self 1 set_up.1
      let logged := OverlayInstallCommand.GetAgentLogs env self 2 updated.1
      let trace := trace ++ set_up.2 ++ updated.2 ++ logged.2
      match env.KillServerAndWait with
      | none =>
        { overlay_response := { logged.1 with status := .READ_FROM_SERVER_FAILED }
          client_ := client_
          trace := trace ++ [.KillServerAndWait none] }
      | some install_response =>
        { overlay_response := logged.1
          client_ := client_
          trace := trace ++ [.KillServerAndWait (some install_response)] }

/-! ## The filter of process ids, as a predicate -/

/-- The predicate of the filter in the words of its description: `stat` on the
`/proc` entry of the pid succeeds and the owning uid is between 10000 and 19999. -/
def isAppProcess (stat : String → Option Nat) (pid : Int) : Bool :=
  match stat ("/proc/" ++ to_string pid) with
  | some uid => decide (10000 ≤ uid ∧ uid ≤ 19999)
  | none => false

/-- The input list filtered by the predicate: the result that `FilterProcessIds` is
compared with. -/
def filterAppProcesses (stat : String → Option Nat) (process_ids : List Int) : List Int :=
  process_ids.filter (isAppProcess stat)

/-! ## Views of a run of the server and of the provisioning -/

/-- The result of a call of `input_.Read`, for such a call. -/
def ChannelAction.read : ChannelAction → Option (Option proto.InstallServerRequest)
  | .Read result => some result
  | _ => none

/-- The requests of an input that come before its first exit request or unreadable
message. -/
def requestsBeforeExit :
    List (Option proto.InstallServerRequest) → List proto.InstallServerRequest
  | [] => []
  | none :: _ => []
  | some request :: rest =>
    if request.type = .SERVER_EXIT then [] else request :: requestsBeforeExit rest

/-- The outcomes of the reads that an input allows: those up to and including its
first exit request or unreadable message, the end of the input being unreadable. -/
def readsUntilExit :
    List (Option proto.InstallServerRequest) → List (Option proto.InstallServerRequest)
  | [] => [none]
  | none :: _ => [none]
  | some request :: rest =>
    if request.type = .SERVER_EXIT then [some request]
    else some request :: readsUntilExit rest

/-- True for a handling request. -/
def isHandlingRequest (request : proto.InstallServerRequest) : Bool :=
  decide (request.type = .HANDLE_REQUEST)

/-- The provisioning steps that a reported missing set calls for, each a command
with its arguments, in the order: remove the startup directory, create it, create
the auxiliary directory, copy the agent. -/
def SetUpAgent.plan (env : InstallEnv) (self : OverlayInstallCommand) (agent : String)
    (missing_files : List String) : List (String × List String) :=
  let startup_path := SetUpAgent.startup_path self
  let studio_path := SetUpAgent.studio_path self
  let agent_path := SetUpAgent.agent_path env self agent
  (if startup_path ∉ missing_files ∧ agent_path ∈ missing_files then
    [("rm", ["-f", "-r", startup_path])] else []) ++
  (if startup_path ∈ missing_files ∨
      (startup_path ∉ missing_files ∧ agent_path ∈ missing_files) then
    [("mkdir", [startup_path])] else []) ++
  (if studio_path ∈ missing_files then [("mkdir", [studio_path])] else []) ++
  (if agent_path ∈ missing_files then
    [("cp", ["-F", SetUpAgent.tmp_agent env agent, agent_path])] else [])

/-- A list of provisioning steps run in order up to the first that fails: whether all
succeeded, and the calls issued. -/
def SetUpAgent.runPlan (run_as : String → List String → Bool) :
    List (String × List String) → Bool × List InstallAction
  | [] => (true, [])
  | c :: rest =>
    if run_as c.1 c.2 = false then
      (false, [.RunAs c.1 c.2 false])
    else
      let r := SetUpAgent.runPlan run_as rest
      (r.1, .RunAs c.1 c.2 true :: r.2)

/-! ## Example inputs -/

/-- A `/proc` with entries for the pids 7 and 8 (an application, uid 10050) and for
pid 9 (owned by root), and no other. -/
def Example.procStat (path : String) : Option Nat :=
  if path = "/proc/7" ∨ path = "/proc/8" then some 10050
  else if path = "/proc/9" then some 0 else none

/-- A well-formed server response carrying the given send response. -/
def Example.serverResponse (send : proto.SendAgentMessageResponse) :
    proto.InstallServerResponse where
  status := .REQUEST_COMPLETED
  socket_response := { status := .OK }
  send_response := send
  check_response := { missing_files := [] }
  overlay_response := { status := .OK, error_message := "" }
  events := []

/-- An environment in which every client call and every attach succeeds: the server
answers both reads with `Example.serverResponse send`, process inspection gives
`records`, and the paths in `dead` are the `/proc` entries that are gone at diagnosis
time. -/
def Example.env (send : proto.SendAgentMessageResponse)
    (records : Option (List ProcessRecord)) (dead : List String) : Env where
  stat := Example.procStat
  clientWrite := fun _ _ => true
  clientRead := fun _ => some (Example.serverResponse send)
  AttachAgent := fun _ _ _ _ => true
  GetProcessInfo := fun _ => records
  access := fun path => if path ∈ dead then -1 else 0
  kDefaultAddress := "irsocket"

/-- A command with nothing to swap. -/
def Example.idleCommand : BaseSwapCommand where
  package_name_ := "com.example.app"
  process_ids_ := []
  extra_agents_count_ := 0
  agent_path_ := "/data/local/tmp/agent.so"

/-- A command targeting the pids 7 and 8. -/
def Example.command : BaseSwapCommand where
  package_name_ := "com.example.app"
  process_ids_ := [7, 8]
  extra_agents_count_ := 0
  agent_path_ := "/data/local/tmp/agent.so"

/-- A swap request for the pids 7 and 8. -/
def Example.request : proto.SwapRequest where
  process_ids := [7, 8]
  payload := "patch"

/-- A fresh swap response. -/
def Example.freshResponse : proto.SwapResponse where
  status := .UNKNOWN
  extra := ""
  failed_agents := []

/-- An agent reply with status `OK`. -/
def Example.agentOK (pid : Int) : proto.AgentSwapResponse where
  pid := pid
  status := .OK
  events := []

/-- An agent reply with a status other than `OK`. -/
def Example.agentFailed (pid : Int) : proto.AgentSwapResponse where
  pid := pid
  status := .NOT_OK 1
  events := [{ text := "swap failed" }]

/-- A send response that is not `OK` and carries no agent reply. -/
def Example.noReplies : proto.SendAgentMessageResponse where
  status := .NOT_OK 1
  agent_responses := []

/-- The record of a crashing process. -/
def Example.crashed : ProcessRecord where
  process_name := "com.example.app"
  crashing := true
  not_responding := false

/-- The record of a process that is not responding. -/
def Example.unresponsive : ProcessRecord where
  process_name := "com.example.app:ui"
  crashing := false
  not_responding := true

/-- The record of a healthy process. -/
def Example.healthy : ProcessRecord where
  process_name := "com.example.app:sync"
  crashing := false
  not_responding := false

/-- The overlay folder of the example application. -/
def Example.overlayFolder : String := "/data/data/com.example.app/code_cache/.overlay"

/-- A disk whose overlay store is at id `v2` and holds one file. -/
def Example.diskAtV2 : Disk where
  dirs := [(Example.overlayFolder, { id := "v2", files := [("classes.dex", "old")] })]
  pending_writes := []
  pending_deletes := []

/-- No operation of the overlay fails. -/
def Example.noFaults : Faults where
  open_ok := true
  delete_ok := fun _ => true
  write_ok := fun _ => true
  commit_ok := true

/-- An overlay update to id `v3` that expects the store to be at id `v1`. -/
def Example.staleUpdate (wipe_all_files : Bool) : proto.OverlayUpdateRequest where
  overlay_path := "/data/data/com.example.app/code_cache"
  overlay_id := "v3"
  expected_overlay_id := "v1"
  wipe_all_files := wipe_all_files
  files_to_delete := ["classes.dex"]
  files_to_write := [{ path := "classes2.dex", content := "new" }]

/-- A fresh overlay update response. -/
def Example.freshUpdateResponse : proto.OverlayUpdateResponse where
  status := .OK
  error_message := ""


/-- A launch that forks but is not acknowledged, the process leaving the given
diagnostic output. -/
def Example.exited (stderr : String) : Launch where
  forked := true
  stdin_fd := 3
  stdout_fd := 4
  started := false
  stderr := stderr

/-- A launch that is acknowledged. -/
def Example.acknowledged : Launch where
  forked := true
  stdin_fd := 3
  stdout_fd := 4
  started := true
  stderr := ""

/-- A launcher whose first launch brings `first`, every later one `second`, and whose
copy has the result `cp_ok`. -/
def Example.launcher (first : Launch) (second : Launch) (cp_ok : Bool) : LaunchEnv where
  ForkAndExec := fun k _ _ => if k = 0 then first else second
  Run := fun _ _ _ => cp_ok

/-- The path the example server is launched at. -/
def Example.execPath : String :=
  "/data/data/com.example.app/code_cache/install_server-1"

/-- The diagnostic output of `run-as` for a missing binary. -/
def Example.execFailed : String :=
  "run-as: exec failed for /data/data/com.example.app/code_cache/install_server-1"

/-- A diagnostic output of `run-as` that does not hold the marker. -/
def Example.notDebuggable : String :=
  "run-as: package not debuggable: com.example.app"

/-- A run environment on a device of the given build type and with the given launcher:
extraction succeeds, the derived class builds `Example.request` and leaves the response
as it is. -/
def Example.runEnv (build_type : String) (launcher : LaunchEnv) : RunEnv where
  GetTmpFolder := "/data/local/tmp/.studio/tmp/"
  GetVersion := "1"
  ExtractBinaries := fun _ _ => true
  build_type := build_type
  launcher := launcher
  PrepareAndBuildRequest := fun self swap_response => (self, Example.request, swap_response)
  swap := Example.env Example.noReplies none []
  ProcessResponse := fun _ swap_response => swap_response

/-- An overlay update to id `v3` that expects the store to be at the given id, with or
without the wipe flag. -/
def Example.update (wipe_all_files : Bool) (expected_overlay_id : String) :
    proto.OverlayUpdateRequest :=
  { Example.staleUpdate wipe_all_files with expected_overlay_id := expected_overlay_id }

/-- Only the deletion of the given file fails. -/
def Example.deleteFails (file : String) : Faults where
  open_ok := true
  delete_ok := fun f => f ≠ file
  write_ok := fun _ => true
  commit_ok := true

/-- A device without overlay folder: nothing can be walked or found, and every
operation of the overlay succeeds. -/
def Example.bareDevice : Device Unit where
  nftw_remove := fun s _ => (-1, s)
  access := fun _ _ => -1
  Overlay_Exists := fun _ _ _ => false
  Overlay_Open := fun s _ _ => (true, s)
  Overlay_DeleteFile := fun s _ _ _ => (true, s)
  Overlay_WriteFile := fun s _ _ _ _ => (true, s)
  Overlay_Commit := fun s _ _ => (true, s)

/-- A first install: an overlay update to id `v1` that expects no overlay and asks
for a wipe. -/
def Example.firstInstall : proto.OverlayUpdateRequest where
  overlay_path := "/data/data/com.example.app/code_cache"
  overlay_id := "v1"
  expected_overlay_id := ""
  wipe_all_files := true
  files_to_delete := []
  files_to_write := [{ path := "classes.dex", content := "new" }]

/-- Zero enumerators for the examples. -/
def Example.zero : ZeroEnumerators where
  status := .OTHER 0
  socket_status := .OK
  send_status := .OK
  overlay_status := .OK

/-- A server environment whose `k`-th write has the outcome `write_ok k`, and that
drains the two events `first` and `second`. -/
def Example.serverEnv (write_ok : Nat → Bool) : ServerEnv String where
  Write := fun k _ => write_ok k
  ConsumeEvents := ["first", "second"]
  ConvertEventToProtoEvent := fun text => { text := text }
  zero := Example.zero

/-- A handling request that checks two paths. -/
def Example.checkRequest : proto.InstallServerRequest where
  type := .HANDLE_REQUEST
  message := .check_request { files := ["/data/a", "/data/b"] }

/-- An exit request. -/
def Example.exitRequest : proto.InstallServerRequest where
  type := .SERVER_EXIT
  message := .MESSAGE_NOT_SET

/-- A request whose type is neither `HANDLE_REQUEST` nor `SERVER_EXIT`. -/
def Example.untypedRequest : proto.InstallServerRequest where
  type := .OTHER 0
  message := .check_request { files := ["/data/a"] }

/-- An overlay install for `com.example.app`, from id `v1` to id `v2`. -/
def Example.installCommand : OverlayInstallCommand where
  request_ :=
    { package_name := "com.example.app"
      arch := .ARCH_64_BIT
      overlay_id := "v2"
      expected_overlay_id := "v1"
      overlay_files := [{ path := "classes.dex", content := "new" }]
      deleted_files := [] }

/-- The startup directory of the example. -/
def Example.startupPath : String := "/data/data/com.example.app/code_cache/startup_agents/"

/-- The auxiliary directory of the example. -/
def Example.studioPath : String := "/data/data/com.example.app/code_cache/.studio/"

/-- The versioned agent file of the example. -/
def Example.agentPath : String :=
  "/data/data/com.example.app/code_cache/startup_agents/1-agent.so"

/-- An install environment: the binaries are extracted, the server starts at the
first launch, the check reports `missing`, the overlay update is answered with the
status `OK`, the log request with one entry, and a command run through the
`RunasExecutor` has the outcome `run_as_ok cmd args`. -/
def Example.installEnv (missing : List String)
    (run_as_ok : String → List String → Bool) : InstallEnv where
  GetTmpFolder := "/data/local/tmp/.studio/tmp/"
  GetVersion := "1"
  ExtractBinaries := fun _ _ => true
  wide_build := true
  launcher :=
    { ForkAndExec := fun _ _ _ => Example.acknowledged
      Run := fun _ cmd args => run_as_ok cmd args }
  clientWrite := fun _ _ => true
  clientRead := fun _ =>
    some
      { Example.serverResponse Example.noReplies with
        check_response := { missing_files := missing }
        log_response := { logs := [{ payload := "crash" }] } }
  KillServerAndWait :=
    some { Example.serverResponse Example.noReplies with status := .SERVER_EXITED }

/-- A fresh overlay install response, its status at a zero enumerator that is
none of those the code names. -/
def Example.freshInstallResponse : proto.OverlayInstallResponse where
  status := .OTHER 0
  extra := ""
  agent_logs := []

/-! ## Properties of the swap orchestrator -/

/-- C1.  Every pid that `FilterProcessIds` leaves in the list is one for which `stat` on
`/proc/<pid>` succeeded and gave an owning uid between 10000 and 19999, both bounds
included; this for every pid list and every outcome of `stat`. -/
theorem FilterProcessIds_survivor_in_app_uid_range (stat : String → Option Nat)
    (process_ids : List Int) (pid : Int) (h : pid ∈ FilterProcessIds stat process_ids) :
    ∃ uid, stat ("/proc/" ++ to_string pid) = some uid ∧ 10000 ≤ uid ∧ uid ≤ 19999 := by
  induction process_ids with
  | nil => simp [FilterProcessIds] at h
  | cons p rest ih =>
    unfold FilterProcessIds at h
    split at h
    · exact ih h
    · rename_i st_uid hstat
      split at h
      · exact ih h
      · rename_i hrange
        rcases List.mem_cons.mp h with rfl | h
        · refine ⟨st_uid, hstat, ?_, ?_⟩ <;> simp only [kFirstAppUid, kLastAppUid] at hrange <;> omega
        · exact ih h

/-- Witness for C1: of the pids 3 (no `/proc` entry), 7 (uid 10050) and 9 (uid 0), pid 7
is kept. -/
theorem FilterProcessIds_survivor_in_app_uid_range_witness :
    (7 : Int) ∈ FilterProcessIds Example.procStat [3, 7, 9] ∧
      ∃ uid, Example.procStat ("/proc/" ++ to_string 7) = some uid ∧
        10000 ≤ uid ∧ uid ≤ 19999 :=
  ⟨by decide,
    FilterProcessIds_survivor_in_app_uid_range Example.procStat [3, 7, 9] 7 (by decide)⟩

/-! ### Auxiliary facts on runs -/

theorem ListenForAgents_trace_cases (env : Env) :
    (∃ request, (ListenForAgents env).2 = [.ClientWrite request false] ∧
        (ListenForAgents env).1 = .WRITE_TO_SERVER_FAILED) ∨
    (∃ request, (ListenForAgents env).2 = [.ClientWrite request true, .ClientRead none] ∧
        (ListenForAgents env).1 = .READ_FROM_SERVER_FAILED) ∨
    (∃ request r, (ListenForAgents env).2 =
        [.ClientWrite request true, .ClientRead (some r)] ∧
        ((ListenForAgents env).1 = .READY_FOR_AGENTS_NOT_RECEIVED ∨
          (ListenForAgents env).1 = .OK)) := by
  unfold ListenForAgents
  simp only
  split
  · exact Or.inl ⟨_, rfl, rfl⟩
  · split
    · exact Or.inr (Or.inl ⟨_, rfl, rfl⟩)
    · split
      · exact Or.inr (Or.inr ⟨_, _, rfl, Or.inl rfl⟩)
      · exact Or.inr (Or.inr ⟨_, _, rfl, Or.inr rfl⟩)

theorem AttachAgents_loop_trace (env : Env) (agent_path_ : String) (pids : List Int) (k : Nat) :
    ∀ a ∈ (AttachAgents.loop env agent_path_ k pids).2, a.isAttachAgent = true := by
  induction pids generalizing k with
  | nil => simp [AttachAgents.loop]
  | cons pid rest ih =>
    unfold AttachAgents.loop
    split
    · simp [Action.isAttachAgent]
    · intro a ha
      simp only [List.mem_cons] at ha
      rcases ha with rfl | ha
      · rfl
      · exact ih _ a ha

theorem findTerminated_trace (env : Env) (pids : List Int) :
    ∀ a ∈ (Swap.findTerminated env pids).2, a.isDiagnosis = true := by
  induction pids with
  | nil => simp [Swap.findTerminated]
  | cons pid rest ih =>
    unfold Swap.findTerminated
    simp only
    split
    · simp [Action.isDiagnosis]
    · intro a ha
      simp only [List.mem_cons] at ha
      rcases ha with rfl | ha
      · rfl
      · exact ih a ha

theorem filter_isClientRead_of_isAttachAgent (l : List Action)
    (h : ∀ a ∈ l, a.isAttachAgent = true) : l.filter Action.isClientRead = [] := by
  rw [List.filter_eq_nil_iff]
  intro a ha
  have := h a ha
  cases a <;> simp_all [Action.isAttachAgent, Action.isClientRead]

theorem filter_isClientRead_of_isDiagnosis (l : List Action)
    (h : ∀ a ∈ l, a.isDiagnosis = true) : l.filter Action.isClientRead = [] := by
  rw [List.filter_eq_nil_iff]
  intro a ha
  have := h a ha
  cases a <;> simp_all [Action.isDiagnosis, Action.isClientRead]

theorem collectFailedAgents_eq (agents : List proto.AgentSwapResponse)
    (swap_response : proto.SwapResponse) :
    Swap.collectFailedAgents agents swap_response =
      { swap_response with
        failed_agents := swap_response.failed_agents ++
          agents.filter (fun a => decide (a.status ≠ .OK)) } := by
  induction agents generalizing swap_response with
  | nil => simp [Swap.collectFailedAgents]
  | cons a rest ih =>
    unfold Swap.collectFailedAgents
    split
    · rename_i h
      rw [ih]
      simp [List.filter_cons, h]
    · rename_i h
      rw [ih]
      simp [List.filter_cons, h]

theorem diagnose_trace (env : Env) (self : BaseSwapCommand) (swap_request : proto.SwapRequest)
    (swap_response : proto.SwapResponse) (trace : List Action) :
    ∃ d, (Swap.diagnose env self swap_request swap_response trace).trace = trace ++ d ∧
      (∀ a ∈ d, a.isDiagnosis = true) ∧ d ≠ [] := by
  unfold Swap.diagnose
  simp only
  split
  · exact ⟨[_], rfl, by simp [Action.isDiagnosis], by simp⟩
  · split
    · rename_i h
      refine ⟨_ :: _, by simp [List.append_assoc]; exact ⟨rfl, rfl⟩, ?_, by simp⟩
      intro a ha
      simp only [List.mem_cons] at ha
      rcases ha with rfl | ha
      · rfl
      · have := findTerminated_trace env swap_request.process_ids a
        rw [h] at this
        exact this ha
    · rename_i h
      refine ⟨_ :: _, by simp [List.append_assoc]; exact ⟨rfl, rfl⟩, ?_, by simp⟩
      intro a ha
      simp only [List.mem_cons] at ha
      rcases ha with rfl | ha
      · rfl
      · have := findTerminated_trace env swap_request.process_ids a
        rw [h] at this
        exact this ha

theorem aggregate_trace (env : Env) (self : BaseSwapCommand) (swap_request : proto.SwapRequest)
    (swap_response : proto.SwapResponse) (sr : proto.InstallServerResponse)
    (trace : List Action) :
    ∃ d, (Swap.aggregate env self swap_request swap_response sr trace).trace = trace ++ d ∧
      (∀ a ∈ d, a.isDiagnosis = true) := by
  unfold Swap.aggregate
  simp only
  split
  · exact ⟨[], by simp, by simp⟩
  · split
    · split
      · exact ⟨[], by simp, by simp⟩
      · exact ⟨[], by simp, by simp⟩
    · obtain ⟨d, h1, h2, _⟩ := diagnose_trace env self swap_request
        (Swap.collectFailedAgents sr.send_response.agent_responses swap_response) trace
      exact ⟨d, h1, h2⟩


theorem requestStepResponse_run (rq w : proto.InstallServerRequest)
    (r0 : proto.InstallServerResponse) (x : Option proto.InstallServerResponse)
    (a d : List Action) (ha : ∀ e ∈ a, e.isAttachAgent = true)
    (hd : ∀ e ∈ d, e.isDiagnosis = true) :
    requestStepResponse
      ([.ClientWrite rq true, .ClientRead (some r0)] ++ a ++ [.ClientWrite w true] ++
        [.ClientRead x] ++ d) = x := by
  unfold requestStepResponse
  simp only [List.filter_append, filter_isClientRead_of_isAttachAgent a ha,
    filter_isClientRead_of_isDiagnosis d hd]
  cases x <;> simp [List.filter, Action.isClientRead]

theorem Swap_cases (env : Env) (self : BaseSwapCommand) (swap_request : proto.SwapRequest)
    (swap_response : proto.SwapResponse) :
    (requestStepResponse (Swap env self swap_request swap_response).trace = none ∧
      (Swap env self swap_request swap_response).swap_response.failed_agents =
        swap_response.failed_agents ∧
      (∀ a ∈ (Swap env self swap_request swap_response).trace, a.isDiagnosis = false)) ∨
    (swap_response.status = .UNKNOWN ∧
      ∃ sr tr, requestStepResponse (Swap env self swap_request swap_response).trace = some sr ∧
        (∀ a ∈ tr, a.isDiagnosis = false) ∧
        Swap env self swap_request swap_response =
          Swap.aggregate env
            { self with process_ids_ := FilterProcessIds env.stat self.process_ids_ }
            swap_request swap_response sr tr) := by
  have hat : ∀ a ∈ (AttachAgents env
      { self with process_ids_ := FilterProcessIds env.stat self.process_ids_ }).2,
      a.isAttachAgent = true := AttachAgents_loop_trace env _ _ 0
  have hatr := filter_isClientRead_of_isAttachAgent _ hat
  have hatd : ∀ a ∈ (AttachAgents env
      { self with process_ids_ := FilterProcessIds env.stat self.process_ids_ }).2,
      a.isDiagnosis = false := by
    intro a ha
    have := hat a ha
    cases a <;> simp_all [Action.isAttachAgent, Action.isDiagnosis]
  unfold Swap
  split
  · left
    simp [requestStepResponse]
  rename_i hU
  dsimp only
  split
  · left
    simp [requestStepResponse]
  split
  · left
    rcases ListenForAgents_trace_cases env with ⟨rq, ht, hs⟩ | ⟨rq, ht, hs⟩ | ⟨rq, r0, ht, hs⟩ <;>
      simp [ht, requestStepResponse, Action.isClientRead, Action.isDiagnosis]
  rename_i hs
  rcases ListenForAgents_trace_cases env with ⟨rq, ht, hs1⟩ | ⟨rq, ht, hs1⟩ | ⟨rq, r0, ht, hs1⟩
  · simp [hs1] at hs
  · simp [hs1] at hs
  split
  · left
    refine ⟨?_, rfl, ?_⟩
    · simp [ht, requestStepResponse, List.filter_append, hatr, Action.isClientRead]
    · intro a ha
      simp only [ht, List.mem_append, List.mem_cons, List.mem_singleton] at ha
      rcases ha with (rfl | rfl | ha) | ha
      · rfl
      · rfl
      · simp at ha
      · exact hatd a ha
  split
  · left
    refine ⟨?_, rfl, ?_⟩
    · simp [ht, requestStepResponse, List.filter_append, hatr, Action.isClientRead]
    · intro a ha
      simp only [ht, List.mem_append, List.mem_cons, List.mem_singleton] at ha
      rcases ha with ((rfl | rfl | ha) | ha) | ha
      · rfl
      · rfl
      · simp at ha
      · exact hatd a ha
      · simp at ha
        subst ha
        rfl
  split
  · left
    refine ⟨?_, rfl, ?_⟩
    · simp [ht, requestStepResponse, List.filter_append, hatr, Action.isClientRead]
    · intro a ha
      simp only [ht, List.mem_append, List.mem_cons, List.mem_singleton] at ha
      rcases ha with (((rfl | rfl | ha) | ha) | ha) | ha
      · rfl
      · rfl
      · simp at ha
      · exact hatd a ha
      · simp at ha
        subst ha
        rfl
      · simp at ha
        subst ha
        rfl
  rename_i sr hread
  right
  refine ⟨by simpa using hU, sr, _, ?_, ?_, rfl⟩
  · obtain ⟨d, hd1, hd2⟩ := aggregate_trace env
      { self with process_ids_ := FilterProcessIds env.stat self.process_ids_ }
      swap_request swap_response sr
      ((ListenForAgents env).2 ++ (AttachAgents env
        { self with process_ids_ := FilterProcessIds env.stat self.process_ids_ }).2 ++
        [.ClientWrite { type := .HANDLE_REQUEST
                        message := .send_request
                          { agent_count := toInt32
                              ((FilterProcessIds env.stat self.process_ids_).length +
                                self.extra_agents_count_)
                            swap_request := swap_request } } true] ++
        [.ClientRead (some sr)])
    rw [hd1, ht]
    exact requestStepResponse_run _ _ _ _ _ _ hat hd2
  · intro a ha
    simp only [ht, List.mem_append, List.mem_cons, List.mem_singleton] at ha
    rcases ha with (((rfl | rfl | ha) | ha) | ha) | ha
    · rfl
    · rfl
    · simp at ha
    · exact hatd a ha
    · simp at ha
      subst ha
      rfl
    · simp at ha
      subst ha
      rfl

theorem inspectRecords_eq (records : List ProcessRecord) :
    Swap.inspectRecords records =
      (records.find? (fun q => q.crashing || q.not_responding)).map
        (fun c => (if c.crashing then .PROCESS_CRASHING else .PROCESS_NOT_RESPONDING,
          c.process_name)) := by
  induction records with
  | nil => rfl
  | cons r rest ih =>
    unfold Swap.inspectRecords
    by_cases hc : r.crashing = true
    · simp [hc, List.find?_cons]
    · by_cases hn : r.not_responding = true
      · simp [hc, hn, List.find?_cons]
      · simp [hc, hn, List.find?_cons, ih]

theorem findTerminated_fst (env : Env) (pids : List Int) :
    (Swap.findTerminated env pids).1 =
      (pids.find? (fun pid => decide (env.access ("/proc/" ++ to_string pid) ≠ 0))).map
        to_string := by
  induction pids with
  | nil => rfl
  | cons pid rest ih =>
    unfold Swap.findTerminated
    by_cases h : env.access ("/proc/" ++ to_string pid) = 0
    · simp [h, List.find?_cons, ih]
    · simp [h, List.find?_cons]

theorem diagnose_response (env : Env) (self : BaseSwapCommand)
    (swap_request : proto.SwapRequest) (swap_response : proto.SwapResponse)
    (trace : List Action) :
    (Swap.diagnose env self swap_request swap_response trace).swap_response =
      match (env.GetProcessInfo self.package_name_).bind Swap.inspectRecords with
      | some (status, extra) => { swap_response with status := status, extra := extra }
      | none =>
        match (Swap.findTerminated env swap_request.process_ids).1 with
        | some pid_string =>
          { swap_response with status := .PROCESS_TERMINATED, extra := pid_string }
        | none => { swap_response with status := .MISSING_AGENT_RESPONSES } := by
  unfold Swap.diagnose
  dsimp only
  split
  · rfl
  · split
    · rename_i h
      simp [h]
    · rename_i h
      simp [h]

theorem aggregate_not_OK (env : Env) (self : BaseSwapCommand)
    (swap_request : proto.SwapRequest) (swap_response : proto.SwapResponse)
    (sr : proto.InstallServerResponse) (trace : List Action)
    (hc : sr.status = .REQUEST_COMPLETED) (hn : sr.send_response.status ≠ .OK) :
    Swap.aggregate env self swap_request swap_response sr trace =
      Swap.diagnose env self swap_request
        (Swap.collectFailedAgents sr.send_response.agent_responses swap_response) trace := by
  unfold Swap.aggregate
  simp [hc, hn]

theorem aggregate_OK (env : Env) (self : BaseSwapCommand)
    (swap_request : proto.SwapRequest) (swap_response : proto.SwapResponse)
    (sr : proto.InstallServerResponse) (trace : List Action)
    (hc : sr.status = .REQUEST_COMPLETED) (hn : sr.send_response.status = .OK) :
    Swap.aggregate env self swap_request swap_response sr trace =
      { self := self
        swap_response :=
          { Swap.collectFailedAgents sr.send_response.agent_responses swap_response with
            status :=
              if (Swap.collectFailedAgents sr.send_response.agent_responses
                  swap_response).failed_agents.length = 0 then .OK else .AGENT_ERROR }
        trace := trace } := by
  unfold Swap.aggregate
  by_cases hl : (Swap.collectFailedAgents sr.send_response.agent_responses
      swap_response).failed_agents = []
  · simp [hc, hn, hl]
  · simp [hc, hn, hl]

/-- The outcome of the diagnosis that `Swap` runs after a well-formed server response
that is not `OK`. -/
theorem Swap_diagnosed (env : Env) (self : BaseSwapCommand)
    (swap_request : proto.SwapRequest) (swap_response : proto.SwapResponse)
    (sr : proto.InstallServerResponse)
    (hread : requestStepResponse (Swap env self swap_request swap_response).trace = some sr)
    (hc : sr.status = .REQUEST_COMPLETED) (hn : sr.send_response.status ≠ .OK) :
    ∃ r : proto.SwapResponse,
      (Swap env self swap_request swap_response).swap_response =
        match (env.GetProcessInfo self.package_name_).bind Swap.inspectRecords with
        | some (status, extra) => { r with status := status, extra := extra }
        | none =>
          match (Swap.findTerminated env swap_request.process_ids).1 with
          | some pid_string => { r with status := .PROCESS_TERMINATED, extra := pid_string }
          | none => { r with status := .MISSING_AGENT_RESPONSES } := by
  rcases Swap_cases env self swap_request swap_response with ⟨h, _⟩ | ⟨_, sr1, tr, h, _, heq⟩
  · rw [h] at hread
    cases hread
  · rw [h] at hread
    cases hread
    rw [heq, aggregate_not_OK _ _ _ _ _ _ hc hn, diagnose_response]
    exact ⟨_, rfl⟩

/-- C2, as stated, fails: with no pid and no extra agent, a run of `Swap` entered with
the status `SETUP_FAILED` returns at the entry guard and leaves that status, not `OK`. -/
theorem Swap_nothing_to_swap_counterexample :
    Example.idleCommand.process_ids_ = [] ∧
      Example.idleCommand.extra_agents_count_ = 0 ∧
      (Swap (Example.env Example.noReplies none []) Example.idleCommand Example.request
        { Example.freshResponse with status := .SETUP_FAILED }).swap_response.status
        = .SETUP_FAILED := by
  decide

/-- C2, amended.  Whenever `Swap` is entered with status `UNKNOWN`, no pid is left after
filtering (in particular when `process_ids_` is empty) and `extra_agents_count_` is
zero, `Swap` yields `OK` and issues no call at all: no request is written to the
install client, no response is read from it, and no agent is attached. -/
theorem Swap_nothing_to_swap (env : Env) (self : BaseSwapCommand)
    (swap_request : proto.SwapRequest) (swap_response : proto.SwapResponse)
    (hU : swap_response.status = .UNKNOWN)
    (hp : FilterProcessIds env.stat self.process_ids_ = [])
    (he : self.extra_agents_count_ = 0) :
    (Swap env self swap_request swap_response).swap_response.status = .OK ∧
      (Swap env self swap_request swap_response).trace = [] := by
  simp [Swap, hU, hp, he]

/-- Witness for C2 (amended): the idle command, entered with a fresh response. -/
theorem Swap_nothing_to_swap_witness :
    (Swap (Example.env Example.noReplies none []) Example.idleCommand Example.request
        Example.freshResponse).swap_response.status = .OK ∧
      (Swap (Example.env Example.noReplies none []) Example.idleCommand Example.request
        Example.freshResponse).trace = [] :=
  Swap_nothing_to_swap (Example.env Example.noReplies none []) Example.idleCommand
    Example.request Example.freshResponse rfl rfl rfl

/-- C3, as stated, fails: the server reports not-OK, the process records hold a process
that is not responding followed by a crashing one, and the target pid 8 has terminated;
`Swap` reports `PROCESS_NOT_RESPONDING`, not `PROCESS_CRASHING`. -/
theorem Swap_crashing_and_terminated_counterexample :
    requestStepResponse
        (Swap (Example.env Example.noReplies
          (some [Example.unresponsive, Example.crashed]) ["/proc/8"])
          Example.command Example.request Example.freshResponse).trace
        = some (Example.serverResponse Example.noReplies) ∧
      Example.noReplies.status ≠ .OK ∧
      Example.crashed.crashing = true ∧
      (8 : Int) ∈ Example.request.process_ids ∧
      (Example.env Example.noReplies
          (some [Example.unresponsive, Example.crashed]) ["/proc/8"]).access "/proc/8" ≠ 0 ∧
      (Swap (Example.env Example.noReplies
          (some [Example.unresponsive, Example.crashed]) ["/proc/8"])
          Example.command Example.request Example.freshResponse).swap_response.status
        = .PROCESS_NOT_RESPONDING := by
  decide

/-- C3, amended.  When the server reports overall not-OK, the first process record that
is crashing or not responding is a crashing one, and a target pid has terminated,
`Swap` reports `PROCESS_CRASHING` with the name of that crashing process in `extra`,
never `PROCESS_TERMINATED`. -/
theorem Swap_crashing_before_terminated (env : Env) (self : BaseSwapCommand)
    (swap_request : proto.SwapRequest) (swap_response : proto.SwapResponse)
    (sr : proto.InstallServerResponse) (records : List ProcessRecord) (c : ProcessRecord)
    (pid : Int)
    (hread : requestStepResponse (Swap env self swap_request swap_response).trace = some sr)
    (hcompleted : sr.status = .REQUEST_COMPLETED)
    (hnotok : sr.send_response.status ≠ .OK)
    (hrecords : env.GetProcessInfo self.package_name_ = some records)
    (hfirst : records.find? (fun q => q.crashing || q.not_responding) = some c)
    (hcrashing : c.crashing = true)
    (_hpid : pid ∈ swap_request.process_ids)
    (_hterminated : env.access ("/proc/" ++ to_string pid) ≠ 0) :
    (Swap env self swap_request swap_response).swap_response.status = .PROCESS_CRASHING ∧
      (Swap env self swap_request swap_response).swap_response.extra = c.process_name ∧
      (Swap env self swap_request swap_response).swap_response.status
        ≠ .PROCESS_TERMINATED := by
  obtain ⟨r, hr⟩ := Swap_diagnosed env self swap_request swap_response sr hread hcompleted
    hnotok
  rw [hr, hrecords]
  simp [inspectRecords_eq, hfirst, hcrashing]

/-- Witness for C3 (amended): a crashing process, a healthy one, and the terminated
pid 8. -/
theorem Swap_crashing_before_terminated_witness :
    (Swap (Example.env Example.noReplies (some [Example.healthy, Example.crashed])
        ["/proc/8"]) Example.command Example.request
        Example.freshResponse).swap_response.status = .PROCESS_CRASHING ∧
      (Swap (Example.env Example.noReplies (some [Example.healthy, Example.crashed])
        ["/proc/8"]) Example.command Example.request
        Example.freshResponse).swap_response.extra = Example.crashed.process_name ∧
      (Swap (Example.env Example.noReplies (some [Example.healthy, Example.crashed])
        ["/proc/8"]) Example.command Example.request
        Example.freshResponse).swap_response.status ≠ .PROCESS_TERMINATED :=
  Swap_crashing_before_terminated
    (Example.env Example.noReplies (some [Example.healthy, Example.crashed]) ["/proc/8"])
    Example.command Example.request Example.freshResponse
    (Example.serverResponse Example.noReplies) [Example.healthy, Example.crashed]
    Example.crashed 8 (by decide) (by decide) (by decide) (by decide) (by decide)
    (by decide) (by decide) (by decide)

/-- C4, as stated, fails: with the records of a healthy process, of one that is not
responding and of a crashing one, in this order, `Swap` reports
`PROCESS_NOT_RESPONDING` although a record is crashing. -/
theorem Swap_record_precedence_counterexample :
    Example.crashed ∈ [Example.healthy, Example.unresponsive, Example.crashed] ∧
      Example.crashed.crashing = true ∧
      (Swap (Example.env Example.noReplies
          (some [Example.healthy, Example.unresponsive, Example.crashed]) [])
          Example.command Example.request Example.freshResponse).swap_response.status
        = .PROCESS_NOT_RESPONDING := by
  decide

/-- C4, amended.  In the diagnosis of a not-OK server response, the first process record
in list order that is crashing or not responding decides: the status is
`PROCESS_CRASHING` if that record is crashing (within one record crashing takes
precedence over not responding) and `PROCESS_NOT_RESPONDING` otherwise, with the name
of that process in `extra`; so `PROCESS_NOT_RESPONDING` is reported only when some
record is not responding and neither it nor any record before it is crashing.  When
no record is crashing or not responding, neither status is reported. -/
theorem Swap_record_precedence (env : Env) (self : BaseSwapCommand)
    (swap_request : proto.SwapRequest) (swap_response : proto.SwapResponse)
    (sr : proto.InstallServerResponse) (records : List ProcessRecord)
    (hread : requestStepResponse (Swap env self swap_request swap_response).trace = some sr)
    (hcompleted : sr.status = .REQUEST_COMPLETED)
    (hnotok : sr.send_response.status ≠ .OK)
    (hrecords : env.GetProcessInfo self.package_name_ = some records) :
    match records.find? (fun q => q.crashing || q.not_responding) with
    | some c =>
      (Swap env self swap_request swap_response).swap_response.status =
          (if c.crashing then .PROCESS_CRASHING else .PROCESS_NOT_RESPONDING) ∧
        (Swap env self swap_request swap_response).swap_response.extra = c.process_name
    | none =>
      (Swap env self swap_request swap_response).swap_response.status ≠ .PROCESS_CRASHING ∧
        (Swap env self swap_request swap_response).swap_response.status
          ≠ .PROCESS_NOT_RESPONDING := by
  obtain ⟨r, hr⟩ := Swap_diagnosed env self swap_request swap_response sr hread hcompleted
    hnotok
  rw [hr, hrecords]
  simp only [Option.some_bind, inspectRecords_eq]
  cases hf : records.find? (fun q => q.crashing || q.not_responding) with
  | some c => simp
  | none =>
    simp only [Option.map_none']
    cases (Swap.findTerminated env swap_request.process_ids).1 <;> simp

/-- Witness for C4 (amended): the records of the counterexample; the first flagged
record is the one that is not responding. -/
theorem Swap_record_precedence_witness :
    (Swap (Example.env Example.noReplies
        (some [Example.healthy, Example.unresponsive, Example.crashed]) [])
        Example.command Example.request Example.freshResponse).swap_response.status =
        .PROCESS_NOT_RESPONDING ∧
      (Swap (Example.env Example.noReplies
        (some [Example.healthy, Example.unresponsive, Example.crashed]) [])
        Example.command Example.request Example.freshResponse).swap_response.extra =
        Example.unresponsive.process_name :=
  Swap_record_precedence
    (Example.env Example.noReplies
      (some [Example.healthy, Example.unresponsive, Example.crashed]) [])
    Example.command Example.request Example.freshResponse
    (Example.serverResponse Example.noReplies)
    [Example.healthy, Example.unresponsive, Example.crashed]
    (by decide) (by decide) (by decide) (by decide)

/-- C5.  In the diagnosis of a not-OK server response where no process record is
crashing or not responding (or process inspection gave no records): if some pid of the
swap request has no `/proc/<pid>` entry, the status is `PROCESS_TERMINATED` and `extra`
is the decimal string of the first such pid in request order; otherwise the status is
`MISSING_AGENT_RESPONSES`. -/
theorem Swap_terminated_or_missing (env : Env) (self : BaseSwapCommand)
    (swap_request : proto.SwapRequest) (swap_response : proto.SwapResponse)
    (sr : proto.InstallServerResponse)
    (hread : requestStepResponse (Swap env self swap_request swap_response).trace = some sr)
    (hcompleted : sr.status = .REQUEST_COMPLETED)
    (hnotok : sr.send_response.status ≠ .OK)
    (hflags : ∀ records, env.GetProcessInfo self.package_name_ = some records →
      ∀ q ∈ records, q.crashing = false ∧ q.not_responding = false) :
    match swap_request.process_ids.find?
        (fun pid => decide (env.access ("/proc/" ++ to_string pid) ≠ 0)) with
    | some pid =>
      (Swap env self swap_request swap_response).swap_response.status
          = .PROCESS_TERMINATED ∧
        (Swap env self swap_request swap_response).swap_response.extra = to_string pid
    | none =>
      (Swap env self swap_request swap_response).swap_response.status
        = .MISSING_AGENT_RESPONSES := by
  obtain ⟨r, hr⟩ := Swap_diagnosed env self swap_request swap_response sr hread hcompleted
    hnotok
  have hnone : (env.GetProcessInfo self.package_name_).bind Swap.inspectRecords = none := by
    cases hg : env.GetProcessInfo self.package_name_ with
    | none => rfl
    | some records =>
      simp only [Option.some_bind, inspectRecords_eq, Option.map_eq_none',
        List.find?_eq_none]
      intro q hq
      have := hflags records hg q hq
      simp [this.1, this.2]
  rw [hr, hnone, findTerminated_fst]
  cases hf : swap_request.process_ids.find?
      (fun pid => decide (env.access ("/proc/" ++ to_string pid) ≠ 0)) with
  | some pid => simp
  | none => simp

/-- Witness for C5: only healthy records and the pid 8 gone: `PROCESS_TERMINATED` with
`extra` equal to the string 8. -/
theorem Swap_terminated_or_missing_witness :
    (Swap (Example.env Example.noReplies (some [Example.healthy]) ["/proc/8"])
        Example.command Example.request Example.freshResponse).swap_response.status
        = .PROCESS_TERMINATED ∧
      (Swap (Example.env Example.noReplies (some [Example.healthy]) ["/proc/8"])
        Example.command Example.request Example.freshResponse).swap_response.extra = "8" :=
  Swap_terminated_or_missing
    (Example.env Example.noReplies (some [Example.healthy]) ["/proc/8"])
    Example.command Example.request Example.freshResponse
    (Example.serverResponse Example.noReplies) (by decide) (by decide) (by decide)
    (by
      intro records h q hq
      cases h
      simp only [List.mem_singleton] at hq
      subst hq
      exact ⟨rfl, rfl⟩)

theorem diagnose_status_ne_OK (env : Env) (self : BaseSwapCommand)
    (swap_request : proto.SwapRequest) (swap_response : proto.SwapResponse)
    (trace : List Action) :
    (Swap.diagnose env self swap_request swap_response trace).swap_response.status ≠ .OK ∧
      (Swap.diagnose env self swap_request swap_response trace).swap_response.failed_agents
        = swap_response.failed_agents := by
  rw [diagnose_response]
  cases hg : env.GetProcessInfo self.package_name_ with
  | none =>
    simp only [Option.none_bind]
    cases (Swap.findTerminated env swap_request.process_ids).1 <;> simp
  | some records =>
    simp only [Option.some_bind, inspectRecords_eq]
    cases hf : records.find? (fun q => q.crashing || q.not_responding) with
    | some c =>
      simp only [Option.map_some']
      by_cases hc : c.crashing = true <;> simp [hc]
    | none =>
      simp only [Option.map_none']
      cases (Swap.findTerminated env swap_request.process_ids).1 <;> simp

theorem aggregate_failed_agents (env : Env) (self : BaseSwapCommand)
    (swap_request : proto.SwapRequest) (swap_response : proto.SwapResponse)
    (sr : proto.InstallServerResponse) (trace : List Action)
    (hc : sr.status = .REQUEST_COMPLETED) :
    (Swap.aggregate env self swap_request swap_response sr trace).swap_response.failed_agents
      = swap_response.failed_agents ++
          sr.send_response.agent_responses.filter (fun a => decide (a.status ≠ .OK)) := by
  by_cases hn : sr.send_response.status = .OK
  · rw [aggregate_OK _ _ _ _ _ _ hc hn, collectFailedAgents_eq]
  · rw [aggregate_not_OK _ _ _ _ _ _ hc hn, (diagnose_status_ne_OK _ _ _ _ _).2,
      collectFailedAgents_eq]

/-- C6, as stated, fails: the server response is well-formed and overall OK and both
carried agent responses are `OK`, but the swap response held a failed agent on entry;
`Swap` yields `AGENT_ERROR`, not `OK`. -/
theorem Swap_server_OK_counterexample :
    requestStepResponse
        (Swap (Example.env
            { status := .OK, agent_responses := [Example.agentOK 7, Example.agentOK 8] }
            none [])
          Example.command Example.request
          { Example.freshResponse with failed_agents := [Example.agentFailed 3] }).trace
        = some (Example.serverResponse
            { status := .OK, agent_responses := [Example.agentOK 7, Example.agentOK 8] }) ∧
      (Example.agentOK 7).status = .OK ∧ (Example.agentOK 8).status = .OK ∧
      (Swap (Example.env
            { status := .OK, agent_responses := [Example.agentOK 7, Example.agentOK 8] }
            none [])
          Example.command Example.request
          { Example.freshResponse with
            failed_agents := [Example.agentFailed 3] }).swap_response.status
        = .AGENT_ERROR := by
  decide

/-- C6, amended.  When the server response is well-formed (the read succeeds, status
`REQUEST_COMPLETED`) and its send-response status is overall `OK`, `Swap` yields `OK` if
the swap response held no failed agent on entry and no carried agent response has a
status other than `OK`, and `AGENT_ERROR` otherwise; it never runs process diagnosis in
this case. -/
theorem Swap_server_OK (env : Env) (self : BaseSwapCommand)
    (swap_request : proto.SwapRequest) (swap_response : proto.SwapResponse)
    (sr : proto.InstallServerResponse)
    (hread : requestStepResponse (Swap env self swap_request swap_response).trace = some sr)
    (hcompleted : sr.status = .REQUEST_COMPLETED)
    (hok : sr.send_response.status = .OK) :
    ((swap_response.failed_agents = [] ∧
        ∀ a ∈ sr.send_response.agent_responses, a.status = .OK) →
      (Swap env self swap_request swap_response).swap_response.status = .OK) ∧
    ((swap_response.failed_agents ≠ [] ∨
        ∃ a ∈ sr.send_response.agent_responses, a.status ≠ .OK) →
      (Swap env self swap_request swap_response).swap_response.status = .AGENT_ERROR) ∧
    (∀ a ∈ (Swap env self swap_request swap_response).trace, a.isDiagnosis = false) := by
  rcases Swap_cases env self swap_request swap_response with ⟨h, _⟩ | ⟨_, sr1, tr, h, htr, heq⟩
  · rw [h] at hread
    cases hread
  rw [h] at hread
  cases hread
  rw [heq, aggregate_OK _ _ _ _ _ _ hcompleted hok, collectFailedAgents_eq]
  refine ⟨?_, ?_, htr⟩
  · rintro ⟨h1, h2⟩
    have : sr.send_response.agent_responses.filter (fun a => decide (a.status ≠ .OK)) = [] := by
      rw [List.filter_eq_nil_iff]
      intro a ha
      simp [h2 a ha]
    simp only [h1, this, List.append_nil, List.length_nil, if_true]
  · intro h1
    have : ¬ (swap_response.failed_agents ++
        sr.send_response.agent_responses.filter (fun a => decide (a.status ≠ .OK))).length
          = 0 := by
      rw [List.length_eq_zero, List.append_eq_nil]
      rintro ⟨h2, h3⟩
      rcases h1 with h1 | ⟨a, ha, hne⟩
      · exact h1 h2
      · rw [List.filter_eq_nil_iff] at h3
        have := h3 a ha
        simp [hne] at this
    simp only [this, if_false]

/-- Witness for C6 (amended): two agents, the first `OK` and the second failed, a server
response that is overall `OK`, a fresh swap response: the status is `AGENT_ERROR` and
no diagnosis call is issued. -/
theorem Swap_server_OK_witness :
    (Swap (Example.env
        { status := .OK, agent_responses := [Example.agentOK 7, Example.agentFailed 8] }
        none [])
      Example.command Example.request Example.freshResponse).swap_response.status
      = .AGENT_ERROR ∧
    ∀ a ∈ (Swap (Example.env
        { status := .OK, agent_responses := [Example.agentOK 7, Example.agentFailed 8] }
        none [])
      Example.command Example.request Example.freshResponse).trace,
      a.isDiagnosis = false :=
  have h := Swap_server_OK
    (Example.env
      { status := .OK, agent_responses := [Example.agentOK 7, Example.agentFailed 8] }
      none [])
    Example.command Example.request Example.freshResponse
    (Example.serverResponse
      { status := .OK, agent_responses := [Example.agentOK 7, Example.agentFailed 8] })
    (by decide) (by decide) (by decide)
  ⟨h.2.1 (Or.inr ⟨Example.agentFailed 8, by decide, by decide⟩), h.2.2⟩

/-- C7.  Starting from a swap response with no failed agents, after aggregation (the
request step has read a well-formed server response) the `failed_agents` list is
exactly the sub-list of the agent responses of the server whose status is not `OK`,
unmodified and in the order of the server. -/
theorem Swap_failed_agents_eq_filter (env : Env) (self : BaseSwapCommand)
    (swap_request : proto.SwapRequest) (swap_response : proto.SwapResponse)
    (sr : proto.InstallServerResponse)
    (hfresh : swap_response.failed_agents = [])
    (hread : requestStepResponse (Swap env self swap_request swap_response).trace = some sr)
    (hcompleted : sr.status = .REQUEST_COMPLETED) :
    (Swap env self swap_request swap_response).swap_response.failed_agents =
      sr.send_response.agent_responses.filter (fun a => decide (a.status ≠ .OK)) := by
  rcases Swap_cases env self swap_request swap_response with ⟨h, _⟩ | ⟨_, sr1, tr, h, _, heq⟩
  · rw [h] at hread
    cases hread
  rw [h] at hread
  cases hread
  rw [heq, aggregate_failed_agents _ _ _ _ _ _ hcompleted, hfresh, List.nil_append]

/-- Witness for C7: two agents, the first `OK` and the second failed, give exactly one
failed-agent entry, equal to the response of the second agent. -/
theorem Swap_failed_agents_eq_filter_witness :
    (Swap (Example.env
        { status := .OK, agent_responses := [Example.agentOK 7, Example.agentFailed 8] }
        none [])
      Example.command Example.request Example.freshResponse).swap_response.failed_agents
      = [Example.agentFailed 8] :=
  Swap_failed_agents_eq_filter
    (Example.env
      { status := .OK, agent_responses := [Example.agentOK 7, Example.agentFailed 8] }
      none [])
    Example.command Example.request Example.freshResponse
    (Example.serverResponse
      { status := .OK, agent_responses := [Example.agentOK 7, Example.agentFailed 8] })
    (by decide) (by decide) (by decide)

/-- C8.  An outcome is never both OK and failed: for every run of `Swap` that starts from
status `UNKNOWN` with an empty `failed_agents` list, if the resulting status is `OK`
then `failed_agents` is empty and every agent response carried by the server response
of the request step, if one was read, has status `OK`. -/
theorem Swap_OK_not_failed (env : Env) (self : BaseSwapCommand)
    (swap_request : proto.SwapRequest) (swap_response : proto.SwapResponse)
    (_hU : swap_response.status = .UNKNOWN)
    (hfresh : swap_response.failed_agents = [])
    (hOK : (Swap env self swap_request swap_response).swap_response.status = .OK) :
    (Swap env self swap_request swap_response).swap_response.failed_agents = [] ∧
      ∀ sr, requestStepResponse (Swap env self swap_request swap_response).trace = some sr →
        ∀ a ∈ sr.send_response.agent_responses, a.status = .OK := by
  rcases Swap_cases env self swap_request swap_response with
    ⟨h, hf, _⟩ | ⟨_, sr1, tr, h, _, heq⟩
  · refine ⟨by rw [hf, hfresh], ?_⟩
    intro sr hsr
    rw [h] at hsr
    cases hsr
  by_cases hc : sr1.status = .REQUEST_COMPLETED
  swap
  · rw [heq] at hOK
    simp [Swap.aggregate, hc] at hOK
  by_cases hn : sr1.send_response.status = .OK
  swap
  · rw [heq, aggregate_not_OK _ _ _ _ _ _ hc hn] at hOK
    exact absurd hOK (diagnose_status_ne_OK _ _ _ _ _).1
  have hfa := aggregate_failed_agents env
    { self with process_ids_ := FilterProcessIds env.stat self.process_ids_ }
    swap_request swap_response sr1 tr hc
  rw [← heq, hfresh, List.nil_append] at hfa
  have hnil : sr1.send_response.agent_responses.filter (fun a => decide (a.status ≠ .OK))
      = [] := by
    rw [heq, aggregate_OK _ _ _ _ _ _ hc hn, collectFailedAgents_eq, hfresh] at hOK
    by_cases hl : sr1.send_response.agent_responses.filter
        (fun a => decide (a.status ≠ .OK)) = []
    · exact hl
    · simp only [List.nil_append, List.length_eq_zero, hl, if_false] at hOK
      cases hOK
  refine ⟨by rw [hfa, hnil], ?_⟩
  intro sr hsr a ha
  rw [h] at hsr
  cases hsr
  rw [List.filter_eq_nil_iff] at hnil
  simpa using hnil a ha

/-- Witness for C8: both agents answer `OK`, the server reports `OK`; the status is `OK`
and no failed agent is recorded. -/
theorem Swap_OK_not_failed_witness :
    (Swap (Example.env
        { status := .OK, agent_responses := [Example.agentOK 7, Example.agentOK 8] }
        none [])
      Example.command Example.request Example.freshResponse).swap_response.status = .OK ∧
    (Swap (Example.env
        { status := .OK, agent_responses := [Example.agentOK 7, Example.agentOK 8] }
        none [])
      Example.command Example.request Example.freshResponse).swap_response.failed_agents
      = [] :=
  ⟨by decide,
    (Swap_OK_not_failed
      (Example.env
        { status := .OK, agent_responses := [Example.agentOK 7, Example.agentOK 8] }
        none [])
      Example.command Example.request Example.freshResponse rfl rfl (by decide)).1⟩

/-! ## Properties of the install server -/

/-- C9.  `DoesOverlayIdMatch(folder, expected)`: when the overlay folder does not exist
it is true iff `expected` is the empty string; when the folder exists it is the result
of `Overlay::Exists(folder, expected)`, which on the overlay store of the specification
is true iff `expected` equals the stored current id. -/
theorem DoesOverlayIdMatch_iff {σ : Type} (dev : Device σ) (s : σ) (f : Faults) (d : Disk)
    (overlay_folder : String) (expected_id : String) :
    (dev.access s overlay_folder ≠ 0 →
      (DoesOverlayIdMatch dev s overlay_folder expected_id = true ↔ expected_id = "")) ∧
    (dev.access s overlay_folder = 0 →
      DoesOverlayIdMatch dev s overlay_folder expected_id =
        dev.Overlay_Exists s overlay_folder expected_id) ∧
    (d.find overlay_folder = none →
      (DoesOverlayIdMatch (specDevice f) d overlay_folder expected_id = true ↔
        expected_id = "")) ∧
    (∀ dir, d.find overlay_folder = some dir →
      (DoesOverlayIdMatch (specDevice f) d overlay_folder expected_id = true ↔
        expected_id = dir.id)) := by
  refine ⟨?_, ?_, ?_, ?_⟩
  · intro h
    simp [DoesOverlayIdMatch, h, String.isEmpty_iff]
  · intro h
    simp [DoesOverlayIdMatch, h]
  · intro h
    simp [DoesOverlayIdMatch, specDevice, Disk.access, h, String.isEmpty_iff]
  · intro dir h
    simp [DoesOverlayIdMatch, specDevice, Disk.access, Overlay.Exists, h, eq_comm]

/-- C10, as stated, fails: the store is at id `v2`, the request expects `v1` and carries
the wipe flag.  The response is `ID_MISMATCH`, but the overlay tree has been wiped
before the check: the store is gone. -/
theorem HandleOverlayUpdate_id_mismatch_counterexample :
    Example.diskAtV2.find Example.overlayFolder
        = some { id := "v2", files := [("classes.dex", "old")] } ∧
      (HandleOverlayUpdate (specDevice Example.noFaults) Example.diskAtV2
        (Example.staleUpdate true) Example.freshUpdateResponse).response.status
        = .ID_MISMATCH ∧
      (HandleOverlayUpdate (specDevice Example.noFaults) Example.diskAtV2
        (Example.staleUpdate true) Example.freshUpdateResponse).trace
        = [.Nftw Example.overlayFolder 0] ∧
      (HandleOverlayUpdate (specDevice Example.noFaults) Example.diskAtV2
        (Example.staleUpdate true) Example.freshUpdateResponse).state.find
          Example.overlayFolder = none := by
  decide

/-- C10, amended.  For every overlay-update request whose expected id does not match
the current id of the store when the check is made (which is after the wipe, for a
request with the wipe flag), `HandleOverlayUpdate` responds `ID_MISMATCH` and nothing
is opened, deleted, written or committed: the only call that can have changed the
device is the requested wipe.  For a request without the wipe flag nothing is wiped
either, and the store is left exactly as it was. -/
theorem HandleOverlayUpdate_id_mismatch {σ : Type} (dev : Device σ) (s : σ)
    (request : proto.OverlayUpdateRequest) (response : proto.OverlayUpdateResponse)
    (hmismatch : DoesOverlayIdMatch dev
        (if request.wipe_all_files then
          (dev.nftw_remove s (request.overlay_path ++ "/.overlay")).2 else s)
        (request.overlay_path ++ "/.overlay") request.expected_overlay_id = false) :
    (HandleOverlayUpdate dev s request response).response.status = .ID_MISMATCH ∧
      (HandleOverlayUpdate dev s request response).trace =
        (if request.wipe_all_files then
          [.Nftw (request.overlay_path ++ "/.overlay")
            (dev.nftw_remove s (request.overlay_path ++ "/.overlay")).1]
        else []) ∧
      (HandleOverlayUpdate dev s request response).state =
        (if request.wipe_all_files then
          (dev.nftw_remove s (request.overlay_path ++ "/.overlay")).2 else s) := by
  have hw : (HandleOverlayUpdate.wipe dev s request response).state =
      (if request.wipe_all_files then
        (dev.nftw_remove s (request.overlay_path ++ "/.overlay")).2 else s) ∧
      (HandleOverlayUpdate.wipe dev s request response).trace =
        (if request.wipe_all_files then
          [.Nftw (request.overlay_path ++ "/.overlay")
            (dev.nftw_remove s (request.overlay_path ++ "/.overlay")).1]
        else []) := by
    unfold HandleOverlayUpdate.wipe
    by_cases hwipe : request.wipe_all_files = true
    · by_cases hr : (dev.nftw_remove s (request.overlay_path ++ "/.overlay")).1 = 0
      · simp [hwipe, hr]
      · simp [hwipe, hr]
    · simp [hwipe]
  rw [← hw.1] at hmismatch
  unfold HandleOverlayUpdate
  simp only [hmismatch, if_true]
  exact ⟨trivial, hw.2, hw.1⟩

/-- Witness for C10 (amended): the store is at id `v2`, the request expects `v1` and does
not ask for a wipe; the response is `ID_MISMATCH`, no call is issued and the disk is
unchanged. -/
theorem HandleOverlayUpdate_id_mismatch_witness :
    (HandleOverlayUpdate (specDevice Example.noFaults) Example.diskAtV2
        (Example.staleUpdate false) Example.freshUpdateResponse).response.status
        = .ID_MISMATCH ∧
      (HandleOverlayUpdate (specDevice Example.noFaults) Example.diskAtV2
        (Example.staleUpdate false) Example.freshUpdateResponse).trace = [] ∧
      (HandleOverlayUpdate (specDevice Example.noFaults) Example.diskAtV2
        (Example.staleUpdate false) Example.freshUpdateResponse).state = Example.diskAtV2 :=
  HandleOverlayUpdate_id_mismatch (specDevice Example.noFaults) Example.diskAtV2
    (Example.staleUpdate false) Example.freshUpdateResponse (by decide)

/-! ## Properties of the server launcher -/

theorem string_find_from_ne_none_iff (str : List Char) (l : List Char) (pos : Nat) :
    string_find.from str l pos ≠ none ↔ str <:+: l := by
  induction l generalizing pos with
  | nil =>
    unfold string_find.from
    cases str <;> simp [List.isPrefixOf]
  | cons c cs ih =>
    unfold string_find.from
    by_cases h : str.isPrefixOf (c :: cs) = true
    · simp only [h, if_true]
      rw [List.isPrefixOf_iff_prefix] at h
      simp [h.isInfix]
    · simp only [h]
      rw [List.isPrefixOf_iff_prefix] at h
      rw [List.infix_cons_iff]
      simp [h, ih]

theorem TryStartServer_count_pos (stderr : String) :
    TryStartServer.count stderr > 0 ↔ stderr.toList ≠ [] := by
  unfold TryStartServer.count
  have : stderr.length = stderr.toList.length := rfl
  rw [this]
  cases stderr.toList with
  | nil => simp
  | cons c cs =>
    simp only [List.length_cons, ne_eq, reduceCtorEq, not_false_eq_true, iff_true]
    omega

theorem TryStartServer_TRY_COPY (env : LaunchEnv) (k : Nat) (package_name : String)
    (exec_path : String) (i : Nat)
    (hforked : (env.ForkAndExec k package_name exec_path).forked = true)
    (hstarted : (env.ForkAndExec k package_name exec_path).started = false)
    (hmarker : string_find
        (TryStartServer.error_message (env.ForkAndExec k package_name exec_path).stderr)
        kRunAsExecFailed = some i)
    (hi : i ≠ 0) :
    TryStartServer env k package_name exec_path = (none, .TRY_COPY) := by
  have hcount : TryStartServer.count (env.ForkAndExec k package_name exec_path).stderr > 0 := by
    rw [TryStartServer_count_pos]
    intro hnil
    have : string_find
        (TryStartServer.error_message (env.ForkAndExec k package_name exec_path).stderr)
        kRunAsExecFailed = none := by
      have hm : TryStartServer.error_message
          (env.ForkAndExec k package_name exec_path).stderr = "" := by
        unfold TryStartServer.error_message
        rw [hnil]
        rfl
      rw [hm]
      decide
    rw [this] at hmarker
    cases hmarker
  unfold TryStartServer
  simp [hforked, hstarted, hcount, hmarker, hi]

theorem TryStartServer_no_client (env : LaunchEnv) (k : Nat) (package_name : String)
    (exec_path : String) (h : (TryStartServer env k package_name exec_path).2 ≠ .SUCCESS) :
    (TryStartServer env k package_name exec_path).1 = none := by
  unfold TryStartServer at h ⊢
  dsimp only at h ⊢
  split
  · rfl
  · split
    · rename_i h1 h2
      simp [h1, h2] at h
    · split
      · split <;> rfl
      · rfl

/-- C12, as stated, fails: the first launch leaves a diagnostic output that holds the
marker (at position 8), and the copy of the binary fails.  There is one copy and no
retry: one launch attempt in all. -/
theorem StartInstallServer_copy_retry_counterexample :
    string_find (TryStartServer.error_message Example.execFailed) kRunAsExecFailed
        = some 8 ∧
      StartInstallServer
          (Example.launcher (Example.exited Example.execFailed) Example.acknowledged false)
          "/data/local/tmp/.studio/tmp/install_server" "com.example.app" "install_server-1"
        = (none,
            [.ForkAndExec Example.execPath .TRY_COPY,
              .Run "cp" ["/data/local/tmp/.studio/tmp/install_server", Example.execPath]
                false]) := by
  decide

/-- C12, amended.  A first launch attempt that is not acknowledged and whose diagnostic
output holds the marker `exec failed` at a position other than its start triggers
exactly one copy of the server binary.  If the copy succeeds it is followed by exactly
one retry of the identical launch (same exec path), and a client is returned only if
that second attempt succeeds; if the copy fails there is no retry and no client.  In
every execution, whatever the first attempt brings, there are at most two launch
attempts and at most one copy: the calls are one launch alone when it is not
classified `TRY_COPY`, and otherwise that launch and the copy, followed by a second
launch exactly when the copy succeeds. -/
theorem StartInstallServer_copy_retry (env : LaunchEnv) (server_path : String)
    (package_name : String) (exec_name : String) :
    (∀ i : Nat,
      (env.ForkAndExec 0 package_name
        ("/data/data/" ++ package_name ++ "/code_cache/" ++ exec_name)).forked = true →
      (env.ForkAndExec 0 package_name
        ("/data/data/" ++ package_name ++ "/code_cache/" ++ exec_name)).started = false →
      string_find
        (TryStartServer.error_message (env.ForkAndExec 0 package_name
          ("/data/data/" ++ package_name ++ "/code_cache/" ++ exec_name)).stderr)
        kRunAsExecFailed = some i →
      i ≠ 0 →
      (env.Run package_name "cp"
          [server_path, "/data/data/" ++ package_name ++ "/code_cache/" ++ exec_name] = true →
        (StartInstallServer env server_path package_name exec_name).2 =
          [.ForkAndExec ("/data/data/" ++ package_name ++ "/code_cache/" ++ exec_name)
              .TRY_COPY,
            .Run "cp"
              [server_path, "/data/data/" ++ package_name ++ "/code_cache/" ++ exec_name]
              true,
            .ForkAndExec ("/data/data/" ++ package_name ++ "/code_cache/" ++ exec_name)
              (TryStartServer env 1 package_name
                ("/data/data/" ++ package_name ++ "/code_cache/" ++ exec_name)).2] ∧
        (StartInstallServer env server_path package_name exec_name).1 =
          (TryStartServer env 1 package_name
            ("/data/data/" ++ package_name ++ "/code_cache/" ++ exec_name)).1 ∧
        ((TryStartServer env 1 package_name
            ("/data/data/" ++ package_name ++ "/code_cache/" ++ exec_name)).2 ≠ .SUCCESS →
          (StartInstallServer env server_path package_name exec_name).1 = none)) ∧
      (env.Run package_name "cp"
          [server_path, "/data/data/" ++ package_name ++ "/code_cache/" ++ exec_name]
          = false →
        StartInstallServer env server_path package_name exec_name =
          (none,
            [.ForkAndExec ("/data/data/" ++ package_name ++ "/code_cache/" ++ exec_name)
                .TRY_COPY,
              .Run "cp"
                [server_path,
                  "/data/data/" ++ package_name ++ "/code_cache/" ++ exec_name]
                false]))) ∧
    ((StartInstallServer env server_path package_name exec_name).2.filter
        LaunchAction.isLaunch).length ≤ 2 ∧
    ((StartInstallServer env server_path package_name exec_name).2.filter
        LaunchAction.isCopy).length ≤ 1 ∧
    ((TryStartServer env 0 package_name
          ("/data/data/" ++ package_name ++ "/code_cache/" ++ exec_name)).2 ≠ .TRY_COPY →
      (StartInstallServer env server_path package_name exec_name).2 =
        [.ForkAndExec ("/data/data/" ++ package_name ++ "/code_cache/" ++ exec_name)
          (TryStartServer env 0 package_name
            ("/data/data/" ++ package_name ++ "/code_cache/" ++ exec_name)).2]) ∧
    ((TryStartServer env 0 package_name
          ("/data/data/" ++ package_name ++ "/code_cache/" ++ exec_name)).2 = .TRY_COPY →
      (StartInstallServer env server_path package_name exec_name).2 =
        [.ForkAndExec ("/data/data/" ++ package_name ++ "/code_cache/" ++ exec_name)
            .TRY_COPY,
          .Run "cp"
            [server_path, "/data/data/" ++ package_name ++ "/code_cache/" ++ exec_name]
            (env.Run package_name "cp"
              [server_path,
                "/data/data/" ++ package_name ++ "/code_cache/" ++ exec_name])] ++
          (if env.Run package_name "cp"
              [server_path, "/data/data/" ++ package_name ++ "/code_cache/" ++ exec_name]
              = true then
            [.ForkAndExec ("/data/data/" ++ package_name ++ "/code_cache/" ++ exec_name)
              (TryStartServer env 1 package_name
                ("/data/data/" ++ package_name ++ "/code_cache/" ++ exec_name)).2]
          else [])) := by
  have hno := TryStartServer_no_client env 1 package_name
    ("/data/data/" ++ package_name ++ "/code_cache/" ++ exec_name)
  have hcases : ∀ r : StartResult, r = .SUCCESS ∨ r = .TRY_COPY ∨ r = .FAILURE := by
    intro r
    cases r <;> simp
  refine ⟨?_, ?_, ?_, ?_, ?_⟩
  · intro i hforked hstarted hmarker hi
    have hfirst := TryStartServer_TRY_COPY env 0 package_name
      ("/data/data/" ++ package_name ++ "/code_cache/" ++ exec_name) i hforked hstarted
      hmarker hi
    refine ⟨?_, ?_⟩
    · intro hcp
      simp only [StartInstallServer, hfirst, hcp]
      simpa using hno
    · intro hcp
      simp [StartInstallServer, hfirst, hcp]
  · rcases hcases (TryStartServer env 0 package_name
        ("/data/data/" ++ package_name ++ "/code_cache/" ++ exec_name)).2 with h | h | h <;>
      by_cases hcp : env.Run package_name "cp"
        [server_path, "/data/data/" ++ package_name ++ "/code_cache/" ++ exec_name] = true <;>
      simp [StartInstallServer, h, hcp, LaunchAction.isLaunch]
  · rcases hcases (TryStartServer env 0 package_name
        ("/data/data/" ++ package_name ++ "/code_cache/" ++ exec_name)).2 with h | h | h <;>
      by_cases hcp : env.Run package_name "cp"
        [server_path, "/data/data/" ++ package_name ++ "/code_cache/" ++ exec_name] = true <;>
      simp [StartInstallServer, h, hcp, LaunchAction.isCopy]
  · intro hne
    rcases hcases (TryStartServer env 0 package_name
        ("/data/data/" ++ package_name ++ "/code_cache/" ++ exec_name)).2 with h | h | h
    · simp [StartInstallServer, h]
    · exact absurd h hne
    · simp [StartInstallServer, h]
  · intro h
    by_cases hcp : env.Run package_name "cp"
        [server_path, "/data/data/" ++ package_name ++ "/code_cache/" ++ exec_name] = true
    · simp [StartInstallServer, h, hcp]
    · simp [StartInstallServer, h, hcp]

/-- Witness for C12 (amended): the first launch reports `exec failed`, the copy succeeds
and the second launch is acknowledged: launch, copy, launch, and a client. -/
theorem StartInstallServer_copy_retry_witness :
    (StartInstallServer
        (Example.launcher (Example.exited Example.execFailed) Example.acknowledged true)
        "/data/local/tmp/.studio/tmp/install_server" "com.example.app"
        "install_server-1").2 =
      [.ForkAndExec Example.execPath .TRY_COPY,
        .Run "cp" ["/data/local/tmp/.studio/tmp/install_server", Example.execPath] true,
        .ForkAndExec Example.execPath .SUCCESS] ∧
    (StartInstallServer
        (Example.launcher (Example.exited Example.execFailed) Example.acknowledged true)
        "/data/local/tmp/.studio/tmp/install_server" "com.example.app"
        "install_server-1").1 = some { input_fd := 4, output_fd := 3 } :=
  have h := ((StartInstallServer_copy_retry
    (Example.launcher (Example.exited Example.execFailed) Example.acknowledged true)
    "/data/local/tmp/.studio/tmp/install_server" "com.example.app" "install_server-1").1 8
    (by decide) (by decide) (by decide) (by decide)).1 (by decide)
  ⟨h.1, h.2.1⟩

/-- C13, the code at the failing input: the first launch leaves a diagnostic output that
is not empty and does not hold the marker; `find` gives `npos`, which the test takes
for true, so the attempt is classified `TRY_COPY`, and `StartInstallServer` copies the
binary and launches a second time. -/
theorem StartInstallServer_no_marker_copies :
    string_find (TryStartServer.error_message Example.notDebuggable) kRunAsExecFailed
        = none ∧
      (TryStartServer
          (Example.launcher (Example.exited Example.notDebuggable)
            (Example.exited Example.notDebuggable) true)
          0 "com.example.app" Example.execPath).2 = .TRY_COPY ∧
      StartInstallServer
          (Example.launcher (Example.exited Example.notDebuggable)
            (Example.exited Example.notDebuggable) true)
          "/data/local/tmp/.studio/tmp/install_server" "com.example.app" "install_server-1"
        = (none,
            [.ForkAndExec Example.execPath .TRY_COPY,
              .Run "cp" ["/data/local/tmp/.studio/tmp/install_server", Example.execPath]
                true,
              .ForkAndExec Example.execPath .TRY_COPY]) := by
  decide

/-! ## Properties of `Run` -/

theorem isUserDebug_iff (build_type : String) :
    isUserDebug build_type = true ↔ "userdebug".toList <:+: build_type.toList := by
  unfold isUserDebug string_find
  rw [decide_eq_true_iff]
  exact string_find_from_ne_none_iff _ _ 0

/-- C18.  If `StartInstallServer` returns no client, `Run` ends there: the swap status is
`START_SERVER_FAILED_USERDEBUG` when the build type string contains `userdebug` and
`START_SERVER_FAILED` otherwise, `extra` is `install_server`, and none of
`PrepareAndBuildRequest`, `Swap` and `ProcessResponse` is invoked: the steps taken
are the extraction of the binaries and the start of the server. -/
theorem Run_start_server_failed (env : RunEnv) (self : BaseSwapCommand)
    (swap_response : proto.SwapResponse) (server_path : String) (package_name : String)
    (exec_name : String)
    (hnone : RunAction.StartInstallServer server_path package_name exec_name none
      ∈ (Run env self swap_response).trace) :
    ("userdebug".toList <:+: env.build_type.toList →
      (Run env self swap_response).swap_response.status = .START_SERVER_FAILED_USERDEBUG) ∧
    (¬ "userdebug".toList <:+: env.build_type.toList →
      (Run env self swap_response).swap_response.status = .START_SERVER_FAILED) ∧
    (Run env self swap_response).swap_response.extra = "install_server" ∧
    (Run env self swap_response).trace =
      [.ExtractBinaries env.GetTmpFolder [kAgent, kAgentAlt, kInstallServer] true,
        .StartInstallServer server_path package_name exec_name none] ∧
    RunAction.PrepareAndBuildRequest ∉ (Run env self swap_response).trace ∧
    RunAction.Swap ∉ (Run env self swap_response).trace ∧
    RunAction.ProcessResponse ∉ (Run env self swap_response).trace := by
  by_cases hx : env.ExtractBinaries env.GetTmpFolder [kAgent, kAgentAlt, kInstallServer]
      = false
  · simp [Run, hx] at hnone
  have hx1 : env.ExtractBinaries env.GetTmpFolder [kAgent, kAgentAlt, kInstallServer]
      = true := by simpa using hx
  by_cases hclient : (StartInstallServer env.launcher (env.GetTmpFolder ++ kInstallServer)
      self.package_name_ (kInstallServer ++ "-" ++ env.GetVersion)).1 = none
  swap
  · exfalso
    have hsome : ((StartInstallServer env.launcher (env.GetTmpFolder ++ kInstallServer)
        self.package_name_ (kInstallServer ++ "-" ++ env.GetVersion)).1).isNone = false := by
      cases h : (StartInstallServer env.launcher (env.GetTmpFolder ++ kInstallServer)
        self.package_name_ (kInstallServer ++ "-" ++ env.GetVersion)).1 with
      | none => exact absurd h hclient
      | some c => rfl
    simp only [Run, hx1, Bool.true_eq_false, if_false, hsome, List.mem_append,
      List.mem_cons, List.mem_singleton, reduceCtorEq, RunAction.StartInstallServer.injEq,
      false_or, or_false, List.not_mem_nil] at hnone
    exact hclient hnone.2.2.2.symm
  have hargs : server_path = env.GetTmpFolder ++ kInstallServer ∧
      package_name = self.package_name_ ∧
      exec_name = kInstallServer ++ "-" ++ env.GetVersion := by
    by_cases hd : isUserDebug env.build_type = true
    · simp only [Run, hx1, Bool.true_eq_false, if_false, hclient, Option.isNone_none, if_true,
        hd, List.mem_cons, List.mem_singleton, reduceCtorEq,
        RunAction.StartInstallServer.injEq, false_or, or_false, List.not_mem_nil,
        and_true] at hnone
      exact hnone
    · simp only [Run, hx1, Bool.true_eq_false, if_false, hclient, Option.isNone_none, if_true,
        hd, List.mem_cons, List.mem_singleton, reduceCtorEq,
        RunAction.StartInstallServer.injEq, false_or, or_false, List.not_mem_nil,
        and_true] at hnone
      exact hnone
  obtain ⟨h1, h2, h3⟩ := hargs
  subst h1 h2 h3
  by_cases hd : isUserDebug env.build_type = true
  · have := (isUserDebug_iff env.build_type).mp hd
    simp only [Run, hx1, Bool.true_eq_false, if_false, hclient, Option.isNone_none, if_true, hd]
    refine ⟨fun _ => ?_, fun h => absurd this h, ?_, ?_, ?_, ?_, ?_⟩ <;> first | rfl | trivial | simp
  · have := fun h => hd ((isUserDebug_iff env.build_type).mpr h)
    simp only [Run, hx1, Bool.true_eq_false, if_false, hclient, Option.isNone_none, if_true, hd]
    refine ⟨fun h => absurd h this, fun _ => ?_, ?_, ?_, ?_, ?_, ?_⟩ <;> first | rfl | trivial | simp

/-- Witness for C18: on a `userdebug` device, a launch whose pipes cannot be made gives no
client; the status is `START_SERVER_FAILED_USERDEBUG`. -/
theorem Run_start_server_failed_witness :
    (Run (Example.runEnv "userdebug"
        (Example.launcher { Example.acknowledged with forked := false }
          Example.acknowledged true))
      Example.command Example.freshResponse).swap_response.status
      = .START_SERVER_FAILED_USERDEBUG :=
  (Run_start_server_failed
    (Example.runEnv "userdebug"
      (Example.launcher { Example.acknowledged with forked := false }
        Example.acknowledged true))
    Example.command Example.freshResponse "/data/local/tmp/.studio/tmp/install_server"
    "com.example.app" "install_server-1" (by decide)).1 (by decide)

/-! ### The phases of a `Swap` run -/

theorem Swap_phases (env : Env) (self : BaseSwapCommand) (swap_request : proto.SwapRequest)
    (swap_response : proto.SwapResponse) :
    (swap_response.status ≠ .UNKNOWN ∧
      Swap env self swap_request swap_response =
        { self := self, swap_response := swap_response, trace := [] }) ∨
    (swap_response.status = .UNKNOWN ∧
      (Swap env self swap_request swap_response).self = Swap.filtered env self ∧
      ((FilterProcessIds env.stat self.process_ids_ = [] ∧ self.extra_agents_count_ = 0 ∧
          (Swap env self swap_request swap_response).trace = [] ∧
          (Swap env self swap_request swap_response).swap_response.status = .OK) ∨
        (¬ (FilterProcessIds env.stat self.process_ids_ = [] ∧
            self.extra_agents_count_ = 0) ∧
          (((ListenForAgents env).1 ≠ .OK ∧
            (Swap env self swap_request swap_response).trace = (ListenForAgents env).2 ∧
            (Swap env self swap_request swap_response).swap_response.status =
              (ListenForAgents env).1) ∨
          ((ListenForAgents env).1 = .OK ∧
            (((AttachAgents env (Swap.filtered env self)).1 = false ∧
              (Swap env self swap_request swap_response).trace =
                (ListenForAgents env).2 ++ (AttachAgents env (Swap.filtered env self)).2 ∧
              (Swap env self swap_request swap_response).swap_response.status =
                .AGENT_ATTACH_FAILED) ∨
            ((AttachAgents env (Swap.filtered env self)).1 = true ∧
              ((env.clientWrite 1
                    (Swap.server_request (Swap.filtered env self) swap_request) = false ∧
                  (Swap env self swap_request swap_response).trace =
                    (ListenForAgents env).2 ++ (AttachAgents env (Swap.filtered env self)).2 ++
                      [.ClientWrite
                        (Swap.server_request (Swap.filtered env self) swap_request) false] ∧
                  (Swap env self swap_request swap_response).swap_response.status =
                    .WRITE_TO_SERVER_FAILED) ∨
                (env.clientWrite 1
                    (Swap.server_request (Swap.filtered env self) swap_request) = true ∧
                  ((env.clientRead 1 = none ∧
                    (Swap env self swap_request swap_response).trace =
                      (ListenForAgents env).2 ++
                        (AttachAgents env (Swap.filtered env self)).2 ++
                        [.ClientWrite
                          (Swap.server_request (Swap.filtered env self) swap_request) true] ++
                        [.ClientRead none] ∧
                    (Swap env self swap_request swap_response).swap_response.status =
                      .READ_FROM_SERVER_FAILED) ∨
                  (∃ sr d, env.clientRead 1 = some sr ∧
                    (Swap env self swap_request swap_response).trace =
                      (ListenForAgents env).2 ++
                        (AttachAgents env (Swap.filtered env self)).2 ++
                        [.ClientWrite
                          (Swap.server_request (Swap.filtered env self) swap_request) true] ++
                        [.ClientRead (some sr)] ++ d ∧
                    (∀ a ∈ d, a.isDiagnosis = true) ∧
                    (sr.status ≠ .REQUEST_COMPLETED →
                      (Swap env self swap_request swap_response).swap_response.status =
                        .READ_FROM_SERVER_FAILED)))))))))))) := by
  unfold Swap
  split
  · rename_i hU
    exact Or.inl ⟨hU, rfl⟩
  rename_i hU
  have hU1 : swap_response.status = .UNKNOWN := by simpa using hU
  right
  dsimp only
  split
  · rename_i hwork
    simp only [List.isEmpty_iff] at hwork
    exact ⟨hU1, rfl, Or.inl ⟨hwork.1, hwork.2, rfl, rfl⟩⟩
  rename_i hwork
  simp only [List.isEmpty_iff] at hwork
  refine ⟨hU1, ?_, Or.inr ⟨hwork, ?_⟩⟩
  · split
    · rfl
    · split
      · rfl
      · split
        · rfl
        · split
          · rfl
          · unfold Swap.aggregate
            dsimp only
            split
            · rfl
            · split
              · split <;> rfl
              · unfold Swap.diagnose
                dsimp only
                split
                · rfl
                · split <;> rfl
  split
  · rename_i hl
    exact Or.inl ⟨hl, rfl, rfl⟩
  rename_i hl
  have hl1 : (ListenForAgents env).1 = .OK := by simpa using hl
  refine Or.inr ⟨hl1, ?_⟩
  split
  · rename_i ha
    exact Or.inl ⟨ha, rfl, rfl⟩
  rename_i ha
  have ha1 : (AttachAgents env (Swap.filtered env self)).1 = true := by
    simpa [Swap.filtered] using ha
  refine Or.inr ⟨ha1, ?_⟩
  split
  · rename_i hw
    exact Or.inl ⟨hw, rfl, rfl⟩
  rename_i hw
  have hw1 : env.clientWrite 1 (Swap.server_request (Swap.filtered env self) swap_request)
      = true := by
    simpa [Swap.filtered, Swap.server_request] using hw
  refine Or.inr ⟨hw1, ?_⟩
  split
  · rename_i hr
    exact Or.inl ⟨hr, rfl, rfl⟩
  rename_i sr hr
  right
  obtain ⟨d, hd1, hd2⟩ := aggregate_trace env (Swap.filtered env self) swap_request
    swap_response sr
    ((ListenForAgents env).2 ++ (AttachAgents env (Swap.filtered env self)).2 ++
      [.ClientWrite (Swap.server_request (Swap.filtered env self) swap_request) true] ++
      [.ClientRead (some sr)])
  refine ⟨sr, d, hr, hd1, hd2, ?_⟩
  intro hc
  show (Swap.aggregate env (Swap.filtered env self) swap_request swap_response sr _
    ).swap_response.status = _
  unfold Swap.aggregate
  simp [hc]

theorem ListenForAgents_spec (env : Env) :
    (env.clientWrite 0
        { type := .HANDLE_REQUEST
          message := .socket_request { socket_name := env.kDefaultAddress } } = false ∧
      ListenForAgents env =
        (.WRITE_TO_SERVER_FAILED,
          [.ClientWrite
            { type := .HANDLE_REQUEST
              message := .socket_request { socket_name := env.kDefaultAddress } } false])) ∨
    (env.clientRead 0 = none ∧
      ListenForAgents env =
        (.READ_FROM_SERVER_FAILED,
          [.ClientWrite
            { type := .HANDLE_REQUEST
              message := .socket_request { socket_name := env.kDefaultAddress } } true,
            .ClientRead none])) ∨
    (∃ r0, env.clientRead 0 = some r0 ∧
      (r0.status ≠ .REQUEST_COMPLETED ∨ r0.socket_response.status ≠ .OK) ∧
      ListenForAgents env =
        (.READY_FOR_AGENTS_NOT_RECEIVED,
          [.ClientWrite
            { type := .HANDLE_REQUEST
              message := .socket_request { socket_name := env.kDefaultAddress } } true,
            .ClientRead (some r0)])) ∨
    (∃ r0, env.clientRead 0 = some r0 ∧
      r0.status = .REQUEST_COMPLETED ∧ r0.socket_response.status = .OK ∧
      ListenForAgents env =
        (.OK,
          [.ClientWrite
            { type := .HANDLE_REQUEST
              message := .socket_request { socket_name := env.kDefaultAddress } } true,
            .ClientRead (some r0)])) := by
  unfold ListenForAgents
  dsimp only
  split
  · rename_i h
    exact Or.inl ⟨h, rfl⟩
  · split
    · rename_i h
      exact Or.inr (Or.inl ⟨h, rfl⟩)
    · rename_i r0 h
      split
      · rename_i hb
        exact Or.inr (Or.inr (Or.inl ⟨r0, h, hb, rfl⟩))
      · rename_i hb
        rw [not_or, not_not, not_not] at hb
        exact Or.inr (Or.inr (Or.inr ⟨r0, h, hb.1, hb.2, rfl⟩))

theorem AttachAgents_loop_spec (env : Env) (agent_path_ : String) (pids : List Int) (k : Nat) :
    ((AttachAgents.loop env agent_path_ k pids).1 = true ∧
      (AttachAgents.loop env agent_path_ k pids).2 =
        pids.map (fun q => .AttachAgent q agent_path_ [env.kDefaultAddress] true)) ∨
    ((AttachAgents.loop env agent_path_ k pids).1 = false ∧
      ∃ pre pid post, pids = pre ++ pid :: post ∧
        (AttachAgents.loop env agent_path_ k pids).2 =
          pre.map (fun q => .AttachAgent q agent_path_ [env.kDefaultAddress] true) ++
            [.AttachAgent pid agent_path_ [env.kDefaultAddress] false]) := by
  induction pids generalizing k with
  | nil => exact Or.inl ⟨rfl, rfl⟩
  | cons p rest ih =>
    unfold AttachAgents.loop
    split
    · exact Or.inr ⟨rfl, [], p, rest, rfl, rfl⟩
    · rcases ih (k + 1) with ⟨h1, h2⟩ | ⟨h1, pre, pid, post, h2, h3⟩
      · exact Or.inl ⟨h1, by simp [h2]⟩
      · exact Or.inr ⟨h1, p :: pre, pid, post, by simp [h2], by simp [h3]⟩

theorem attach_actions (env : Env) (self : BaseSwapCommand) :
    ∀ a ∈ (AttachAgents env self).2,
      a.isAttachAgent = true ∧ a.isClientWrite = false ∧ a.isClientRead = false ∧
        a.isDiagnosis = false ∧ a.isSendRequest = false := by
  intro a ha
  have := AttachAgents_loop_trace env self.agent_path_ self.process_ids_ 0 a ha
  cases a <;> simp_all [Action.isAttachAgent, Action.isClientWrite, Action.isClientRead,
    Action.isDiagnosis, Action.isSendRequest]

theorem diagnosis_actions (d : List Action) (h : ∀ a ∈ d, a.isDiagnosis = true) :
    ∀ a ∈ d,
      a.isAttachAgent = false ∧ a.isClientWrite = false ∧ a.isClientRead = false ∧
        a.isSendRequest = false ∧ a.failed = false := by
  intro a ha
  have := h a ha
  cases a <;> simp_all [Action.isAttachAgent, Action.isClientWrite, Action.isClientRead,
    Action.isDiagnosis, Action.isSendRequest, Action.failed]

theorem listenStepResponse_cons_cons (rq : proto.InstallServerRequest) (b : Bool)
    (x : Option proto.InstallServerResponse) (rest : List Action) :
    listenStepResponse (.ClientWrite rq b :: .ClientRead x :: rest) = x := by
  cases x <;> simp [listenStepResponse, List.filter, Action.isClientRead]

/-- C16.  Channel failures in `Swap` map to terminal statuses by their kind.  A client
write that fails, in the listen step or in the request step, yields
`WRITE_TO_SERVER_FAILED`, and a client read that fails yields
`READ_FROM_SERVER_FAILED`; the failing call is the last call of the run.  A listen
response that was read but is not `REQUEST_COMPLETED`, or whose socket status is not
`OK`, yields `READY_FOR_AGENTS_NOT_RECEIVED`; a response of the request step that was
read but is not `REQUEST_COMPLETED` yields `READ_FROM_SERVER_FAILED`. -/
theorem Swap_channel_failures (env : Env) (self : BaseSwapCommand)
    (swap_request : proto.SwapRequest) (swap_response : proto.SwapResponse) :
    (∀ request, Action.ClientWrite request false
        ∈ (Swap env self swap_request swap_response).trace →
      (Swap env self swap_request swap_response).swap_response.status
          = .WRITE_TO_SERVER_FAILED ∧
        (Swap env self swap_request swap_response).trace.getLast?
          = some (.ClientWrite request false)) ∧
    (Action.ClientRead none ∈ (Swap env self swap_request swap_response).trace →
      (Swap env self swap_request swap_response).swap_response.status
          = .READ_FROM_SERVER_FAILED ∧
        (Swap env self swap_request swap_response).trace.getLast?
          = some (.ClientRead none)) ∧
    (∀ r0, listenStepResponse (Swap env self swap_request swap_response).trace = some r0 →
      (r0.status ≠ .REQUEST_COMPLETED ∨ r0.socket_response.status ≠ .OK) →
      (Swap env self swap_request swap_response).swap_response.status
        = .READY_FOR_AGENTS_NOT_RECEIVED) ∧
    (∀ sr, requestStepResponse (Swap env self swap_request swap_response).trace = some sr →
      sr.status ≠ .REQUEST_COMPLETED →
      (Swap env self swap_request swap_response).swap_response.status
        = .READ_FROM_SERVER_FAILED) := by
  have hA := attach_actions env (Swap.filtered env self)
  have hAw : ∀ rq b, Action.ClientWrite rq b ∉ (AttachAgents env (Swap.filtered env self)).2 :=
    fun rq b h => by simpa [Action.isAttachAgent] using (hA _ h).1
  have hAr : ∀ x, Action.ClientRead x ∉ (AttachAgents env (Swap.filtered env self)).2 :=
    fun x h => by simpa [Action.isAttachAgent] using (hA _ h).1
  refine ⟨?_, ?_, ?_, ?_⟩
  · intro request hmem
    rcases Swap_phases env self swap_request swap_response with
      ⟨_, h⟩ | ⟨_, _, ⟨_, _, ht, _⟩ | ⟨_, ⟨hl, ht, hs⟩ | ⟨hl, ⟨ha, ht, hs⟩ |
        ⟨ha, ⟨hw, ht, hs⟩ | ⟨hw, ⟨hr, ht, hs⟩ | ⟨sr, d, hr, ht, hd, hs⟩⟩⟩⟩⟩⟩
    · rw [h] at hmem
      simp at hmem
    · rw [ht] at hmem
      simp at hmem
    · rw [ht] at hmem ⊢
      rw [hs]
      rcases ListenForAgents_spec env with ⟨_, h⟩ | ⟨_, h⟩ | ⟨r0, _, _, h⟩ | ⟨r0, _, _, _, h⟩ <;>
        rw [h] at hmem ⊢ <;> simp at hmem ⊢
      · exact hmem.symm
    · rw [ht] at hmem
      rcases ListenForAgents_spec env with ⟨_, h⟩ | ⟨_, h⟩ | ⟨r0, _, _, h⟩ | ⟨r0, _, _, _, h⟩ <;>
        rw [h] at hl <;> simp at hl
      rw [h] at hmem
      simp [hAw] at hmem
    · rw [ht] at hmem ⊢
      rcases ListenForAgents_spec env with ⟨_, h⟩ | ⟨_, h⟩ | ⟨r0, _, _, h⟩ | ⟨r0, _, _, _, h⟩ <;>
        rw [h] at hl <;> simp at hl
      rw [h] at hmem
      simp [hAw] at hmem
      rw [hmem]
      exact ⟨hs, by simp⟩
    · rw [ht] at hmem
      rcases ListenForAgents_spec env with ⟨_, h⟩ | ⟨_, h⟩ | ⟨r0, _, _, h⟩ | ⟨r0, _, _, _, h⟩ <;>
        rw [h] at hl <;> simp at hl
      rw [h] at hmem
      simp [hAw] at hmem
    · rw [ht] at hmem
      rcases ListenForAgents_spec env with ⟨_, h⟩ | ⟨_, h⟩ | ⟨r0, _, _, h⟩ | ⟨r0, _, _, _, h⟩ <;>
        rw [h] at hl <;> simp at hl
      rw [h] at hmem
      simp [hAw] at hmem
      have := (diagnosis_actions d hd _ hmem).2.1
      simp [Action.isClientWrite] at this
  · intro hmem
    rcases Swap_phases env self swap_request swap_response with
      ⟨_, h⟩ | ⟨_, _, ⟨_, _, ht, _⟩ | ⟨_, ⟨hl, ht, hs⟩ | ⟨hl, ⟨ha, ht, hs⟩ |
        ⟨ha, ⟨hw, ht, hs⟩ | ⟨hw, ⟨hr, ht, hs⟩ | ⟨sr, d, hr, ht, hd, hs⟩⟩⟩⟩⟩⟩
    · rw [h] at hmem
      simp at hmem
    · rw [ht] at hmem
      simp at hmem
    · rw [ht] at hmem ⊢
      rw [hs]
      rcases ListenForAgents_spec env with ⟨_, h⟩ | ⟨_, h⟩ | ⟨r0, _, _, h⟩ | ⟨r0, _, _, _, h⟩ <;>
        rw [h] at hmem ⊢ <;> simp at hmem ⊢
    · rw [ht] at hmem
      rcases ListenForAgents_spec env with ⟨_, h⟩ | ⟨_, h⟩ | ⟨r0, _, _, h⟩ | ⟨r0, _, _, _, h⟩ <;>
        rw [h] at hl <;> simp at hl
      rw [h] at hmem
      simp [hAr] at hmem
    · rw [ht] at hmem
      rcases ListenForAgents_spec env with ⟨_, h⟩ | ⟨_, h⟩ | ⟨r0, _, _, h⟩ | ⟨r0, _, _, _, h⟩ <;>
        rw [h] at hl <;> simp at hl
      rw [h] at hmem
      simp [hAr] at hmem
    · rw [ht]
      exact ⟨hs, by simp⟩
    · rw [ht] at hmem
      rcases ListenForAgents_spec env with ⟨_, h⟩ | ⟨_, h⟩ | ⟨r0, _, _, h⟩ | ⟨r0, _, _, _, h⟩ <;>
        rw [h] at hl <;> simp at hl
      rw [h] at hmem
      simp [hAr] at hmem
      have := (diagnosis_actions d hd _ hmem).2.2.1
      simp [Action.isClientRead] at this
  · intro r0 hr0 hbad
    rcases Swap_phases env self swap_request swap_response with
      ⟨_, h⟩ | ⟨_, _, ⟨_, _, ht, _⟩ | ⟨_, ⟨hl, ht, hs⟩ | ⟨hl, hrest⟩⟩⟩
    · rw [h] at hr0
      simp [listenStepResponse] at hr0
    · rw [ht] at hr0
      simp [listenStepResponse] at hr0
    · rw [ht] at hr0
      rw [hs]
      rcases ListenForAgents_spec env with ⟨_, h⟩ | ⟨_, h⟩ | ⟨r1, _, _, h⟩ | ⟨r1, _, _, _, h⟩
      · rw [h] at hr0
        simp [listenStepResponse, Action.isClientRead] at hr0
      · rw [h] at hr0
        simp [listenStepResponse_cons_cons] at hr0
      · rw [h]
      · rw [h] at hl
        simp at hl
    · exfalso
      rcases ListenForAgents_spec env with ⟨_, h⟩ | ⟨_, h⟩ | ⟨r1, _, _, h⟩ | ⟨r1, _, h1, h2, h⟩ <;>
        rw [h] at hl <;> simp at hl
      have hshape : ∃ rest, (Swap env self swap_request swap_response).trace =
          .ClientWrite
            { type := .HANDLE_REQUEST
              message := .socket_request { socket_name := env.kDefaultAddress } } true ::
          .ClientRead (some r1) :: rest := by
        rcases hrest with ⟨ha, ht, hs⟩ | ⟨ha, ⟨hw, ht, hs⟩ | ⟨hw, ⟨hr, ht, hs⟩ |
          ⟨sr, d, hr, ht, hd, hs⟩⟩⟩ <;> rw [ht, h] <;> simp
      obtain ⟨rest, hshape⟩ := hshape
      rw [hshape, listenStepResponse_cons_cons] at hr0
      cases hr0
      rcases hbad with hbad | hbad
      · exact hbad h1
      · exact hbad h2
  · intro sr hsr hc
    rcases Swap_cases env self swap_request swap_response with ⟨h, _⟩ | ⟨_, sr1, tr, h, _, heq⟩
    · rw [h] at hsr
      cases hsr
    · rw [h] at hsr
      cases hsr
      rw [heq]
      simp [Swap.aggregate, hc]

/-- Witness for C16: the write of the listen request fails, and the run ends with
`WRITE_TO_SERVER_FAILED`. -/
theorem Swap_channel_failures_witness :
    (Swap { Example.env Example.noReplies none [] with clientWrite := fun _ _ => false }
      Example.command Example.request Example.freshResponse).swap_response.status
      = .WRITE_TO_SERVER_FAILED :=
  ((Swap_channel_failures
    { Example.env Example.noReplies none [] with clientWrite := fun _ _ => false }
    Example.command Example.request Example.freshResponse).1
      { type := .HANDLE_REQUEST, message := .socket_request { socket_name := "irsocket" } }
      (by decide)).1

/-- C15.  In every execution of `Swap`, an agent attach is issued only after the listen
step has completed successfully: when the run holds an attach, `ListenForAgents`
returned `OK`, the first two calls of the run are the write of the listen request and
the read of a response with status `REQUEST_COMPLETED` and socket status `OK`, and
the attach comes after them.  If the listen step returns any other status, `Swap`
ends with that status and no attach. -/
theorem Swap_attach_after_listen (env : Env) (self : BaseSwapCommand)
    (swap_request : proto.SwapRequest) (swap_response : proto.SwapResponse) :
    (∀ a ∈ (Swap env self swap_request swap_response).trace, a.isAttachAgent = true →
      (ListenForAgents env).1 = .OK ∧
      ∃ request r0 rest,
        (Swap env self swap_request swap_response).trace =
          .ClientWrite request true :: .ClientRead (some r0) :: rest ∧
        r0.status = .REQUEST_COMPLETED ∧ r0.socket_response.status = .OK ∧ a ∈ rest) ∧
    (swap_response.status = .UNKNOWN →
      ¬ (FilterProcessIds env.stat self.process_ids_ = [] ∧ self.extra_agents_count_ = 0) →
      (ListenForAgents env).1 ≠ .OK →
      (Swap env self swap_request swap_response).swap_response.status
          = (ListenForAgents env).1 ∧
        (Swap env self swap_request swap_response).trace.filter Action.isAttachAgent = []) := by
  refine ⟨?_, ?_⟩
  · intro a hmem hatt
    rcases Swap_phases env self swap_request swap_response with
      ⟨_, h⟩ | ⟨_, _, ⟨_, _, ht, _⟩ | ⟨_, ⟨hl, ht, hs⟩ | ⟨hl, hrest⟩⟩⟩
    · rw [h] at hmem
      simp at hmem
    · rw [ht] at hmem
      simp at hmem
    · exfalso
      rw [ht] at hmem
      rcases ListenForAgents_spec env with ⟨_, h⟩ | ⟨_, h⟩ | ⟨r0, _, _, h⟩ | ⟨r0, _, _, _, h⟩ <;>
        rw [h] at hmem <;> simp at hmem
      all_goals (rcases hmem with rfl | rfl <;> simp [Action.isAttachAgent] at hatt)
    · refine ⟨hl, ?_⟩
      rcases ListenForAgents_spec env with ⟨_, h⟩ | ⟨_, h⟩ | ⟨r1, _, _, h⟩ | ⟨r1, _, h1, h2, h⟩ <;>
        rw [h] at hl <;> simp at hl
      have hshape : ∃ rest, (Swap env self swap_request swap_response).trace =
          .ClientWrite
            { type := .HANDLE_REQUEST
              message := .socket_request { socket_name := env.kDefaultAddress } } true ::
          .ClientRead (some r1) :: rest := by
        rcases hrest with ⟨ha, ht, hs⟩ | ⟨ha, ⟨hw, ht, hs⟩ | ⟨hw, ⟨hr, ht, hs⟩ |
          ⟨sr, d, hr, ht, hd, hs⟩⟩⟩ <;> rw [ht, h] <;> simp
      obtain ⟨rest, hshape⟩ := hshape
      refine ⟨_, r1, rest, hshape, h1, h2, ?_⟩
      rw [hshape] at hmem
      simp only [List.mem_cons] at hmem
      rcases hmem with rfl | rfl | hmem
      · simp [Action.isAttachAgent] at hatt
      · simp [Action.isAttachAgent] at hatt
      · exact hmem
  · intro hU hwork hl
    rcases Swap_phases env self swap_request swap_response with
      ⟨hU1, _⟩ | ⟨_, _, ⟨hp, he, _, _⟩ | ⟨_, ⟨_, ht, hs⟩ | ⟨hl1, _⟩⟩⟩
    · exact absurd hU hU1
    · exact absurd ⟨hp, he⟩ hwork
    · refine ⟨hs, ?_⟩
      rw [ht]
      rcases ListenForAgents_spec env with ⟨_, h⟩ | ⟨_, h⟩ | ⟨r0, _, _, h⟩ | ⟨r0, _, _, _, h⟩ <;>
        rw [h] <;> simp [Action.isAttachAgent]
    · exact absurd hl1 hl

/-- Witness for C15: a run in which every call succeeds holds the attach to pid 7, and
its listen step returned `OK`. -/
theorem Swap_attach_after_listen_witness :
    (ListenForAgents (Example.env Example.noReplies none [])).1 = .OK :=
  ((Swap_attach_after_listen (Example.env Example.noReplies none []) Example.command
    Example.request Example.freshResponse).1
      (.AttachAgent 7 "/data/local/tmp/agent.so" ["irsocket"] true)
      (by decide) rfl).1

theorem toInt32_of_fits (x : Int) (h1 : -2147483648 ≤ x) (h2 : x < 2147483648) :
    toInt32 x = x := by
  unfold toInt32
  omega

theorem filter_isAttachAgent_attach (env : Env) (self : BaseSwapCommand) :
    (AttachAgents env self).2.filter Action.isAttachAgent = (AttachAgents env self).2 := by
  rw [List.filter_eq_self]
  intro a ha
  exact (attach_actions env self a ha).1

theorem filter_isAttachAgent_diagnosis (d : List Action) (h : ∀ a ∈ d, a.isDiagnosis = true) :
    d.filter Action.isAttachAgent = [] := by
  rw [List.filter_eq_nil_iff]
  intro a ha
  simp [(diagnosis_actions d h a ha).1]

theorem filter_isSendRequest_attach (env : Env) (self : BaseSwapCommand) :
    (AttachAgents env self).2.filter Action.isSendRequest = [] := by
  rw [List.filter_eq_nil_iff]
  intro a ha
  simp [(attach_actions env self a ha).2.2.2.2]

theorem filter_isSendRequest_diagnosis (d : List Action) (h : ∀ a ∈ d, a.isDiagnosis = true) :
    d.filter Action.isSendRequest = [] := by
  rw [List.filter_eq_nil_iff]
  intro a ha
  simp [(diagnosis_actions d h a ha).2.2.2.1]

theorem ListenForAgents_filters (env : Env) :
    (ListenForAgents env).2.filter Action.isAttachAgent = [] ∧
      (ListenForAgents env).2.filter Action.isSendRequest = [] ∧
      (∀ pid path args ok, Action.AttachAgent pid path args ok ∉ (ListenForAgents env).2) ∧
      (∀ r ok sreq, Action.ClientWrite r ok ∈ (ListenForAgents env).2 →
        r.message ≠ .send_request sreq) := by
  rcases ListenForAgents_spec env with ⟨_, h⟩ | ⟨_, h⟩ | ⟨r0, _, _, h⟩ | ⟨r0, _, _, _, h⟩ <;>
    rw [h] <;>
    refine ⟨by simp [Action.isAttachAgent], by simp [Action.isSendRequest], by simp, ?_⟩ <;>
    intro r ok sreq hmem <;> simp at hmem <;> rw [hmem.1] <;> simp

/-- The attach calls of a run, and what they were followed by: none at all; or those of
`AttachAgents` on the filtered pids, which either failed (the run ends there) or
succeeded for every pid (and the request of the request step is the one write
after them). -/
theorem Swap_attach_cases (env : Env) (self : BaseSwapCommand)
    (swap_request : proto.SwapRequest) (swap_response : proto.SwapResponse) :
    ((Swap env self swap_request swap_response).trace.filter Action.isAttachAgent = [] ∧
      (Swap env self swap_request swap_response).trace.filter Action.isSendRequest = [] ∧
      (swap_response.status = .UNKNOWN → (ListenForAgents env).1 = .OK →
        FilterProcessIds env.stat self.process_ids_ = [])) ∨
    ((Swap env self swap_request swap_response).self = Swap.filtered env self ∧
      (Swap env self swap_request swap_response).trace.filter Action.isAttachAgent =
        (AttachAgents env (Swap.filtered env self)).2 ∧
      (((AttachAgents env (Swap.filtered env self)).1 = false ∧
        (Swap env self swap_request swap_response).trace =
          (ListenForAgents env).2 ++ (AttachAgents env (Swap.filtered env self)).2 ∧
        (Swap env self swap_request swap_response).trace.filter Action.isSendRequest = [] ∧
        (Swap env self swap_request swap_response).swap_response.status
          = .AGENT_ATTACH_FAILED) ∨
      ((AttachAgents env (Swap.filtered env self)).1 = true ∧
        ∃ ok, (Swap env self swap_request swap_response).trace.filter Action.isSendRequest =
          [.ClientWrite (Swap.server_request (Swap.filtered env self) swap_request) ok]))) := by
  obtain ⟨hL1, hL2, _, _⟩ := ListenForAgents_filters env
  have hA1 := filter_isAttachAgent_attach env (Swap.filtered env self)
  have hA2 := filter_isSendRequest_attach env (Swap.filtered env self)
  rcases Swap_phases env self swap_request swap_response with
    ⟨hU, h⟩ | ⟨_, hself, ⟨hp, _, ht, _⟩ | ⟨_, ⟨hl, ht, hs⟩ | ⟨hl, ⟨ha, ht, hs⟩ |
      ⟨ha, ⟨hw, ht, hs⟩ | ⟨hw, ⟨hr, ht, hs⟩ | ⟨sr, d, hr, ht, hd, hs⟩⟩⟩⟩⟩⟩
  · left
    rw [h]
    exact ⟨rfl, rfl, fun h1 => absurd h1 hU⟩
  · left
    rw [ht]
    exact ⟨rfl, rfl, fun _ _ => hp⟩
  · left
    rw [ht]
    exact ⟨hL1, hL2, fun _ h1 => absurd h1 hl⟩
  · right
    refine ⟨hself, ?_, Or.inl ⟨ha, ht, ?_, hs⟩⟩ <;> rw [ht] <;>
      simp [List.filter_append, hL1, hL2, hA1, hA2]
  · right
    refine ⟨hself, ?_, Or.inr ⟨ha, false, ?_⟩⟩ <;> rw [ht] <;>
      simp [List.filter_append, hL1, hL2, hA1, hA2, Action.isAttachAgent,
        Action.isSendRequest, Swap.server_request]
  · right
    refine ⟨hself, ?_, Or.inr ⟨ha, true, ?_⟩⟩ <;> rw [ht] <;>
      simp [List.filter_append, hL1, hL2, hA1, hA2, Action.isAttachAgent,
        Action.isSendRequest, Swap.server_request]
  · right
    have hd1 := filter_isAttachAgent_diagnosis d hd
    have hd2 := filter_isSendRequest_diagnosis d hd
    refine ⟨hself, ?_, Or.inr ⟨ha, true, ?_⟩⟩ <;> rw [ht] <;>
      simp [List.filter_append, hL1, hL2, hA1, hA2, hd1, hd2, Action.isAttachAgent,
        Action.isSendRequest, Swap.server_request]

/-- C14.  `AttachAgents` attaches to the pids of the command in list order and stops at
the first failure: it returns true after one successful attach per pid, or false after
the successful attaches to the pids before some pid and the failed attach to that pid.
In a run of `Swap`, where the pids are the filtered ones: if an attach fails, the
attaches of the run are those to the pids before it in the filtered list, in order and
all successful, then the failed one, which is the last call of the run: no attach is
attempted for any later pid, the status of `Swap` is `AGENT_ATTACH_FAILED`, and the
swap request is never written to the server.  If
the attach step is reached and every attach succeeds, exactly one attach was issued
per filtered pid, in list order. -/
theorem Swap_attach_stops_at_first_failure (env : Env) (self : BaseSwapCommand)
    (swap_request : proto.SwapRequest) (swap_response : proto.SwapResponse) :
    (((AttachAgents env self).1 = true ∧
        (AttachAgents env self).2 =
          self.process_ids_.map
            (fun q => .AttachAgent q self.agent_path_ [env.kDefaultAddress] true)) ∨
      ((AttachAgents env self).1 = false ∧
        ∃ pre pid post, self.process_ids_ = pre ++ pid :: post ∧
          (AttachAgents env self).2 =
            pre.map (fun q => .AttachAgent q self.agent_path_ [env.kDefaultAddress] true) ++
              [.AttachAgent pid self.agent_path_ [env.kDefaultAddress] false])) ∧
    (∀ pid path args, Action.AttachAgent pid path args false
        ∈ (Swap env self swap_request swap_response).trace →
      (Swap env self swap_request swap_response).swap_response.status
          = .AGENT_ATTACH_FAILED ∧
        (Swap env self swap_request swap_response).trace.filter Action.isSendRequest = [] ∧
        (Swap env self swap_request swap_response).trace.getLast?
          = some (.AttachAgent pid path args false) ∧
        ∃ pre post, FilterProcessIds env.stat self.process_ids_ = pre ++ pid :: post ∧
          (Swap env self swap_request swap_response).trace.filter Action.isAttachAgent =
            pre.map (fun q => .AttachAgent q self.agent_path_ [env.kDefaultAddress] true) ++
              [.AttachAgent pid self.agent_path_ [env.kDefaultAddress] false]) ∧
    (swap_response.status = .UNKNOWN → (ListenForAgents env).1 = .OK →
      (∀ a ∈ (Swap env self swap_request swap_response).trace,
        a.isAttachAgent = true → a.failed = false) →
      (Swap env self swap_request swap_response).trace.filter Action.isAttachAgent =
        (FilterProcessIds env.stat self.process_ids_).map
          (fun q => .AttachAgent q self.agent_path_ [env.kDefaultAddress] true)) := by
  have hspec := AttachAgents_loop_spec env self.agent_path_
    (FilterProcessIds env.stat self.process_ids_) 0
  have hloop : AttachAgents.loop env self.agent_path_ 0
      (FilterProcessIds env.stat self.process_ids_) =
      AttachAgents env (Swap.filtered env self) := rfl
  rw [hloop] at hspec
  refine ⟨AttachAgents_loop_spec env self.agent_path_ self.process_ids_ 0, ?_, ?_⟩
  · intro pid path args hmem
    have hf : Action.AttachAgent pid path args false ∈
        (Swap env self swap_request swap_response).trace.filter Action.isAttachAgent :=
      List.mem_filter.mpr ⟨hmem, rfl⟩
    rcases Swap_attach_cases env self swap_request swap_response with
      ⟨h, _⟩ | ⟨_, hfa, ⟨ha, ht, hsr, hs⟩ | ⟨ha, _⟩⟩
    · rw [h] at hf
      simp at hf
    · rcases hspec with ⟨h1, _⟩ | ⟨_, pre, p, post, hsplit, h2⟩
      · rw [ha] at h1
        cases h1
      · rw [hfa, h2] at hf
        simp only [List.mem_append, List.mem_map, List.mem_singleton, Action.AttachAgent.injEq,
          Bool.true_eq_false, and_false, exists_false, false_or, and_true] at hf
        obtain ⟨rfl, rfl, rfl⟩ := hf
        refine ⟨hs, hsr, ?_, pre, post, hsplit, ?_⟩
        · rw [ht, h2, ← List.append_assoc, List.getLast?_concat]
        · rw [hfa, h2]
    · rcases hspec with ⟨_, h2⟩ | ⟨h1, _⟩
      · rw [hfa, h2] at hf
        simp at hf
      · rw [ha] at h1
        cases h1
  · intro hU hl hall
    rcases Swap_attach_cases env self swap_request swap_response with
      ⟨h, _, hnil⟩ | ⟨_, hfa, _⟩
    · rw [h, hnil hU hl]
      rfl
    · rcases hspec with ⟨_, h2⟩ | ⟨_, pre, p, post, _, h2⟩
      · rw [hfa, h2]
      · exfalso
        have hmem : Action.AttachAgent p self.agent_path_ [env.kDefaultAddress] false ∈
            (Swap env self swap_request swap_response).trace.filter Action.isAttachAgent := by
          rw [hfa, h2]
          simp
        have := hall _ (List.mem_filter.mp hmem).1 rfl
        simp [Action.failed] at this

/-- Witness for C14: the attach to pid 7, first of the filtered pids 7 and 8, fails.
The run ends there with `AGENT_ATTACH_FAILED`, pid 8 is not attempted and no swap
request is written. -/
theorem Swap_attach_stops_at_first_failure_witness :
    (Swap { Example.env Example.noReplies none [] with AttachAgent := fun _ _ _ _ => false }
        Example.command Example.request Example.freshResponse).swap_response.status
        = .AGENT_ATTACH_FAILED ∧
      (Swap { Example.env Example.noReplies none [] with AttachAgent := fun _ _ _ _ => false }
        Example.command Example.request Example.freshResponse).trace.filter
          Action.isSendRequest = [] ∧
      (Swap { Example.env Example.noReplies none [] with AttachAgent := fun _ _ _ _ => false }
        Example.command Example.request Example.freshResponse).trace.getLast?
        = some (.AttachAgent 7 "/data/local/tmp/agent.so" ["irsocket"] false) :=
  have h := (Swap_attach_stops_at_first_failure
    { Example.env Example.noReplies none [] with AttachAgent := fun _ _ _ _ => false }
    Example.command Example.request Example.freshResponse).2.1
      7 "/data/local/tmp/agent.so" ["irsocket"] (by decide)
  ⟨h.1, h.2.1, h.2.2.1⟩

/-- C17, as stated, fails: with one filtered pid and `extra_agents_count_` equal to
2147483647 the sum is 2147483648, and the request written to the server carries the
`agent_count` -2147483648. -/
theorem Swap_agent_count_counterexample :
    ((FilterProcessIds Example.procStat [7]).length : Int) + 2147483647 = 2147483648 ∧
      Action.ClientWrite
          { type := .HANDLE_REQUEST
            message := .send_request
              { agent_count := -2147483648, swap_request := Example.request } } true
        ∈ (Swap (Example.env Example.noReplies none [])
            { Example.command with process_ids_ := [7], extra_agents_count_ := 2147483647 }
            Example.request Example.freshResponse).trace := by
  decide

/-- C17, amended.  There is at most one request forwarded to the server in the request
step.  It carries the unmodified swap request and an `agent_count` equal to (number of
pids that survived filtering) + `extra_agents_count_`, narrowed to the 32-bit field;
the number of pids is also the number of attach calls issued.  Whenever the sum fits
a signed 32-bit integer, `agent_count` equals it. -/
theorem Swap_agent_count (env : Env) (self : BaseSwapCommand)
    (swap_request : proto.SwapRequest) (swap_response : proto.SwapResponse) :
    (∀ r ok sreq, Action.ClientWrite r ok
        ∈ (Swap env self swap_request swap_response).trace →
      r.message = .send_request sreq →
      r.type = .HANDLE_REQUEST ∧ sreq.swap_request = swap_request ∧
        sreq.agent_count =
          toInt32 ((FilterProcessIds env.stat self.process_ids_).length +
            self.extra_agents_count_) ∧
        ((Swap env self swap_request swap_response).trace.filter
            Action.isAttachAgent).length =
          (FilterProcessIds env.stat self.process_ids_).length ∧
        (-2147483648 ≤ ((FilterProcessIds env.stat self.process_ids_).length : Int) +
            self.extra_agents_count_ →
          ((FilterProcessIds env.stat self.process_ids_).length : Int) +
            self.extra_agents_count_ < 2147483648 →
          sreq.agent_count =
            (FilterProcessIds env.stat self.process_ids_).length +
              self.extra_agents_count_)) ∧
    ((Swap env self swap_request swap_response).trace.filter
      Action.isSendRequest).length ≤ 1 := by
  have hspec := AttachAgents_loop_spec env self.agent_path_
    (FilterProcessIds env.stat self.process_ids_) 0
  have hloop : AttachAgents.loop env self.agent_path_ 0
      (FilterProcessIds env.stat self.process_ids_) =
      AttachAgents env (Swap.filtered env self) := rfl
  rw [hloop] at hspec
  refine ⟨?_, ?_⟩
  · intro r ok sreq hmem hmsg
    have hf : Action.ClientWrite r ok ∈
        (Swap env self swap_request swap_response).trace.filter Action.isSendRequest :=
      List.mem_filter.mpr ⟨hmem, by simp [Action.isSendRequest, hmsg]⟩
    rcases Swap_attach_cases env self swap_request swap_response with
      ⟨_, h, _⟩ | ⟨_, hfa, ⟨_, _, h, _⟩ | ⟨ha, ok1, h⟩⟩
    · rw [h] at hf
      simp at hf
    · rw [h] at hf
      simp at hf
    · rw [h] at hf
      simp only [List.mem_singleton, Action.ClientWrite.injEq] at hf
      obtain ⟨rfl, _⟩ := hf
      simp only [Swap.server_request, Swap.filtered,
        proto.InstallServerRequest.Message.send_request.injEq] at hmsg
      subst hmsg
      refine ⟨rfl, rfl, rfl, ?_, ?_⟩
      · rcases hspec with ⟨_, h2⟩ | ⟨h1, _⟩
        · rw [hfa, h2, List.length_map]
        · rw [ha] at h1
          cases h1
      · intro h1 h2
        exact toInt32_of_fits _ h1 h2
  · rcases Swap_attach_cases env self swap_request swap_response with
      ⟨_, h, _⟩ | ⟨_, _, ⟨_, _, h, _⟩ | ⟨_, ok1, h⟩⟩ <;> rw [h] <;> simp

/-- Witness for C17: with the filtered pids 7 and 8 and no extra agent, the request
written to the server carries the swap request and the agent count 2, and two
attaches were issued. -/
theorem Swap_agent_count_witness :
    (2 : Int) = toInt32 (((FilterProcessIds Example.procStat [7, 8]).length : Int) + 0) ∧
      ((Swap (Example.env Example.noReplies none []) Example.command Example.request
          Example.freshResponse).trace.filter Action.isAttachAgent).length =
        (FilterProcessIds Example.procStat [7, 8]).length :=
  have h := (Swap_agent_count (Example.env Example.noReplies none []) Example.command
    Example.request Example.freshResponse).1
      { type := .HANDLE_REQUEST
        message := .send_request { agent_count := 2, swap_request := Example.request } }
      true { agent_count := 2, swap_request := Example.request } (by decide) rfl
  ⟨h.2.2.1, h.2.2.2.1⟩

/-! ### The phases of an overlay update -/

theorem deleteFiles_spec {σ : Type} (dev : Device σ) (overlay_folder : String) (id : String)
    (s : σ) (files : List String) :
    ((HandleOverlayUpdate.deleteFiles dev overlay_folder id s files).1 = none ∧
      (HandleOverlayUpdate.deleteFiles dev overlay_folder id s files).2.2 =
        files.map (fun f => .OverlayDeleteFile f true)) ∨
    (∃ pre file post, files = pre ++ file :: post ∧
      (HandleOverlayUpdate.deleteFiles dev overlay_folder id s files).1 = some file ∧
      (HandleOverlayUpdate.deleteFiles dev overlay_folder id s files).2.2 =
        pre.map (fun f => .OverlayDeleteFile f true) ++ [.OverlayDeleteFile file false]) := by
  induction files generalizing s with
  | nil => exact Or.inl ⟨rfl, rfl⟩
  | cons f rest ih =>
    unfold HandleOverlayUpdate.deleteFiles
    dsimp only
    split
    · exact Or.inr ⟨[], f, rest, rfl, rfl, rfl⟩
    · rcases ih (dev.Overlay_DeleteFile s overlay_folder id f).2 with
        ⟨h1, h2⟩ | ⟨pre, file, post, h1, h2, h3⟩
      · exact Or.inl ⟨h1, by simp [h2]⟩
      · exact Or.inr ⟨f :: pre, file, post, by simp [h1], h2, by simp [h3]⟩

theorem writeFiles_spec {σ : Type} (dev : Device σ) (overlay_folder : String) (id : String)
    (s : σ) (files : List proto.OverlayFile) :
    ((HandleOverlayUpdate.writeFiles dev overlay_folder id s files).1 = none ∧
      (HandleOverlayUpdate.writeFiles dev overlay_folder id s files).2.2 =
        files.map (fun f => .OverlayWriteFile f.path f.content true)) ∨
    (∃ pre file post, files = pre ++ file :: post ∧
      (HandleOverlayUpdate.writeFiles dev overlay_folder id s files).1 = some file ∧
      (HandleOverlayUpdate.writeFiles dev overlay_folder id s files).2.2 =
        pre.map (fun f => .OverlayWriteFile f.path f.content true) ++
          [.OverlayWriteFile file.path file.content false]) := by
  induction files generalizing s with
  | nil => exact Or.inl ⟨rfl, rfl⟩
  | cons f rest ih =>
    unfold HandleOverlayUpdate.writeFiles
    dsimp only
    split
    · exact Or.inr ⟨[], f, rest, rfl, rfl, rfl⟩
    · rcases ih (dev.Overlay_WriteFile s overlay_folder id f.path f.content).2 with
        ⟨h1, h2⟩ | ⟨pre, file, post, h1, h2, h3⟩
      · exact Or.inl ⟨h1, by simp [h2]⟩
      · exact Or.inr ⟨f :: pre, file, post, by simp [h1], h2, by simp [h3]⟩

theorem wipe_trace_cases {σ : Type} (dev : Device σ) (s : σ)
    (request : proto.OverlayUpdateRequest) (response : proto.OverlayUpdateResponse) :
    (HandleOverlayUpdate.wipe dev s request response).trace = [] ∨
      ∃ path result,
        (HandleOverlayUpdate.wipe dev s request response).trace = [.Nftw path result] := by
  unfold HandleOverlayUpdate.wipe
  dsimp only
  split
  · split
    · exact Or.inr ⟨_, _, rfl⟩
    · exact Or.inr ⟨_, _, rfl⟩
  · exact Or.inl rfl

theorem HandleOverlayUpdate_phases {σ : Type} (dev : Device σ) (s : σ)
    (request : proto.OverlayUpdateRequest) (response : proto.OverlayUpdateResponse) :
    (DoesOverlayIdMatch dev (HandleOverlayUpdate.wipe dev s request response).state
        (request.overlay_path ++ "/.overlay") request.expected_overlay_id = false ∧
      (HandleOverlayUpdate dev s request response).response.status = .ID_MISMATCH ∧
      (HandleOverlayUpdate dev s request response).trace =
        (HandleOverlayUpdate.wipe dev s request response).trace) ∨
    (DoesOverlayIdMatch dev (HandleOverlayUpdate.wipe dev s request response).state
        (request.overlay_path ++ "/.overlay") request.expected_overlay_id = true ∧
      (((HandleOverlayUpdate dev s request response).response.status = .UPDATE_FAILED ∧
        (HandleOverlayUpdate dev s request response).response.error_message =
          "Could not open overlay" ∧
        (HandleOverlayUpdate dev s request response).trace =
          (HandleOverlayUpdate.wipe dev s request response).trace ++
            [.OverlayOpen (request.overlay_path ++ "/.overlay") request.overlay_id false]) ∨
      (∃ pre file post, request.files_to_delete = pre ++ file :: post ∧
        (HandleOverlayUpdate dev s request response).response.status = .UPDATE_FAILED ∧
        (HandleOverlayUpdate dev s request response).response.error_message =
          "Could not delete file: \x27" ++ file ++ "\x27" ∧
        (HandleOverlayUpdate dev s request response).trace =
          (HandleOverlayUpdate.wipe dev s request response).trace ++
            [.OverlayOpen (request.overlay_path ++ "/.overlay") request.overlay_id true] ++
            pre.map (fun f => .OverlayDeleteFile f true) ++
            [.OverlayDeleteFile file false]) ∨
      (∃ pre file post, request.files_to_write = pre ++ file :: post ∧
        (HandleOverlayUpdate dev s request response).response.status = .UPDATE_FAILED ∧
        (HandleOverlayUpdate dev s request response).response.error_message =
          "Could not write file: \x27" ++ file.path ++ "\x27" ∧
        (HandleOverlayUpdate dev s request response).trace =
          (HandleOverlayUpdate.wipe dev s request response).trace ++
            [.OverlayOpen (request.overlay_path ++ "/.overlay") request.overlay_id true] ++
            request.files_to_delete.map (fun f => .OverlayDeleteFile f true) ++
            pre.map (fun f => .OverlayWriteFile f.path f.content true) ++
            [.OverlayWriteFile file.path file.content false]) ∨
      ((HandleOverlayUpdate dev s request response).response.status = .UPDATE_FAILED ∧
        (HandleOverlayUpdate dev s request response).response.error_message =
          "Could not commit overlay update" ∧
        (HandleOverlayUpdate dev s request response).trace =
          (HandleOverlayUpdate.wipe dev s request response).trace ++
            [.OverlayOpen (request.overlay_path ++ "/.overlay") request.overlay_id true] ++
            request.files_to_delete.map (fun f => .OverlayDeleteFile f true) ++
            request.files_to_write.map (fun f => .OverlayWriteFile f.path f.content true) ++
            [.OverlayCommit false]) ∨
      ((HandleOverlayUpdate dev s request response).response.status = .OK ∧
        (HandleOverlayUpdate dev s request response).trace =
          (HandleOverlayUpdate.wipe dev s request response).trace ++
            [.OverlayOpen (request.overlay_path ++ "/.overlay") request.overlay_id true] ++
            request.files_to_delete.map (fun f => .OverlayDeleteFile f true) ++
            request.files_to_write.map (fun f => .OverlayWriteFile f.path f.content true) ++
            [.OverlayCommit true]))) := by
  unfold HandleOverlayUpdate
  dsimp only
  split
  · rename_i hm
    exact Or.inl ⟨hm, rfl, rfl⟩
  rename_i hm
  have hm1 : DoesOverlayIdMatch dev (HandleOverlayUpdate.wipe dev s request response).state
      (request.overlay_path ++ "/.overlay") request.expected_overlay_id = true := by
    simpa using hm
  refine Or.inr ⟨hm1, ?_⟩
  split
  · rename_i ho
    left
    rw [ho]
    exact ⟨rfl, rfl, rfl⟩
  rename_i ho
  have ho1 : (dev.Overlay_Open (HandleOverlayUpdate.wipe dev s request response).state
      (request.overlay_path ++ "/.overlay") request.overlay_id).1 = true := by
    simpa using ho
  right
  split
  · rename_i file s1 deletions heq
    left
    rcases deleteFiles_spec dev (request.overlay_path ++ "/.overlay") request.overlay_id
      (dev.Overlay_Open (HandleOverlayUpdate.wipe dev s request response).state
        (request.overlay_path ++ "/.overlay") request.overlay_id).2
      request.files_to_delete with ⟨h1, _⟩ | ⟨pre, f, post, h1, h2, h3⟩
    · rw [heq] at h1
      cases h1
    · rw [heq] at h2 h3
      cases h2
      dsimp only at h3
      exact ⟨pre, file, post, h1, rfl, rfl, by rw [ho1, h3]; simp [List.append_assoc]⟩
  rename_i s1 deletions heq
  have hdel : deletions = request.files_to_delete.map (fun f => .OverlayDeleteFile f true) := by
    rcases deleteFiles_spec dev (request.overlay_path ++ "/.overlay") request.overlay_id
      (dev.Overlay_Open (HandleOverlayUpdate.wipe dev s request response).state
        (request.overlay_path ++ "/.overlay") request.overlay_id).2
      request.files_to_delete with ⟨_, h2⟩ | ⟨pre, f, post, _, h2, _⟩
    · rw [heq] at h2
      exact h2
    · rw [heq] at h2
      cases h2
  right
  split
  · rename_i file s2 writes heq2
    left
    rcases writeFiles_spec dev (request.overlay_path ++ "/.overlay") request.overlay_id
      s1 request.files_to_write with ⟨h1, _⟩ | ⟨pre, f, post, h1, h2, h3⟩
    · rw [heq2] at h1
      cases h1
    · rw [heq2] at h2 h3
      cases h2
      dsimp only at h3
      exact ⟨pre, file, post, h1, rfl, rfl, by rw [ho1, h3, hdel]; simp [List.append_assoc]⟩
  rename_i s2 writes heq2
  have hwr : writes =
      request.files_to_write.map (fun f => .OverlayWriteFile f.path f.content true) := by
    rcases writeFiles_spec dev (request.overlay_path ++ "/.overlay") request.overlay_id
      s1 request.files_to_write with ⟨_, h2⟩ | ⟨pre, f, post, _, h2, _⟩
    · rw [heq2] at h2
      exact h2
    · rw [heq2] at h2
      cases h2
  right
  split
  · rename_i hc
    left
    exact ⟨rfl, rfl, by rw [ho1, hc, hdel, hwr]⟩
  · rename_i hc
    have hc1 : (dev.Overlay_Commit s2 (request.overlay_path ++ "/.overlay")
        request.overlay_id).1 = true := by simpa using hc
    right
    exact ⟨rfl, by rw [ho1, hc1, hdel, hwr]⟩

theorem deleteFiles_ok {σ : Type} (dev : Device σ) (overlay_folder : String) (id : String)
    (s : σ) (files : List String)
    (h : ∀ t, ∀ file ∈ files, (dev.Overlay_DeleteFile t overlay_folder id file).1 = true) :
    (HandleOverlayUpdate.deleteFiles dev overlay_folder id s files).1 = none := by
  induction files generalizing s with
  | nil => rfl
  | cons file rest ih =>
    unfold HandleOverlayUpdate.deleteFiles
    dsimp only
    rw [h s file (List.mem_cons_self _ _)]
    simp only [Bool.true_eq_false, if_false]
    exact ih _ (fun t x hx => h t x (List.mem_cons_of_mem _ hx))

theorem writeFiles_ok {σ : Type} (dev : Device σ) (overlay_folder : String) (id : String)
    (s : σ) (files : List proto.OverlayFile)
    (h : ∀ t, ∀ file ∈ files,
      (dev.Overlay_WriteFile t overlay_folder id file.path file.content).1 = true) :
    (HandleOverlayUpdate.writeFiles dev overlay_folder id s files).1 = none := by
  induction files generalizing s with
  | nil => rfl
  | cons file rest ih =>
    unfold HandleOverlayUpdate.writeFiles
    dsimp only
    rw [h s file (List.mem_cons_self _ _)]
    simp only [Bool.true_eq_false, if_false]
    exact ih _ (fun t x hx => h t x (List.mem_cons_of_mem _ hx))

theorem HandleOverlayUpdate_progress {σ : Type} (dev : Device σ) (s : σ)
    (request : proto.OverlayUpdateRequest) (response : proto.OverlayUpdateResponse)
    (hmatch : DoesOverlayIdMatch dev (HandleOverlayUpdate.wipe dev s request response).state
      (request.overlay_path ++ "/.overlay") request.expected_overlay_id = true)
    (hopen : (dev.Overlay_Open (HandleOverlayUpdate.wipe dev s request response).state
      (request.overlay_path ++ "/.overlay") request.overlay_id).1 = true)
    (hdelete : ∀ t, ∀ file ∈ request.files_to_delete,
      (dev.Overlay_DeleteFile t (request.overlay_path ++ "/.overlay") request.overlay_id
        file).1 = true) :
    ∃ rest,
      (HandleOverlayUpdate dev s request response).trace =
        (HandleOverlayUpdate.wipe dev s request response).trace ++
          [.OverlayOpen (request.overlay_path ++ "/.overlay") request.overlay_id true] ++
          request.files_to_delete.map (fun f => .OverlayDeleteFile f true) ++ rest ∧
      ((∀ t, ∀ file ∈ request.files_to_write,
          (dev.Overlay_WriteFile t (request.overlay_path ++ "/.overlay") request.overlay_id
            file.path file.content).1 = true) →
        ∃ ok,
          rest =
            request.files_to_write.map (fun f => .OverlayWriteFile f.path f.content true) ++
              [.OverlayCommit ok] ∧
          ((HandleOverlayUpdate dev s request response).response.status = .OK ↔
            ok = true) ∧
          (ok = false →
            (HandleOverlayUpdate dev s request response).response.status
              = .UPDATE_FAILED)) := by
  unfold HandleOverlayUpdate
  dsimp only
  rw [if_neg (by simp [hmatch]), if_neg (by simp [hopen])]
  split
  · rename_i file s1 deletions heq
    have h1 := deleteFiles_ok dev (request.overlay_path ++ "/.overlay") request.overlay_id
      (dev.Overlay_Open (HandleOverlayUpdate.wipe dev s request response).state
        (request.overlay_path ++ "/.overlay") request.overlay_id).2
      request.files_to_delete hdelete
    rw [heq] at h1
    cases h1
  rename_i s1 deletions heq
  have hdel : deletions = request.files_to_delete.map (fun f => .OverlayDeleteFile f true) := by
    rcases deleteFiles_spec dev (request.overlay_path ++ "/.overlay") request.overlay_id
      (dev.Overlay_Open (HandleOverlayUpdate.wipe dev s request response).state
        (request.overlay_path ++ "/.overlay") request.overlay_id).2
      request.files_to_delete with ⟨_, h2⟩ | ⟨pre, f, post, _, h2, _⟩
    · rw [heq] at h2
      exact h2
    · rw [heq] at h2
      cases h2
  split
  · rename_i file s2 writes heq2
    refine ⟨writes, by rw [hopen, hdel], ?_⟩
    intro hwrite
    have h1 := writeFiles_ok dev (request.overlay_path ++ "/.overlay") request.overlay_id
      s1 request.files_to_write hwrite
    rw [heq2] at h1
    cases h1
  rename_i s2 writes heq2
  have hwr : writes =
      request.files_to_write.map (fun f => .OverlayWriteFile f.path f.content true) := by
    rcases writeFiles_spec dev (request.overlay_path ++ "/.overlay") request.overlay_id
      s1 request.files_to_write with ⟨_, h2⟩ | ⟨pre, f, post, _, h2, _⟩
    · rw [heq2] at h2
      exact h2
    · rw [heq2] at h2
      cases h2
  split
  · rename_i hc
    refine ⟨writes ++ [.OverlayCommit false], by rw [hopen, hdel, hc]; simp, ?_⟩
    intro _
    exact ⟨false, by rw [hwr], by simp, fun _ => rfl⟩
  · rename_i hc
    have hc1 : (dev.Overlay_Commit s2 (request.overlay_path ++ "/.overlay")
        request.overlay_id).1 = true := by simpa using hc
    refine ⟨writes ++ [.OverlayCommit true], by rw [hopen, hdel, hc1]; simp, ?_⟩
    intro _
    exact ⟨true, by rw [hwr], by simp, fun h => by cases h⟩

/-- C19.  `HandleOverlayUpdate` applies all deletions, then all writes, each in request
order, and stops at the first failure.  When a deletion fails, the response is
`UPDATE_FAILED` with a message naming the file, and the calls issued after the wipe
are: the open, the deletions before the failing one in request order, and the failing
deletion; no later deletion, no write and no commit.  When a write fails, the response
is `UPDATE_FAILED` with a message naming the path, and the calls are: the open, all
deletions, the writes before the failing one, and the failing write; no later write
and no commit.  When `Commit` is called, all deletions and then all writes have been
applied before it, in request order.  Every run is of one of these kinds: it ends at
the id check, at a failed open, at the first failed deletion, at the first failed
write, or with the commit, and the status is `OK` only in the last case, when the
commit succeeds.  The steps are not skipped: when the id check passes, the open
succeeds and no deletion of a requested file can fail, all deletions are issued, and
when no write of a requested file can fail either, all writes and then the commit
are issued, the status being `OK` exactly when the commit succeeds. -/
theorem HandleOverlayUpdate_stops_at_first_failure {σ : Type} (dev : Device σ) (s : σ)
    (request : proto.OverlayUpdateRequest) (response : proto.OverlayUpdateResponse) :
    (∀ file, ServerAction.OverlayDeleteFile file false
        ∈ (HandleOverlayUpdate dev s request response).trace →
      (HandleOverlayUpdate dev s request response).response.status = .UPDATE_FAILED ∧
      (HandleOverlayUpdate dev s request response).response.error_message =
        "Could not delete file: \x27" ++ file ++ "\x27" ∧
      ∃ pre post, request.files_to_delete = pre ++ file :: post ∧
        (HandleOverlayUpdate dev s request response).trace =
          (HandleOverlayUpdate.wipe dev s request response).trace ++
            [.OverlayOpen (request.overlay_path ++ "/.overlay") request.overlay_id true] ++
            pre.map (fun f => .OverlayDeleteFile f true) ++
            [.OverlayDeleteFile file false]) ∧
    (∀ path content, ServerAction.OverlayWriteFile path content false
        ∈ (HandleOverlayUpdate dev s request response).trace →
      (HandleOverlayUpdate dev s request response).response.status = .UPDATE_FAILED ∧
      (HandleOverlayUpdate dev s request response).response.error_message =
        "Could not write file: \x27" ++ path ++ "\x27" ∧
      ∃ pre post, request.files_to_write = pre ++ { path := path, content := content } :: post ∧
        (HandleOverlayUpdate dev s request response).trace =
          (HandleOverlayUpdate.wipe dev s request response).trace ++
            [.OverlayOpen (request.overlay_path ++ "/.overlay") request.overlay_id true] ++
            request.files_to_delete.map (fun f => .OverlayDeleteFile f true) ++
            pre.map (fun f => .OverlayWriteFile f.path f.content true) ++
            [.OverlayWriteFile path content false]) ∧
    (∀ ok, ServerAction.OverlayCommit ok
        ∈ (HandleOverlayUpdate dev s request response).trace →
      (HandleOverlayUpdate dev s request response).trace =
        (HandleOverlayUpdate.wipe dev s request response).trace ++
          [.OverlayOpen (request.overlay_path ++ "/.overlay") request.overlay_id true] ++
          request.files_to_delete.map (fun f => .OverlayDeleteFile f true) ++
          request.files_to_write.map (fun f => .OverlayWriteFile f.path f.content true) ++
          [.OverlayCommit ok]) ∧
    ((DoesOverlayIdMatch dev (HandleOverlayUpdate.wipe dev s request response).state
        (request.overlay_path ++ "/.overlay") request.expected_overlay_id = false ∧
      (HandleOverlayUpdate dev s request response).response.status = .ID_MISMATCH ∧
      (HandleOverlayUpdate dev s request response).trace =
        (HandleOverlayUpdate.wipe dev s request response).trace) ∨
    (DoesOverlayIdMatch dev (HandleOverlayUpdate.wipe dev s request response).state
        (request.overlay_path ++ "/.overlay") request.expected_overlay_id = true ∧
      (((HandleOverlayUpdate dev s request response).response.status = .UPDATE_FAILED ∧
        (HandleOverlayUpdate dev s request response).response.error_message =
          "Could not open overlay" ∧
        (HandleOverlayUpdate dev s request response).trace =
          (HandleOverlayUpdate.wipe dev s request response).trace ++
            [.OverlayOpen (request.overlay_path ++ "/.overlay") request.overlay_id false]) ∨
      (∃ pre file post, request.files_to_delete = pre ++ file :: post ∧
        (HandleOverlayUpdate dev s request response).response.status = .UPDATE_FAILED ∧
        (HandleOverlayUpdate dev s request response).response.error_message =
          "Could not delete file: \x27" ++ file ++ "\x27" ∧
        (HandleOverlayUpdate dev s request response).trace =
          (HandleOverlayUpdate.wipe dev s request response).trace ++
            [.OverlayOpen (request.overlay_path ++ "/.overlay") request.overlay_id true] ++
            pre.map (fun f => .OverlayDeleteFile f true) ++
            [.OverlayDeleteFile file false]) ∨
      (∃ pre file post, request.files_to_write = pre ++ file :: post ∧
        (HandleOverlayUpdate dev s request response).response.status = .UPDATE_FAILED ∧
        (HandleOverlayUpdate dev s request response).response.error_message =
          "Could not write file: \x27" ++ file.path ++ "\x27" ∧
        (HandleOverlayUpdate dev s request response).trace =
          (HandleOverlayUpdate.wipe dev s request response).trace ++
            [.OverlayOpen (request.overlay_path ++ "/.overlay") request.overlay_id true] ++
            request.files_to_delete.map (fun f => .OverlayDeleteFile f true) ++
            pre.map (fun f => .OverlayWriteFile f.path f.content true) ++
            [.OverlayWriteFile file.path file.content false]) ∨
      ((HandleOverlayUpdate dev s request response).response.status = .UPDATE_FAILED ∧
        (HandleOverlayUpdate dev s request response).response.error_message =
          "Could not commit overlay update" ∧
        (HandleOverlayUpdate dev s request response).trace =
          (HandleOverlayUpdate.wipe dev s request response).trace ++
            [.OverlayOpen (request.overlay_path ++ "/.overlay") request.overlay_id true] ++
            request.files_to_delete.map (fun f => .OverlayDeleteFile f true) ++
            request.files_to_write.map (fun f => .OverlayWriteFile f.path f.content true) ++
            [.OverlayCommit false]) ∨
      ((HandleOverlayUpdate dev s request response).response.status = .OK ∧
        (HandleOverlayUpdate dev s request response).trace =
          (HandleOverlayUpdate.wipe dev s request response).trace ++
            [.OverlayOpen (request.overlay_path ++ "/.overlay") request.overlay_id true] ++
            request.files_to_delete.map (fun f => .OverlayDeleteFile f true) ++
            request.files_to_write.map (fun f => .OverlayWriteFile f.path f.content true) ++
            [.OverlayCommit true])))) ∧
    (DoesOverlayIdMatch dev (HandleOverlayUpdate.wipe dev s request response).state
      (request.overlay_path ++ "/.overlay") request.expected_overlay_id = true →
    (dev.Overlay_Open (HandleOverlayUpdate.wipe dev s request response).state
      (request.overlay_path ++ "/.overlay") request.overlay_id).1 = true →
    (∀ t, ∀ file ∈ request.files_to_delete,
      (dev.Overlay_DeleteFile t (request.overlay_path ++ "/.overlay") request.overlay_id
        file).1 = true) →
    ∃ rest,
      (HandleOverlayUpdate dev s request response).trace =
        (HandleOverlayUpdate.wipe dev s request response).trace ++
          [.OverlayOpen (request.overlay_path ++ "/.overlay") request.overlay_id true] ++
          request.files_to_delete.map (fun f => .OverlayDeleteFile f true) ++ rest ∧
      ((∀ t, ∀ file ∈ request.files_to_write,
          (dev.Overlay_WriteFile t (request.overlay_path ++ "/.overlay") request.overlay_id
            file.path file.content).1 = true) →
        ∃ ok,
          rest =
            request.files_to_write.map (fun f => .OverlayWriteFile f.path f.content true) ++
              [.OverlayCommit ok] ∧
          ((HandleOverlayUpdate dev s request response).response.status = .OK ↔
            ok = true) ∧
          (ok = false →
            (HandleOverlayUpdate dev s request response).response.status
              = .UPDATE_FAILED))) := by
  have hw : ∀ a ∈ (HandleOverlayUpdate.wipe dev s request response).trace,
      ∃ path result, a = .Nftw path result := by
    intro a ha
    rcases wipe_trace_cases dev s request response with h | ⟨p, r, h⟩
    · rw [h] at ha
      simp at ha
    · rw [h] at ha
      simp at ha
      exact ⟨p, r, ha⟩
  have hwd : ∀ f b, ServerAction.OverlayDeleteFile f b ∉
      (HandleOverlayUpdate.wipe dev s request response).trace := by
    intro f b h
    obtain ⟨p, r, h1⟩ := hw _ h
    cases h1
  have hww : ∀ p c b, ServerAction.OverlayWriteFile p c b ∉
      (HandleOverlayUpdate.wipe dev s request response).trace := by
    intro p c b h
    obtain ⟨p, r, h1⟩ := hw _ h
    cases h1
  have hwc : ∀ b, ServerAction.OverlayCommit b ∉
      (HandleOverlayUpdate.wipe dev s request response).trace := by
    intro b h
    obtain ⟨p, r, h1⟩ := hw _ h
    cases h1
  refine ⟨?_, ?_, ?_, HandleOverlayUpdate_phases dev s request response,
    HandleOverlayUpdate_progress dev s request response⟩
  · intro file hmem
    rcases HandleOverlayUpdate_phases dev s request response with
      ⟨_, _, ht⟩ | ⟨_, ⟨_, _, ht⟩ | ⟨pre, f, post, hsplit, hs, hm, ht⟩ |
        ⟨pre, f, post, hsplit, hs, hm, ht⟩ | ⟨_, _, ht⟩ | ⟨_, ht⟩⟩ <;> rw [ht] at hmem
    · exact absurd hmem (hwd _ _)
    · simp [hwd] at hmem
    · simp [hwd] at hmem
      subst hmem
      exact ⟨hs, hm, pre, post, hsplit, ht⟩
    · simp [hwd] at hmem
    · simp [hwd] at hmem
    · simp [hwd] at hmem
  · intro path content hmem
    rcases HandleOverlayUpdate_phases dev s request response with
      ⟨_, _, ht⟩ | ⟨_, ⟨_, _, ht⟩ | ⟨pre, f, post, hsplit, hs, hm, ht⟩ |
        ⟨pre, f, post, hsplit, hs, hm, ht⟩ | ⟨_, _, ht⟩ | ⟨_, ht⟩⟩ <;> rw [ht] at hmem
    · exact absurd hmem (hww _ _ _)
    · simp [hww] at hmem
    · simp [hww] at hmem
    · simp [hww] at hmem
      obtain ⟨h1, h2⟩ := hmem
      have hf : f = { path := path, content := content } := by
        cases f
        simp at h1 h2
        simp [h1, h2]
      subst hf
      exact ⟨hs, hm, pre, post, hsplit, ht⟩
    · simp [hww] at hmem
    · simp [hww] at hmem
  · intro ok hmem
    rcases HandleOverlayUpdate_phases dev s request response with
      ⟨_, _, ht⟩ | ⟨_, ⟨_, _, ht⟩ | ⟨pre, f, post, hsplit, hs, hm, ht⟩ |
        ⟨pre, f, post, hsplit, hs, hm, ht⟩ | ⟨_, _, ht⟩ | ⟨_, ht⟩⟩ <;> rw [ht] at hmem
    · exact absurd hmem (hwc _)
    · simp [hwc] at hmem
    · simp [hwc] at hmem
    · simp [hwc] at hmem
    · simp [hwc] at hmem
      subst hmem
      exact ht
    · simp [hwc] at hmem
      subst hmem
      exact ht

/-- Witness for C19: the store is at id `v2` and the request expects `v2`.  When the
deletion of `classes.dex` fails, the response is `UPDATE_FAILED` and names the file.
When no step fails, the open and the deletion are followed by the write and the
commit, and the status is `OK` exactly when the commit succeeds. -/
theorem HandleOverlayUpdate_stops_at_first_failure_witness :
    ((HandleOverlayUpdate (specDevice (Example.deleteFails "classes.dex")) Example.diskAtV2
        (Example.update false "v2") Example.freshUpdateResponse).response.status
        = .UPDATE_FAILED ∧
      (HandleOverlayUpdate (specDevice (Example.deleteFails "classes.dex")) Example.diskAtV2
        (Example.update false "v2") Example.freshUpdateResponse).response.error_message
        = "Could not delete file: \x27" ++ "classes.dex" ++ "\x27") ∧
    ∃ rest ok,
      (HandleOverlayUpdate (specDevice Example.noFaults) Example.diskAtV2
        (Example.update false "v2") Example.freshUpdateResponse).trace =
        [] ++ [.OverlayOpen Example.overlayFolder "v3" true] ++
          [.OverlayDeleteFile "classes.dex" true] ++ rest ∧
      rest = [.OverlayWriteFile "classes2.dex" "new" true] ++ [.OverlayCommit ok] ∧
      ((HandleOverlayUpdate (specDevice Example.noFaults) Example.diskAtV2
        (Example.update false "v2") Example.freshUpdateResponse).response.status = .OK ↔
        ok = true) :=
  have h := (HandleOverlayUpdate_stops_at_first_failure
    (specDevice (Example.deleteFails "classes.dex")) Example.diskAtV2
    (Example.update false "v2") Example.freshUpdateResponse).1 "classes.dex" (by decide)
  have g := (HandleOverlayUpdate_stops_at_first_failure (specDevice Example.noFaults)
    Example.diskAtV2 (Example.update false "v2") Example.freshUpdateResponse).2.2.2.2
      (by decide) (by decide) (fun _ _ _ => rfl)
  ⟨⟨h.1, h.2.1⟩,
    g.elim (fun rest hr =>
      (hr.2 (fun _ _ _ => rfl)).elim (fun ok ho => ⟨rest, ok, hr.1, ho.1, ho.2.1⟩))⟩

theorem wipe_without_flag {σ : Type} (dev : Device σ) (s : σ)
    (request : proto.OverlayUpdateRequest) (response : proto.OverlayUpdateResponse)
    (hwipe : request.wipe_all_files = false) :
    HandleOverlayUpdate.wipe dev s request response =
      { response := response, state := s, trace := [] } := by
  simp [HandleOverlayUpdate.wipe, hwipe]

theorem HandleOverlayUpdate_trace_indep {σ : Type} (dev : Device σ) (s : σ)
    (request : proto.OverlayUpdateRequest) (r : proto.OverlayUpdateResponse)
    (r0 : proto.OverlayUpdateResponse) :
    (HandleOverlayUpdate dev s request r).trace =
      (HandleOverlayUpdate dev s request r0).trace := by
  have hw : (HandleOverlayUpdate.wipe dev s request r).state =
        (HandleOverlayUpdate.wipe dev s request r0).state ∧
      (HandleOverlayUpdate.wipe dev s request r).trace =
        (HandleOverlayUpdate.wipe dev s request r0).trace := by
    unfold HandleOverlayUpdate.wipe
    dsimp only
    split
    · split <;> exact ⟨rfl, rfl⟩
    · exact ⟨rfl, rfl⟩
  unfold HandleOverlayUpdate
  dsimp only
  rw [hw.1, hw.2]
  split
  · rfl
  · split
    · rfl
    · split
      · rfl
      · split
        · rfl
        · split <;> rfl

/-- C20.  For an overlay-update request without the wipe flag, the status that
`HandleOverlayUpdate` sets is a function of the outcomes of its steps: it is
`ID_MISMATCH` iff the expected-id check fails; otherwise it is `OK` iff `Open`, every
deletion, every write and `Commit` were all called and all succeeded; otherwise it is
`UPDATE_FAILED`.  The status is one of these three, and it is set on every path: it
does not depend on the response the method was given. -/
theorem HandleOverlayUpdate_status_total {σ : Type} (dev : Device σ) (s : σ)
    (request : proto.OverlayUpdateRequest) (response : proto.OverlayUpdateResponse)
    (hwipe : request.wipe_all_files = false) :
    ((HandleOverlayUpdate dev s request response).response.status = .ID_MISMATCH ↔
      DoesOverlayIdMatch dev s (request.overlay_path ++ "/.overlay")
        request.expected_overlay_id = false) ∧
    (DoesOverlayIdMatch dev s (request.overlay_path ++ "/.overlay")
        request.expected_overlay_id = true →
      ((HandleOverlayUpdate dev s request response).response.status = .OK ↔
        (HandleOverlayUpdate dev s request response).trace =
          [.OverlayOpen (request.overlay_path ++ "/.overlay") request.overlay_id true] ++
            request.files_to_delete.map (fun f => .OverlayDeleteFile f true) ++
            request.files_to_write.map (fun f => .OverlayWriteFile f.path f.content true) ++
            [.OverlayCommit true]) ∧
      ((HandleOverlayUpdate dev s request response).response.status ≠ .OK →
        (HandleOverlayUpdate dev s request response).response.status = .UPDATE_FAILED)) ∧
    ((HandleOverlayUpdate dev s request response).response.status = .ID_MISMATCH ∨
      (HandleOverlayUpdate dev s request response).response.status = .OK ∨
      (HandleOverlayUpdate dev s request response).response.status = .UPDATE_FAILED) ∧
    (∀ response0, (HandleOverlayUpdate dev s request response0).response.status =
      (HandleOverlayUpdate dev s request response).response.status) := by
  have hfull : ∀ (r : proto.OverlayUpdateResponse),
      (DoesOverlayIdMatch dev s (request.overlay_path ++ "/.overlay")
          request.expected_overlay_id = false ∧
        (HandleOverlayUpdate dev s request r).response.status = .ID_MISMATCH) ∨
      (DoesOverlayIdMatch dev s (request.overlay_path ++ "/.overlay")
          request.expected_overlay_id = true ∧
        (((HandleOverlayUpdate dev s request r).response.status = .OK ∧
          (HandleOverlayUpdate dev s request r).trace =
            [.OverlayOpen (request.overlay_path ++ "/.overlay") request.overlay_id true] ++
              request.files_to_delete.map (fun f => .OverlayDeleteFile f true) ++
              request.files_to_write.map
                (fun f => .OverlayWriteFile f.path f.content true) ++
              [.OverlayCommit true]) ∨
        ((HandleOverlayUpdate dev s request r).response.status = .UPDATE_FAILED ∧
          (HandleOverlayUpdate dev s request r).trace ≠
            [.OverlayOpen (request.overlay_path ++ "/.overlay") request.overlay_id true] ++
              request.files_to_delete.map (fun f => .OverlayDeleteFile f true) ++
              request.files_to_write.map
                (fun f => .OverlayWriteFile f.path f.content true) ++
              [.OverlayCommit true]))) := by
    intro r
    have hw := wipe_without_flag dev s request r hwipe
    rcases HandleOverlayUpdate_phases dev s request r with
      ⟨hm, hs, _⟩ | ⟨hm, ⟨hs, _, ht⟩ | ⟨pre, f, post, hsplit, hs, _, ht⟩ |
        ⟨pre, f, post, hsplit, hs, _, ht⟩ | ⟨hs, _, ht⟩ | ⟨hs, ht⟩⟩ <;>
      rw [hw] at hm
    · exact Or.inl ⟨hm, hs⟩
    · refine Or.inr ⟨hm, Or.inr ⟨hs, ?_⟩⟩
      rw [ht, hw]
      simp
    · refine Or.inr ⟨hm, Or.inr ⟨hs, ?_⟩⟩
      rw [ht, hw]
      intro h
      have hmem : ServerAction.OverlayDeleteFile f false ∈
          [ServerAction.OverlayOpen (request.overlay_path ++ "/.overlay")
              request.overlay_id true] ++
            request.files_to_delete.map (fun f => ServerAction.OverlayDeleteFile f true) ++
            request.files_to_write.map
              (fun f => ServerAction.OverlayWriteFile f.path f.content true) ++
            [ServerAction.OverlayCommit true] := by
        rw [← h]
        simp
      simp at hmem
    · refine Or.inr ⟨hm, Or.inr ⟨hs, ?_⟩⟩
      rw [ht, hw]
      intro h
      have hmem : ServerAction.OverlayWriteFile f.path f.content false ∈
          [ServerAction.OverlayOpen (request.overlay_path ++ "/.overlay")
              request.overlay_id true] ++
            request.files_to_delete.map (fun f => ServerAction.OverlayDeleteFile f true) ++
            request.files_to_write.map
              (fun f => ServerAction.OverlayWriteFile f.path f.content true) ++
            [ServerAction.OverlayCommit true] := by
        rw [← h]
        simp
      simp at hmem
    · refine Or.inr ⟨hm, Or.inr ⟨hs, ?_⟩⟩
      rw [ht, hw]
      simp
    · refine Or.inr ⟨hm, Or.inl ⟨hs, ?_⟩⟩
      rw [ht, hw]
      simp
  refine ⟨?_, ?_, ?_, ?_⟩
  · rcases hfull response with ⟨hm, hs⟩ | ⟨hm, ⟨hs, _⟩ | ⟨hs, _⟩⟩ <;> simp [hm, hs]
  · intro hm
    rcases hfull response with ⟨hm1, _⟩ | ⟨_, ⟨hs, ht⟩ | ⟨hs, ht⟩⟩
    · rw [hm] at hm1
      cases hm1
    · exact ⟨⟨fun _ => ht, fun _ => hs⟩, fun h => absurd hs h⟩
    · refine ⟨⟨fun h => ?_, fun h => absurd h ht⟩, fun _ => hs⟩
      rw [hs] at h
      cases h
  · rcases hfull response with ⟨_, hs⟩ | ⟨_, ⟨hs, _⟩ | ⟨hs, _⟩⟩
    · exact Or.inl hs
    · exact Or.inr (Or.inl hs)
    · exact Or.inr (Or.inr hs)
  · intro response0
    rcases hfull response with ⟨hm, hs⟩ | ⟨hm, ⟨hs, ht⟩ | ⟨hs, ht⟩⟩ <;>
      rcases hfull response0 with ⟨hm0, hs0⟩ | ⟨hm0, ⟨hs0, ht0⟩ | ⟨hs0, ht0⟩⟩
    · rw [hs, hs0]
    · rw [hm] at hm0
      cases hm0
    · rw [hm] at hm0
      cases hm0
    · rw [hm] at hm0
      cases hm0
    · rw [hs, hs0]
    · exact absurd (HandleOverlayUpdate_trace_indep dev s request response0 response ▸ ht) ht0
    · rw [hm] at hm0
      cases hm0
    · exact absurd (HandleOverlayUpdate_trace_indep dev s request response response0 ▸ ht0) ht
    · rw [hs, hs0]

/-- Witness for C20: the store is at id `v2`, the request expects `v2`, no step fails:
every step is called and the status is `OK`. -/
theorem HandleOverlayUpdate_status_total_witness :
    (HandleOverlayUpdate (specDevice Example.noFaults) Example.diskAtV2
      (Example.update false "v2") Example.freshUpdateResponse).response.status = .OK :=
  ((HandleOverlayUpdate_status_total (specDevice Example.noFaults) Example.diskAtV2
    (Example.update false "v2") Example.freshUpdateResponse rfl).2.1
      (by decide)).1.mpr (by decide)

/-! ### The overlay update on the store of the specification -/

theorem spec_deleteFiles (f : Faults) (overlay_folder : String) (id : String) (d : Disk)
    (files : List String) :
    (HandleOverlayUpdate.deleteFiles (specDevice f) overlay_folder id d files).2.1.dirs
        = d.dirs ∧
      ((HandleOverlayUpdate.deleteFiles (specDevice f) overlay_folder id d files).1 = none →
        (HandleOverlayUpdate.deleteFiles (specDevice f) overlay_folder id d files).2.1 =
          { d with pending_deletes := d.pending_deletes ++ files }) := by
  induction files generalizing d with
  | nil => simp [HandleOverlayUpdate.deleteFiles]
  | cons file rest ih =>
    unfold HandleOverlayUpdate.deleteFiles
    dsimp only
    by_cases hok : f.delete_ok file = true
    · have hstep : (specDevice f).Overlay_DeleteFile d overlay_folder id file =
          (true, { d with pending_deletes := d.pending_deletes ++ [file] }) := by
        simp [specDevice, Overlay.DeleteFile, hok]
      rw [hstep]
      simp only [Bool.true_eq_false, if_false]
      obtain ⟨h1, h2⟩ := ih { d with pending_deletes := d.pending_deletes ++ [file] }
      refine ⟨h1, fun h => ?_⟩
      rw [h2 h]
      simp
    · have hstep : (specDevice f).Overlay_DeleteFile d overlay_folder id file = (false, d) := by
        simp [specDevice, Overlay.DeleteFile, hok]
      rw [hstep]
      simp

theorem spec_writeFiles (f : Faults) (overlay_folder : String) (id : String) (d : Disk)
    (files : List proto.OverlayFile) :
    (HandleOverlayUpdate.writeFiles (specDevice f) overlay_folder id d files).2.1.dirs
        = d.dirs ∧
      ((HandleOverlayUpdate.writeFiles (specDevice f) overlay_folder id d files).1 = none →
        (HandleOverlayUpdate.writeFiles (specDevice f) overlay_folder id d files).2.1 =
          { d with
            pending_writes :=
              d.pending_writes ++ files.map (fun w => (w.path, w.content)) }) := by
  induction files generalizing d with
  | nil => simp [HandleOverlayUpdate.writeFiles]
  | cons file rest ih =>
    unfold HandleOverlayUpdate.writeFiles
    dsimp only
    by_cases hok : f.write_ok file.path = true
    · have hstep : (specDevice f).Overlay_WriteFile d overlay_folder id file.path file.content =
          (true,
            { d with pending_writes := d.pending_writes ++ [(file.path, file.content)] }) := by
        simp [specDevice, Overlay.WriteFile, hok]
      rw [hstep]
      simp only [Bool.true_eq_false, if_false]
      obtain ⟨h1, h2⟩ := ih
        { d with pending_writes := d.pending_writes ++ [(file.path, file.content)] }
      refine ⟨h1, fun h => ?_⟩
      rw [h2 h]
      simp
    · have hstep : (specDevice f).Overlay_WriteFile d overlay_folder id file.path file.content =
          (false, d) := by
        simp [specDevice, Overlay.WriteFile, hok]
      rw [hstep]
      simp

theorem spec_update_state (f : Faults) (d : Disk) (request : proto.OverlayUpdateRequest)
    (response : proto.OverlayUpdateResponse) :
    ((HandleOverlayUpdate (specDevice f) d request response).response.status
        = .ID_MISMATCH) ∨
    ((HandleOverlayUpdate (specDevice f) d request response).response.status
        = .UPDATE_FAILED ∧
      (HandleOverlayUpdate (specDevice f) d request response).state.dirs =
        (HandleOverlayUpdate.wipe (specDevice f) d request response).state.dirs) ∨
    ((HandleOverlayUpdate (specDevice f) d request response).response.status = .OK ∧
      (HandleOverlayUpdate (specDevice f) d request response).state =
        (Overlay.Commit f
          { dirs := (HandleOverlayUpdate.wipe (specDevice f) d request response).state.dirs
            pending_writes := request.files_to_write.map (fun w => (w.path, w.content))
            pending_deletes := request.files_to_delete }
          (request.overlay_path ++ "/.overlay") request.overlay_id).2 ∧
      f.commit_ok = true) := by
  unfold HandleOverlayUpdate
  dsimp only
  split
  · exact Or.inl rfl
  right
  by_cases hopen : f.open_ok = true
  swap
  · have ho : (specDevice f).Overlay_Open
        (HandleOverlayUpdate.wipe (specDevice f) d request response).state
        (request.overlay_path ++ "/.overlay") request.overlay_id =
        (false, (HandleOverlayUpdate.wipe (specDevice f) d request response).state) := by
      simp [specDevice, Overlay.Open, hopen]
    rw [ho]
    exact Or.inl ⟨rfl, rfl⟩
  have ho : (specDevice f).Overlay_Open
      (HandleOverlayUpdate.wipe (specDevice f) d request response).state
      (request.overlay_path ++ "/.overlay") request.overlay_id =
      (true, { (HandleOverlayUpdate.wipe (specDevice f) d request response).state with
        pending_writes := [], pending_deletes := [] }) := by
    simp [specDevice, Overlay.Open, hopen]
  rw [ho]
  simp only [Bool.true_eq_false, if_false]
  obtain ⟨hd1, hd2⟩ := spec_deleteFiles f (request.overlay_path ++ "/.overlay")
    request.overlay_id
    { (HandleOverlayUpdate.wipe (specDevice f) d request response).state with
      pending_writes := [], pending_deletes := [] } request.files_to_delete
  split
  · rename_i file s1 deletions heq
    rw [heq] at hd1
    exact Or.inl ⟨rfl, hd1⟩
  rename_i s1 deletions heq
  rw [heq] at hd1 hd2
  have hs1 := hd2 rfl
  dsimp only at hs1 hd1
  obtain ⟨hw1, hw2⟩ := spec_writeFiles f (request.overlay_path ++ "/.overlay")
    request.overlay_id s1 request.files_to_write
  split
  · rename_i file s2 writes heq2
    rw [heq2] at hw1
    exact Or.inl ⟨rfl, hw1.trans hd1⟩
  rename_i s2 writes heq2
  rw [heq2] at hw1 hw2
  have hs2 := hw2 rfl
  dsimp only at hs2 hw1
  subst hs1
  subst hs2
  by_cases hc : f.commit_ok = true
  · right
    simp [specDevice, Overlay.Commit, hc, Disk.applyPending, Disk.find]
  · left
    simp [specDevice, Overlay.Commit, hc]

theorem applyPending_keeps (l : List (String × String)) (acc : List (String × String))
    (x : String × String) (hx : x ∈ acc) (h : ∀ v ∈ l, v.1 ≠ x.1) :
    x ∈ l.foldl (fun fs w => fs.filter (fun e => e.1 ≠ w.1) ++ [w]) acc := by
  induction l generalizing acc with
  | nil => exact hx
  | cons v rest ih =>
    rw [List.foldl_cons]
    apply ih
    · apply List.mem_append_left
      rw [List.mem_filter]
      refine ⟨hx, ?_⟩
      have := h v (List.mem_cons_self _ _)
      simpa using fun h1 => this h1.symm
    · intro u hu
      exact h u (List.mem_cons_of_mem _ hu)

theorem applyPending_absent (l : List (String × String)) (acc : List (String × String))
    (p : String) (hp : ∀ c, (p, c) ∉ acc) (h : ∀ v ∈ l, v.1 ≠ p) :
    ∀ c, (p, c) ∉ l.foldl (fun fs w => fs.filter (fun e => e.1 ≠ w.1) ++ [w]) acc := by
  induction l generalizing acc with
  | nil => exact hp
  | cons v rest ih =>
    rw [List.foldl_cons]
    apply ih
    · intro c hc
      rw [List.mem_append, List.mem_filter, List.mem_singleton] at hc
      rcases hc with ⟨hc, _⟩ | hc
      · exact hp c hc
      · exact h v (List.mem_cons_self _ _) (by rw [← hc])
    · intro u hu
      exact h u (List.mem_cons_of_mem _ hu)

theorem applyPending_written (pre : List (String × String)) (w : String × String)
    (post : List (String × String)) (acc : List (String × String))
    (h : ∀ v ∈ post, v.1 ≠ w.1) :
    w ∈ (pre ++ w :: post).foldl (fun fs w => fs.filter (fun e => e.1 ≠ w.1) ++ [w]) acc := by
  rw [List.foldl_append, List.foldl_cons]
  apply applyPending_keeps _ _ _ _ h
  simp

/-- C11, as stated, fails on the overlay store of the specification: the store is at id
`v2`, the request carries the wipe flag (and expects no overlay), and its deletion
fails.  The response is `UPDATE_FAILED`, and the overlay directory is not what it was
before the request: the wipe has removed it. -/
theorem HandleOverlayUpdate_all_or_nothing_counterexample :
    Example.diskAtV2.find Example.overlayFolder
        = some { id := "v2", files := [("classes.dex", "old")] } ∧
      (HandleOverlayUpdate (specDevice (Example.deleteFails "classes.dex")) Example.diskAtV2
        (Example.update true "") Example.freshUpdateResponse).response
        = { status := .UPDATE_FAILED
            error_message := "Could not delete file: \x27classes.dex\x27" } ∧
      (HandleOverlayUpdate (specDevice (Example.deleteFails "classes.dex")) Example.diskAtV2
        (Example.update true "") Example.freshUpdateResponse).state.find
          Example.overlayFolder = none := by
  decide

/-- C11, amended.  On the overlay store of the specification, an overlay update is
all-or-nothing with respect to the state that the requested wipe leaves, which is the
state before the request when the wipe flag is not set.  If `HandleOverlayUpdate` ends
with `UPDATE_FAILED` (the open, a staged deletion or write, or the commit failed), the
overlay directories, ids and content, are identical to that state.  If it ends with
`OK`, the stored id is the requested new id and every requested write and delete is
reflected: a written file is there with the content of the last write to its path, a
deleted path that is not written is gone, and a file neither deleted nor written is
kept. -/
theorem HandleOverlayUpdate_all_or_nothing (f : Faults) (d : Disk)
    (request : proto.OverlayUpdateRequest) (response : proto.OverlayUpdateResponse) :
    (request.wipe_all_files = false →
      (HandleOverlayUpdate.wipe (specDevice f) d request response).state = d) ∧
    ((HandleOverlayUpdate (specDevice f) d request response).response.status
        = .UPDATE_FAILED →
      (HandleOverlayUpdate (specDevice f) d request response).state.dirs =
          (HandleOverlayUpdate.wipe (specDevice f) d request response).state.dirs ∧
        (HandleOverlayUpdate (specDevice f) d request response).state.find
            (request.overlay_path ++ "/.overlay") =
          (HandleOverlayUpdate.wipe (specDevice f) d request response).state.find
            (request.overlay_path ++ "/.overlay")) ∧
    ((HandleOverlayUpdate (specDevice f) d request response).response.status = .OK →
      ∃ files,
        (HandleOverlayUpdate (specDevice f) d request response).state.find
            (request.overlay_path ++ "/.overlay") =
          some { id := request.overlay_id, files := files } ∧
        (∀ pre w post, request.files_to_write = pre ++ w :: post →
          (∀ v ∈ post, v.path ≠ w.path) → (w.path, w.content) ∈ files) ∧
        (∀ p ∈ request.files_to_delete, (∀ w ∈ request.files_to_write, w.path ≠ p) →
          ∀ c, (p, c) ∉ files) ∧
        (∀ e ∈ (((HandleOverlayUpdate.wipe (specDevice f) d request response).state.find
              (request.overlay_path ++ "/.overlay")).elim [] OverlayDir.files),
          e.1 ∉ request.files_to_delete → (∀ w ∈ request.files_to_write, w.path ≠ e.1) →
          e ∈ files)) := by
  refine ⟨?_, ?_, ?_⟩
  · intro hwipe
    rw [wipe_without_flag _ _ _ _ hwipe]
  · intro hs
    rcases spec_update_state f d request response with h | ⟨_, h⟩ | ⟨h, _⟩
    · rw [hs] at h
      cases h
    · exact ⟨h, by unfold Disk.find; rw [h]⟩
    · rw [hs] at h
      cases h
  · intro hs
    rcases spec_update_state f d request response with h | ⟨h, _⟩ | ⟨_, hstate, hc⟩
    · rw [hs] at h
      cases h
    · rw [hs] at h
      cases h
    · refine ⟨Disk.applyPending
          { dirs := (HandleOverlayUpdate.wipe (specDevice f) d request response).state.dirs
            pending_writes := request.files_to_write.map (fun w => (w.path, w.content))
            pending_deletes := request.files_to_delete }
          (((HandleOverlayUpdate.wipe (specDevice f) d request response).state.find
            (request.overlay_path ++ "/.overlay")).elim [] OverlayDir.files), ?_, ?_, ?_, ?_⟩
      · rw [hstate]
        simp only [Overlay.Commit, hc, if_true, Disk.find, List.lookup_cons, beq_self_eq_true]
      · intro pre w post hsplit hpost
        simp only [Disk.applyPending, hsplit, List.map_append, List.map_cons]
        apply applyPending_written
        intro v hv
        rw [List.mem_map] at hv
        obtain ⟨u, hu, rfl⟩ := hv
        exact hpost u hu
      · intro p hp hw
        simp only [Disk.applyPending]
        apply applyPending_absent
        · intro c hc
          rw [List.mem_filter] at hc
          simp [hp] at hc
        · intro v hv
          rw [List.mem_map] at hv
          obtain ⟨u, hu, rfl⟩ := hv
          exact hw u hu
      · intro e he hdel hw
        simp only [Disk.applyPending]
        apply applyPending_keeps
        · rw [List.mem_filter]
          exact ⟨he, by simpa using hdel⟩
        · intro v hv
          rw [List.mem_map] at hv
          obtain ⟨u, hu, rfl⟩ := hv
          exact hw u hu

/-- Witness for C11 (amended): the store is at id `v2`, the request expects `v2`, has no
wipe flag, and its deletion fails: the response is `UPDATE_FAILED` and the overlay
directories are those of before the request. -/
theorem HandleOverlayUpdate_all_or_nothing_witness :
    (HandleOverlayUpdate.wipe (specDevice (Example.deleteFails "classes.dex"))
        Example.diskAtV2 (Example.update false "v2") Example.freshUpdateResponse).state
        = Example.diskAtV2 ∧
      (HandleOverlayUpdate (specDevice (Example.deleteFails "classes.dex")) Example.diskAtV2
        (Example.update false "v2") Example.freshUpdateResponse).state.dirs =
      (HandleOverlayUpdate.wipe (specDevice (Example.deleteFails "classes.dex"))
        Example.diskAtV2 (Example.update false "v2") Example.freshUpdateResponse).state.dirs :=
  have h := HandleOverlayUpdate_all_or_nothing (Example.deleteFails "classes.dex")
    Example.diskAtV2 (Example.update false "v2") Example.freshUpdateResponse
  ⟨h.1 rfl, (h.2.1 (by decide)).1⟩

/-! ## Properties of the entry guard and of the filter -/

theorem inspectRecords_status (records : List ProcessRecord)
    (status : proto.SwapResponse.Status) (extra : String)
    (h : Swap.inspectRecords records = some (status, extra)) :
    status = .PROCESS_CRASHING ∨ status = .PROCESS_NOT_RESPONDING := by
  induction records with
  | nil => simp [Swap.inspectRecords] at h
  | cons r rest ih =>
    unfold Swap.inspectRecords at h
    split at h
    · simp at h
      exact Or.inl h.1.symm
    · split at h
      · simp at h
        exact Or.inr h.1.symm
      · exact ih h

theorem diagnose_status_ne_UNKNOWN (env : Env) (self : BaseSwapCommand)
    (swap_request : proto.SwapRequest) (swap_response : proto.SwapResponse)
    (trace : List Action) :
    (Swap.diagnose env self swap_request swap_response trace).swap_response.status
      ≠ .UNKNOWN := by
  rw [diagnose_response]
  split
  · rename_i status extra h
    cases hr : env.GetProcessInfo self.package_name_ with
    | none => simp [hr] at h
    | some records =>
      rw [hr] at h
      rcases inspectRecords_status records status extra (by simpa using h) with h1 | h1 <;>
        simp [h1]
  · split <;> simp

theorem aggregate_status_ne_UNKNOWN (env : Env) (self : BaseSwapCommand)
    (swap_request : proto.SwapRequest) (swap_response : proto.SwapResponse)
    (sr : proto.InstallServerResponse) (trace : List Action) :
    (Swap.aggregate env self swap_request swap_response sr trace).swap_response.status
      ≠ .UNKNOWN := by
  by_cases hc : sr.status = .REQUEST_COMPLETED
  · by_cases hn : sr.send_response.status = .OK
    · rw [aggregate_OK env self swap_request swap_response sr trace hc hn]
      dsimp only
      split <;> simp
    · rw [aggregate_not_OK env self swap_request swap_response sr trace hc hn]
      exact diagnose_status_ne_UNKNOWN _ _ _ _ _
  · simp [Swap.aggregate, hc]

/-- C28.  If the swap response carries a status other than `UNKNOWN` when `Swap` is
entered, `Swap` does nothing: the response and the command object, with its
`process_ids_`, are as they were, and no call is issued on the install client or on
`CmdCommand`.  Conversely, every run of `Swap` entered with status `UNKNOWN` returns
with a status other than `UNKNOWN`. -/
theorem Swap_entry_guard (env : Env) (self : BaseSwapCommand)
    (swap_request : proto.SwapRequest) (swap_response : proto.SwapResponse) :
    (swap_response.status ≠ .UNKNOWN →
      (Swap env self swap_request swap_response).swap_response = swap_response ∧
      (Swap env self swap_request swap_response).self = self ∧
      (Swap env self swap_request swap_response).trace = []) ∧
    (swap_response.status = .UNKNOWN →
      (Swap env self swap_request swap_response).swap_response.status ≠ .UNKNOWN) := by
  refine ⟨?_, ?_⟩
  · intro h
    simp [Swap, h]
  · intro hU
    unfold Swap
    rw [if_neg (by simp [hU])]
    dsimp only
    split
    · simp
    · split
      · rename_i hl
        rcases ListenForAgents_spec env with
          ⟨_, h⟩ | ⟨_, h⟩ | ⟨r0, _, _, h⟩ | ⟨r0, _, _, _, h⟩ <;>
          rw [h] at hl ⊢ <;> simp at hl ⊢
      · split
        · simp
        · split
          · simp
          · split
            · simp
            · exact aggregate_status_ne_UNKNOWN _ _ _ _ _ _

/-- Witness for C28: entered with the status `AGENT_ERROR`, `Swap` issues no call and
leaves the response as it is; entered with `UNKNOWN`, it returns another status. -/
theorem Swap_entry_guard_witness :
    (Swap (Example.env Example.noReplies none []) Example.command Example.request
        { Example.freshResponse with status := .AGENT_ERROR }).trace = [] ∧
      (Swap (Example.env Example.noReplies none []) Example.command Example.request
        Example.freshResponse).swap_response.status ≠ .UNKNOWN :=
  ⟨((Swap_entry_guard (Example.env Example.noReplies none []) Example.command
      Example.request { Example.freshResponse with status := .AGENT_ERROR }).1
      (by decide)).2.2,
    (Swap_entry_guard (Example.env Example.noReplies none []) Example.command
      Example.request Example.freshResponse).2 rfl⟩

theorem FilterProcessIds_eq (stat : String → Option Nat) (process_ids : List Int) :
    FilterProcessIds stat process_ids = filterAppProcesses stat process_ids := by
  induction process_ids with
  | nil => rfl
  | cons pid rest ih =>
    unfold FilterProcessIds filterAppProcesses
    rw [List.filter_cons]
    unfold filterAppProcesses at ih
    cases hs : stat ("/proc/" ++ to_string pid) with
    | none => simp [isAppProcess, hs, ih]
    | some uid =>
      by_cases hr : uid < kFirstAppUid ∨ uid > kLastAppUid
      · have hk : isAppProcess stat pid = false := by
          simp only [isAppProcess, hs, kFirstAppUid, kLastAppUid] at hr ⊢
          simp only [decide_eq_false_iff_not]
          omega
        simp [hr, hk, ih]
      · have hk : isAppProcess stat pid = true := by
          simp only [isAppProcess, hs, kFirstAppUid, kLastAppUid] at hr ⊢
          simp only [decide_eq_true_eq]
          omega
        simp [hr, hk, ih]

/-- C29.  `FilterProcessIds` is a total function of the pid list, and its result is
the input list filtered by the predicate "`stat` on `/proc/<pid>` succeeds and the
uid is between 10000 and 19999": every pid that satisfies the predicate is kept,
with the number of its occurrences, the result is a sublist of the input (relative
order is preserved and no pid is added), and no kept pid fails the predicate. -/
theorem FilterProcessIds_refines_filter (stat : String → Option Nat)
    (process_ids : List Int) :
    FilterProcessIds stat process_ids = filterAppProcesses stat process_ids ∧
    (∀ pid ∈ process_ids, isAppProcess stat pid = true →
      pid ∈ FilterProcessIds stat process_ids) ∧
    (∀ pid, isAppProcess stat pid = true →
      (FilterProcessIds stat process_ids).count pid = process_ids.count pid) ∧
    (FilterProcessIds stat process_ids).Sublist process_ids ∧
    (∀ pid ∈ FilterProcessIds stat process_ids,
      pid ∈ process_ids ∧ isAppProcess stat pid = true) := by
  rw [FilterProcessIds_eq]
  unfold filterAppProcesses
  refine ⟨rfl, ?_, ?_, List.filter_sublist _, ?_⟩
  · intro pid hmem hk
    exact List.mem_filter.mpr ⟨hmem, hk⟩
  · intro pid hk
    rw [List.count_filter hk]
  · intro pid hmem
    exact List.mem_filter.mp hmem

/-- Witness for C29: of the pids 7, 9, 8, 7, 5, the root-owned 9 and the missing 5
are dropped, the others stay in their order, 7 twice. -/
theorem FilterProcessIds_refines_filter_witness :
    FilterProcessIds Example.procStat [7, 9, 8, 7, 5] = [7, 8, 7] ∧
      (FilterProcessIds Example.procStat [7, 9, 8, 7, 5]).count 7 = 2 :=
  ⟨by decide,
    (FilterProcessIds_refines_filter Example.procStat [7, 9, 8, 7, 5]).2.2.1 7 (by decide)⟩

/-! ## Properties of the request loop of the server -/

theorem HandleCheckSetup_loop_eq {σ : Type} (dev : Device σ) (s : σ) (files : List String)
    (missing_files : List String) :
    HandleCheckSetup.loop dev s files missing_files =
      missing_files ++ files.filter (fun file => decide (dev.access s file ≠ 0)) := by
  induction files generalizing missing_files with
  | nil => simp [HandleCheckSetup.loop]
  | cons file rest ih =>
    unfold HandleCheckSetup.loop
    by_cases h : dev.access s file ≠ 0
    · rw [if_pos h, ih, List.filter_cons_of_pos (by simpa using h)]
      simp
    · rw [if_neg h, ih, List.filter_cons_of_neg (by simpa using h)]

/-- C21.  `HandleCheckSetup` adds to the response the requested paths whose existence
test fails, in request order and with the multiplicity of the request.  In the
response that `HandleRequest` writes for a check request, `missing_files` is exactly
that sublist of the request: a path is in it iff it is in the request and its
existence test fails.  There is no side effect: the state of the device is as it
was, and the only call issued is the write of the response. -/
theorem HandleCheckSetup_missing_files {σ ε : Type} (dev : Device σ) (env : ServerEnv ε)
    (k : Nat) (s : σ) (type : proto.InstallServerRequest.Type)
    (request : proto.CheckSetupRequest) (response : proto.CheckSetupResponse) :
    (HandleCheckSetup dev s request response).missing_files =
      response.missing_files ++
        request.files.filter (fun file => decide (dev.access s file ≠ 0)) ∧
    (HandleRequest dev env k s
        { type := type, message := .check_request request }).response.check_response
      = { missing_files := request.files.filter (fun file => decide (dev.access s file ≠ 0)) } ∧
    (∀ file,
      file ∈ (HandleRequest dev env k s
          { type := type, message := .check_request request }
        ).response.check_response.missing_files ↔
      file ∈ request.files ∧ dev.access s file ≠ 0) ∧
    (∀ file, dev.access s file ≠ 0 →
      (HandleRequest dev env k s
          { type := type, message := .check_request request }
        ).response.check_response.missing_files.count file = request.files.count file) ∧
    ((HandleRequest dev env k s
          { type := type, message := .check_request request }
        ).response.check_response.missing_files).Sublist request.files ∧
    (HandleRequest dev env k s { type := type, message := .check_request request }).state
      = s ∧
    (HandleRequest dev env k s { type := type, message := .check_request request }).trace
      = [.Write
          (HandleRequest dev env k s
            { type := type, message := .check_request request }).response
          (env.Write k
            (HandleRequest dev env k s
              { type := type, message := .check_request request }).response)] := by
  have hr : (HandleRequest dev env k s
        { type := type, message := .check_request request }).response.check_response
      = { missing_files :=
          request.files.filter (fun file => decide (dev.access s file ≠ 0)) } := by
    simp [HandleRequest, HandleCheckSetup, HandleCheckSetup_loop_eq, ServerResponse.fresh]
  refine ⟨?_, hr, ?_, ?_, ?_, ?_, ?_⟩
  · simp [HandleCheckSetup, HandleCheckSetup_loop_eq]
  · intro file
    rw [hr]
    simp [List.mem_filter]
  · intro file hfile
    rw [hr]
    exact List.count_filter (by simpa using hfile)
  · rw [hr]
    exact List.filter_sublist _
  · simp [HandleRequest]
  · simp [HandleRequest]

/-- Witness for C21: on a device where nothing exists, both paths of the request are
reported missing. -/
theorem HandleCheckSetup_missing_files_witness :
    "/data/b" ∈ (HandleRequest Example.bareDevice (Example.serverEnv (fun _ => true)) 1 ()
        Example.checkRequest).response.check_response.missing_files :=
  ((HandleCheckSetup_missing_files Example.bareDevice (Example.serverEnv (fun _ => true)) 1
    () .HANDLE_REQUEST { files := ["/data/a", "/data/b"] } { missing_files := [] }).2.2.1
      "/data/b").mpr ⟨by decide, by decide⟩

/-- C22.  The response that `HandleRequest` produces carries the top-level status
`REQUEST_COMPLETED`, whatever the request variant and whatever the status of the
variant: for an overlay request the overlay response is the one that
`HandleOverlayUpdate` left, status included.  `HandleRequest` issues exactly one write,
of that response, as its last call. -/
theorem HandleRequest_one_completed_response {σ ε : Type} (dev : Device σ)
    (env : ServerEnv ε) (k : Nat) (s : σ) (request : proto.InstallServerRequest) :
    (HandleRequest dev env k s request).response.status = .REQUEST_COMPLETED ∧
    (∀ overlay_request, request.message = .overlay_request overlay_request →
      (HandleRequest dev env k s request).response.overlay_response =
        (HandleOverlayUpdate dev s overlay_request
          (ServerResponse.fresh env.zero).overlay_response).response) ∧
    (HandleRequest dev env k s request).trace.filter ChannelAction.isWrite =
      [.Write (HandleRequest dev env k s request).response
        (env.Write k (HandleRequest dev env k s request).response)] ∧
    (HandleRequest dev env k s request).trace.getLast? =
      some (.Write (HandleRequest dev env k s request).response
        (env.Write k (HandleRequest dev env k s request).response)) ∧
    (∀ response ok, ChannelAction.Write response ok ∈ (HandleRequest dev env k s request).trace →
      response.status = .REQUEST_COMPLETED) := by
  have hf : ∀ l : List ServerAction,
      (l.map ChannelAction.Device).filter ChannelAction.isWrite = [] := by
    intro l
    induction l with
    | nil => rfl
    | cons a l ih => simp [List.filter_cons, ChannelAction.isWrite, ih]
  have hw : (HandleRequest dev env k s request).trace.filter ChannelAction.isWrite =
      [.Write (HandleRequest dev env k s request).response
        (env.Write k (HandleRequest dev env k s request).response)] := by
    simp only [HandleRequest, List.filter_append, hf]
    simp [ChannelAction.isWrite]
  refine ⟨rfl, ?_, hw, ?_, ?_⟩
  · intro overlay_request hm
    simp [HandleRequest, hm]
  · simp [HandleRequest]
  · intro response ok hmem
    have h : ChannelAction.Write response ok ∈
        (HandleRequest dev env k s request).trace.filter ChannelAction.isWrite :=
      List.mem_filter.mpr ⟨hmem, rfl⟩
    rw [hw] at h
    simp at h
    rw [h.1]
    rfl

/-- Witness for C22: an overlay request whose id check fails is answered with the
top-level status `REQUEST_COMPLETED` and the overlay status `ID_MISMATCH`. -/
theorem HandleRequest_one_completed_response_witness :
    (HandleRequest (specDevice Example.noFaults) (Example.serverEnv (fun _ => true)) 1
        Example.diskAtV2
        { type := .HANDLE_REQUEST
          message := .overlay_request (Example.staleUpdate false) }).response.status
        = .REQUEST_COMPLETED ∧
      (HandleRequest (specDevice Example.noFaults) (Example.serverEnv (fun _ => true)) 1
        Example.diskAtV2
        { type := .HANDLE_REQUEST
          message := .overlay_request (Example.staleUpdate false)
        }).response.overlay_response.status = .ID_MISMATCH :=
  have h := HandleRequest_one_completed_response (specDevice Example.noFaults)
    (Example.serverEnv (fun _ => true)) 1 Example.diskAtV2
    { type := .HANDLE_REQUEST, message := .overlay_request (Example.staleUpdate false) }
  ⟨h.1, (congrArg proto.OverlayUpdateResponse.status
    (h.2.1 (Example.staleUpdate false) rfl)).trans (by decide)⟩

theorem HandleRequest_written {σ ε : Type} (dev : Device σ) (env : ServerEnv ε) (k : Nat)
    (s : σ) (request : proto.InstallServerRequest) :
    (HandleRequest dev env k s request).trace.filterMap ChannelAction.written =
      [(HandleRequest dev env k s request).response] := by
  have hf : ∀ l : List ServerAction,
      (l.map ChannelAction.Device).filterMap ChannelAction.written = [] := by
    intro l
    induction l with
    | nil => rfl
    | cons a l ih => simp [List.filterMap_cons, ChannelAction.written, ih]
  simp only [HandleRequest, List.filterMap_append, hf]
  simp [ChannelAction.written]

theorem HandleRequest_read {σ ε : Type} (dev : Device σ) (env : ServerEnv ε) (k : Nat)
    (s : σ) (request : proto.InstallServerRequest) :
    (HandleRequest dev env k s request).trace.filterMap ChannelAction.read = [] := by
  have hf : ∀ l : List ServerAction,
      (l.map ChannelAction.Device).filterMap ChannelAction.read = [] := by
    intro l
    induction l with
    | nil => rfl
    | cons a l ih => simp [List.filterMap_cons, ChannelAction.read, ih]
  simp only [HandleRequest, List.filterMap_append, hf]
  simp [ChannelAction.read]

theorem Pump_written {σ ε : Type} (dev : Device σ) (env : ServerEnv ε) (k : Nat) (s : σ)
    (input : List (Option proto.InstallServerRequest)) :
    List.Forall₂
      (fun request response =>
        response.status = .REQUEST_COMPLETED ∧
          ∃ j t, response = (HandleRequest dev env j t request).response)
      ((requestsBeforeExit input).filter isHandlingRequest)
      ((Pump dev env k s input).2.2.filterMap ChannelAction.written) := by
  induction input generalizing k s with
  | nil => simp [Pump, requestsBeforeExit, ChannelAction.written]
  | cons r rest ih =>
    cases r with
    | none => simp [Pump, requestsBeforeExit, ChannelAction.written]
    | some request =>
      unfold Pump requestsBeforeExit
      by_cases hh : request.type = .HANDLE_REQUEST
      · have hx : ¬ request.type = .SERVER_EXIT := by rw [hh]; simp
        rw [if_pos hh, if_neg hx]
        dsimp only
        rw [List.filter_cons_of_pos (by simp [isHandlingRequest, hh])]
        simp only [List.filterMap_cons, ChannelAction.written, List.filterMap_append,
          HandleRequest_written, List.singleton_append]
        exact List.Forall₂.cons ⟨rfl, k, s, rfl⟩ (ih _ _)
      · by_cases hx : request.type = .SERVER_EXIT
        · simp [hh, hx, ChannelAction.written]
        · rw [if_neg hh, if_neg hx, if_neg hx]
          dsimp only
          rw [List.filter_cons_of_neg (by simp [isHandlingRequest, hh])]
          simp only [List.filterMap_cons, ChannelAction.written]
          exact ih _ _

theorem Pump_read {σ ε : Type} (dev : Device σ) (env : ServerEnv ε) (k : Nat) (s : σ)
    (input : List (Option proto.InstallServerRequest)) :
    (Pump dev env k s input).2.2.filterMap ChannelAction.read = readsUntilExit input := by
  induction input generalizing k s with
  | nil => simp [Pump, readsUntilExit, ChannelAction.read]
  | cons r rest ih =>
    cases r with
    | none => simp [Pump, readsUntilExit, ChannelAction.read]
    | some request =>
      unfold Pump readsUntilExit
      by_cases hh : request.type = .HANDLE_REQUEST
      · have hx : ¬ request.type = .SERVER_EXIT := by rw [hh]; simp
        rw [if_pos hh, if_neg hx]
        simp only [List.filterMap_cons, ChannelAction.read, List.filterMap_append,
          HandleRequest_read, List.nil_append, ih]
        rfl
      · by_cases hx : request.type = .SERVER_EXIT
        · simp [hh, hx, ChannelAction.read]
        · rw [if_neg hh, if_neg hx, if_neg hx]
          simp only [List.filterMap_cons, ChannelAction.read, ih]

theorem HandleRequest_channel {σ ε : Type} (dev : Device σ) (env : ServerEnv ε) (k : Nat)
    (s : σ) (request : proto.InstallServerRequest) :
    (HandleRequest dev env k s request).trace.filter (fun a => a.isRead || a.isWrite) =
      [.Write (HandleRequest dev env k s request).response
        (env.Write k (HandleRequest dev env k s request).response)] := by
  have hf : ∀ l : List ServerAction,
      (l.map ChannelAction.Device).filter (fun a => a.isRead || a.isWrite) = [] := by
    intro l
    induction l with
    | nil => rfl
    | cons a l ih =>
      simp [List.filter_cons, ChannelAction.isWrite, ChannelAction.isRead, ih]
  simp only [HandleRequest, List.filter_append, hf]
  simp [ChannelAction.isWrite]

theorem filter_channel_read (result : Option proto.InstallServerRequest)
    (l : List ChannelAction) :
    (ChannelAction.Read result :: l).filter (fun a => a.isRead || a.isWrite) =
      .Read result :: l.filter (fun a => a.isRead || a.isWrite) := rfl

theorem Pump_answers_next {σ ε : Type} (dev : Device σ) (env : ServerEnv ε) (k : Nat)
    (s : σ) (input : List (Option proto.InstallServerRequest))
    (pre : List ChannelAction) (request : proto.InstallServerRequest)
    (post : List ChannelAction)
    (h : (Pump dev env k s input).2.2.filter (fun a => a.isRead || a.isWrite) =
      pre ++ .Read (some request) :: post)
    (hh : request.type = .HANDLE_REQUEST) :
    ∃ j t ok rest,
      post = .Write (HandleRequest dev env j t request).response ok :: rest := by
  induction input generalizing k s pre with
  | nil =>
    simp only [Pump, filter_channel_read, List.filter_nil] at h
    rcases List.append_eq_cons_iff.mp h.symm with ⟨rfl, h1⟩ | ⟨a, rfl, h1⟩
    · simp at h1
    · simp at h1
  | cons r rest ih =>
    cases r with
    | none =>
      simp only [Pump, filter_channel_read, List.filter_nil] at h
      rcases List.append_eq_cons_iff.mp h.symm with ⟨rfl, h1⟩ | ⟨a, rfl, h1⟩
      · simp at h1
      · simp at h1
    | some r =>
      unfold Pump at h
      by_cases hr : r.type = .HANDLE_REQUEST
      · rw [if_pos hr] at h
        simp only [filter_channel_read, List.filter_append, HandleRequest_channel,
          List.singleton_append] at h
        rcases List.append_eq_cons_iff.mp h.symm with ⟨rfl, h1⟩ | ⟨a, rfl, h1⟩
        · simp only [List.cons.injEq, ChannelAction.Read.injEq, Option.some.injEq] at h1
          obtain ⟨rfl, rfl⟩ := h1
          exact ⟨k, s, _, _, rfl⟩
        · rcases List.append_eq_cons_iff.mp h1.symm with ⟨rfl, h2⟩ | ⟨b, rfl, h2⟩
          · simp at h2
          · exact ih _ _ _ (by simpa using h2)
      · by_cases hx : r.type = .SERVER_EXIT
        · rw [if_neg hr, if_pos hx] at h
          simp only [filter_channel_read, List.filter_nil] at h
          rcases List.append_eq_cons_iff.mp h.symm with ⟨rfl, h1⟩ | ⟨a, rfl, h1⟩
          · simp only [List.cons.injEq, ChannelAction.Read.injEq, Option.some.injEq] at h1
            rw [h1.1] at hh
            exact absurd hh hr
          · simp at h1
        · rw [if_neg hr, if_neg hx] at h
          simp only [filter_channel_read] at h
          rcases List.append_eq_cons_iff.mp h.symm with ⟨rfl, h1⟩ | ⟨a, rfl, h1⟩
          · simp only [List.cons.injEq, ChannelAction.Read.injEq, Option.some.injEq] at h1
            rw [h1.1] at hh
            exact absurd hh hr
          · exact ih _ _ _ h1

/-- C23, as stated, fails: a request whose type is neither `HANDLE_REQUEST` nor
`SERVER_EXIT` is read before the end of the input, and no response is written for it:
the only messages written are the acknowledgement and the final response. -/
theorem Run_responses_paired_counterexample :
    requestsBeforeExit [some Example.untypedRequest] = [Example.untypedRequest] ∧
      (InstallServer.Run Example.bareDevice (Example.serverEnv (fun _ => true)) ()
        [some Example.untypedRequest]).2 =
        [.Write { ServerResponse.fresh Example.zero with status := .SERVER_STARTED } true,
          .Read (some Example.untypedRequest),
          .Read none,
          .Write
            { ServerResponse.fresh Example.zero with
              status := .SERVER_EXITED
              events := [{ text := "first" }, { text := "second" }] } true] := by
  decide

/-- C23, amended.  For every sequence of incoming requests, the messages passed to
`output_.Write` by `InstallServer::Run` are, in order: one `SERVER_STARTED`
acknowledgement; then responses paired one to one and in order with the handling
requests read before the first exit request or unreadable message, each the response
of `HandleRequest` to its request, with status `REQUEST_COMPLETED`; then exactly one
final `SERVER_EXITED` response carrying all drained events, converted, in their
order.  The acknowledgement is the first call of the run and the final write the
last.  The reads are those of the input up to and including the first exit request
or unreadable message: no request after the exit request is read or answered. -/
theorem Run_responses_paired {σ ε : Type} (dev : Device σ) (env : ServerEnv ε) (s : σ)
    (input : List (Option proto.InstallServerRequest)) :
    (∃ responses,
      (InstallServer.Run dev env s input).2.filterMap ChannelAction.written =
        { ServerResponse.fresh env.zero with status := .SERVER_STARTED } ::
          responses ++ [InstallServer.exit_response env] ∧
      List.Forall₂
        (fun request response =>
          response.status = .REQUEST_COMPLETED ∧
            ∃ j t, response = (HandleRequest dev env j t request).response)
        ((requestsBeforeExit input).filter isHandlingRequest) responses ∧
      responses.length = ((requestsBeforeExit input).filter isHandlingRequest).length) ∧
    (InstallServer.exit_response env).status = .SERVER_EXITED ∧
    (InstallServer.exit_response env).events =
      env.ConsumeEvents.map env.ConvertEventToProtoEvent ∧
    (InstallServer.Run dev env s input).2.head? =
      some (.Write { ServerResponse.fresh env.zero with status := .SERVER_STARTED }
        (env.Write 0 { ServerResponse.fresh env.zero with status := .SERVER_STARTED })) ∧
    (∃ ok, (InstallServer.Run dev env s input).2.getLast? =
      some (.Write (InstallServer.exit_response env) ok)) ∧
    (InstallServer.Run dev env s input).2.filterMap ChannelAction.read =
      readsUntilExit input ∧
    (∀ pre request post,
      (InstallServer.Run dev env s input).2.filter (fun a => a.isRead || a.isWrite) =
        pre ++ .Read (some request) :: post →
      request.type = .HANDLE_REQUEST →
      ∃ j t ok rest,
        post = .Write (HandleRequest dev env j t request).response ok :: rest) := by
  refine ⟨⟨(Pump dev env 1 s input).2.2.filterMap ChannelAction.written, ?_,
    Pump_written dev env 1 s input, (Pump_written dev env 1 s input).length_eq.symm⟩,
    rfl, rfl, rfl,
    ⟨env.Write (Pump dev env 1 s input).2.1 (InstallServer.exit_response env), ?_⟩, ?_, ?_⟩
  · simp [InstallServer.Run, Acknowledge, List.filterMap_append, ChannelAction.written]
  · simp [InstallServer.Run]
  · simp [InstallServer.Run, Acknowledge, List.filterMap_append, ChannelAction.read,
      Pump_read]
  · intro pre request post h hh
    have hrun : (InstallServer.Run dev env s input).2.filter (fun a => a.isRead || a.isWrite) =
        .Write { ServerResponse.fresh env.zero with status := .SERVER_STARTED }
            (env.Write 0 { ServerResponse.fresh env.zero with status := .SERVER_STARTED }) ::
          ((Pump dev env 1 s input).2.2.filter (fun a => a.isRead || a.isWrite) ++
            [.Write (InstallServer.exit_response env)
              (env.Write (Pump dev env 1 s input).2.1 (InstallServer.exit_response env))]) := by
      simp [InstallServer.Run, Acknowledge, List.filter_append, List.filter_cons,
        ChannelAction.isWrite]
    rw [hrun] at h
    rcases List.append_eq_cons_iff.mp h.symm with ⟨rfl, h1⟩ | ⟨pre', rfl, h1⟩
    · simp at h1
    · rcases List.append_eq_append_iff.mp h1 with ⟨c, hc, hd⟩ | ⟨a, ha, hb⟩
      · rcases List.append_eq_cons_iff.mp hd.symm with ⟨rfl, h2⟩ | ⟨c', rfl, h2⟩
        · simp at h2
        · simp at h2
      · rcases List.append_eq_cons_iff.mp hb.symm with ⟨rfl, h2⟩ | ⟨a', rfl, h2⟩
        · simp at h2
        · obtain ⟨j, t, ok, rest, hp⟩ := Pump_answers_next dev env 1 s input _ _ _ ha hh
          rw [h2, hp]
          exact ⟨j, t, ok, _, rfl⟩

/-- Witness for C23 (amended): of the input check request, exit request, check request,
the run reads the first two and no more. -/
theorem Run_responses_paired_witness :
    (InstallServer.Run Example.bareDevice (Example.serverEnv (fun _ => true)) ()
        [some Example.checkRequest, some Example.exitRequest, some Example.checkRequest]
      ).2.filterMap ChannelAction.read =
      [some Example.checkRequest, some Example.exitRequest] :=
  (Run_responses_paired Example.bareDevice (Example.serverEnv (fun _ => true)) ()
    [some Example.checkRequest, some Example.exitRequest, some Example.checkRequest]
    ).2.2.2.2.2.1.trans (by decide)

theorem HandleRequest_congr {σ ε : Type} (dev : Device σ) (env : ServerEnv ε)
    (env' : ServerEnv ε) (k : Nat) (s : σ) (request : proto.InstallServerRequest)
    (hw : ∀ response, env'.Write k response = env.Write k response)
    (hz : env'.zero = env.zero) :
    HandleRequest dev env' k s request = HandleRequest dev env k s request := by
  simp only [HandleRequest, hz, hw]

theorem Pump_congr {σ ε : Type} (dev : Device σ) (env : ServerEnv ε) (env' : ServerEnv ε)
    (k : Nat) (s : σ) (input : List (Option proto.InstallServerRequest))
    (hk : 0 < k)
    (hw : ∀ j response, 0 < j → env'.Write j response = env.Write j response)
    (hz : env'.zero = env.zero) :
    Pump dev env' k s input = Pump dev env k s input := by
  induction input generalizing k s with
  | nil => rfl
  | cons r rest ih =>
    cases r with
    | none => rfl
    | some request =>
      unfold Pump
      rw [HandleRequest_congr dev env env' k s request (fun response => hw k response hk) hz]
      simp only [ih (k + 1) _ (Nat.succ_pos k), ih k s hk]

/-- C24, as stated, fails: the write of the acknowledgement fails, and the server
reads the check request, handles it and answers it, reads the exit request and
writes the final response. -/
theorem Run_failed_acknowledgement_counterexample :
    (InstallServer.Run Example.bareDevice (Example.serverEnv (fun k => decide (0 < k))) ()
        [some Example.checkRequest, some Example.exitRequest]).2 =
      [.Write { ServerResponse.fresh Example.zero with status := .SERVER_STARTED } false,
        .Read (some Example.checkRequest),
        .Write
          { ServerResponse.fresh Example.zero with
            status := .REQUEST_COMPLETED
            check_response := { missing_files := ["/data/a", "/data/b"] } } true,
        .Read (some Example.exitRequest),
        .Write
          { ServerResponse.fresh Example.zero with
            status := .SERVER_EXITED
            events := [{ text := "first" }, { text := "second" }] } true] := by
  decide

/-- C24, amended.  If writing the `SERVER_STARTED` acknowledgement fails, the server
enters the request loop all the same: the failed write is followed by the first
read, the reads are those of the input up to and including its first exit request
or unreadable message, and the loop runs exactly as it does when the acknowledgement
is written, whatever the outcome of that write; the final response is written
after it. -/
theorem Run_after_failed_acknowledgement {σ ε : Type} (dev : Device σ) (env : ServerEnv ε)
    (s : σ) (input : List (Option proto.InstallServerRequest))
    (hfail : env.Write 0 { ServerResponse.fresh env.zero with status := .SERVER_STARTED }
      = false) :
    (InstallServer.Run dev env s input).2 =
      .Write { ServerResponse.fresh env.zero with status := .SERVER_STARTED } false ::
        (Pump dev env 1 s input).2.2 ++
          [.Write (InstallServer.exit_response env)
            (env.Write (Pump dev env 1 s input).2.1 (InstallServer.exit_response env))] ∧
    (∃ rest, (Pump dev env 1 s input).2.2 = .Read (input.headD none) :: rest) ∧
    (InstallServer.Run dev env s input).2.filterMap ChannelAction.read =
      readsUntilExit input ∧
    (∀ env' : ServerEnv ε,
      (∀ j response, 0 < j → env'.Write j response = env.Write j response) →
      env'.zero = env.zero →
      Pump dev env' 1 s input = Pump dev env 1 s input) := by
  refine ⟨?_, ?_, ?_, ?_⟩
  · simp [InstallServer.Run, Acknowledge, hfail]
  · cases input with
    | nil => exact ⟨[], rfl⟩
    | cons r rest =>
      cases r with
      | none => exact ⟨[], rfl⟩
      | some request =>
        unfold Pump
        by_cases hh : request.type = .HANDLE_REQUEST
        · rw [if_pos hh]
          exact ⟨_, rfl⟩
        · by_cases hx : request.type = .SERVER_EXIT
          · rw [if_neg hh, if_pos hx]
            exact ⟨_, rfl⟩
          · rw [if_neg hh, if_neg hx]
            exact ⟨_, rfl⟩
  · simp [InstallServer.Run, Acknowledge, List.filterMap_append, ChannelAction.read,
      Pump_read]
  · intro env' hw hz
    exact Pump_congr dev env env' 1 s input Nat.one_pos hw hz

/-- Witness for C24 (amended): the acknowledgement is not written, and the check
request and the exit request are read. -/
theorem Run_after_failed_acknowledgement_witness :
    (InstallServer.Run Example.bareDevice (Example.serverEnv (fun k => decide (0 < k))) ()
        [some Example.checkRequest, some Example.exitRequest]
      ).2.filterMap ChannelAction.read =
      [some Example.checkRequest, some Example.exitRequest] :=
  (Run_after_failed_acknowledgement Example.bareDevice
    (Example.serverEnv (fun k => decide (0 < k))) ()
    [some Example.checkRequest, some Example.exitRequest] (by decide)).2.2.1.trans
      (by decide)

/-- C30, the code at the failing input: a first install with the wipe flag, on a
device without overlay folder.  The tree walk fails and the response is set to
`UPDATE_FAILED` with the message `Could not wipe existing overlays`; the method goes
on: the id check passes, the overlay is opened, written and committed, and the final
status is `OK`, next to the message of the failed wipe. -/
theorem HandleOverlayUpdate_failed_wipe_goes_on :
    (HandleOverlayUpdate.wipe Example.bareDevice () Example.firstInstall
        Example.freshUpdateResponse).response
        = { status := .UPDATE_FAILED, error_message := "Could not wipe existing overlays" } ∧
      (HandleOverlayUpdate Example.bareDevice () Example.firstInstall
        Example.freshUpdateResponse).trace
        = [.Nftw "/data/data/com.example.app/code_cache/.overlay" (-1),
            .OverlayOpen "/data/data/com.example.app/code_cache/.overlay" "v1" true,
            .OverlayWriteFile "classes.dex" "new" true,
            .OverlayCommit true] ∧
      (HandleOverlayUpdate Example.bareDevice () Example.firstInstall
        Example.freshUpdateResponse).response
        = { status := .OK, error_message := "Could not wipe existing overlays" } := by
  decide

/-! ## Properties of the overlay install command -/

theorem CheckFilesExist_no_provisioning (env : InstallEnv) (k : Nat) (files : List String)
    (missing_files : List String) :
    (OverlayInstallCommand.CheckFilesExist env k files missing_files).2.2.filter
      InstallAction.isRunAs = [] := by
  unfold OverlayInstallCommand.CheckFilesExist
  dsimp only
  by_cases hw : env.clientWrite k
      { type := .HANDLE_REQUEST
        message := if files = [] then .MESSAGE_NOT_SET else .check_request { files := files } }
      = false
  · rw [if_pos hw]
    rfl
  · rw [if_neg hw]
    cases env.clientRead k <;> rfl

theorem runPlan_spec (run_as : String → List String → Bool)
    (plan : List (String × List String)) :
    ((SetUpAgent.runPlan run_as plan).1 = true ∧
      (SetUpAgent.runPlan run_as plan).2 = plan.map (fun c => .RunAs c.1 c.2 true) ∧
      ∀ c ∈ plan, run_as c.1 c.2 = true) ∨
    ((SetUpAgent.runPlan run_as plan).1 = false ∧
      ∃ pre c post, plan = pre ++ c :: post ∧
        (SetUpAgent.runPlan run_as plan).2 =
          pre.map (fun c => .RunAs c.1 c.2 true) ++ [.RunAs c.1 c.2 false] ∧
        (∀ c ∈ pre, run_as c.1 c.2 = true) ∧ run_as c.1 c.2 = false) := by
  induction plan with
  | nil => exact Or.inl ⟨rfl, rfl, by simp⟩
  | cons c rest ih =>
    unfold SetUpAgent.runPlan
    by_cases hf : run_as c.1 c.2 = false
    · rw [if_pos hf]
      exact Or.inr ⟨rfl, [], c, rest, rfl, rfl, by simp, hf⟩
    · rw [if_neg hf]
      have ht : run_as c.1 c.2 = true := by simpa using hf
      rcases ih with ⟨h1, h2, h3⟩ | ⟨h1, pre, d, post, hp, h2, h3, h4⟩
      · refine Or.inl ⟨h1, by simp [h2], ?_⟩
        intro x hx
        rcases List.mem_cons.mp hx with rfl | hx
        · exact ht
        · exact h3 x hx
      · refine Or.inr ⟨h1, c :: pre, d, post, by simp [hp], by simp [h2], ?_, h4⟩
        intro x hx
        rcases List.mem_cons.mp hx with rfl | hx
        · exact ht
        · exact h3 x hx

theorem SetUpAgent_eq_runPlan (env : InstallEnv) (self : OverlayInstallCommand) (k : Nat)
    (agent : String) (overlay_response : proto.OverlayInstallResponse) :
    (OverlayInstallCommand.SetUpAgent env self k agent overlay_response).1 =
      (if (SetUpAgent.runPlan (env.launcher.Run self.request_.package_name)
          (SetUpAgent.plan env self agent (SetUpAgent.missing_files env self k agent))).1
        then overlay_response
        else { overlay_response with status := .SETUP_FAILED }) ∧
    (OverlayInstallCommand.SetUpAgent env self k agent overlay_response).2 =
      (OverlayInstallCommand.CheckFilesExist env k
          [SetUpAgent.startup_path self, SetUpAgent.studio_path self,
            SetUpAgent.agent_path env self agent] []).2.2 ++
        (SetUpAgent.runPlan (env.launcher.Run self.request_.package_name)
          (SetUpAgent.plan env self agent (SetUpAgent.missing_files env self k agent))).2 := by
  unfold OverlayInstallCommand.SetUpAgent SetUpAgent.provision SetUpAgent.plan
    SetUpAgent.missing_files
  dsimp only
  generalize (OverlayInstallCommand.CheckFilesExist env k
    [SetUpAgent.startup_path self, SetUpAgent.studio_path self,
      SetUpAgent.agent_path env self agent] []) = checked
  by_cases hs : SetUpAgent.startup_path self ∈ checked.2.1 <;>
  by_cases ha : SetUpAgent.agent_path env self agent ∈ checked.2.1 <;>
  by_cases hu : SetUpAgent.studio_path self ∈ checked.2.1 <;>
  cases h1 : env.launcher.Run self.request_.package_name "rm"
    ["-f", "-r", SetUpAgent.startup_path self] <;>
  cases h2 : env.launcher.Run self.request_.package_name "mkdir"
    [SetUpAgent.startup_path self] <;>
  cases h3 : env.launcher.Run self.request_.package_name "mkdir"
    [SetUpAgent.studio_path self] <;>
  cases h4 : env.launcher.Run self.request_.package_name "cp"
    ["-F", SetUpAgent.tmp_agent env agent, SetUpAgent.agent_path env self agent] <;>
  simp [SetUpAgent.runPlan, hs, ha, hu, h1, h2, h3, h4]

/-- C26, as stated, fails: the check reports the startup directory, the auxiliary
directory and the agent file missing, and the creation of the startup directory
fails.  The auxiliary directory is reported missing and is not created, the agent
file is reported missing and is not copied: the only step run is the failed one. -/
theorem SetUpAgent_decisions_counterexample :
    SetUpAgent.missing_files
        (Example.installEnv [Example.startupPath, Example.studioPath, Example.agentPath]
          (fun _ _ => false))
        Example.installCommand 0 kAgent
      = [Example.startupPath, Example.studioPath, Example.agentPath] ∧
      (OverlayInstallCommand.SetUpAgent
        (Example.installEnv [Example.startupPath, Example.studioPath, Example.agentPath]
          (fun _ _ => false))
        Example.installCommand 0 kAgent Example.freshInstallResponse).2.filter
          InstallAction.isRunAs
      = [.RunAs "mkdir" [Example.startupPath] false] := by
  decide

/-- C26, amended.  The provisioning steps of `SetUpAgent` are those that the reported
missing set calls for (remove the startup directory iff it is reported present and
the versioned agent file missing; create it iff it was reported missing or is to
be removed; create the auxiliary directory iff it was reported missing; copy the
agent iff the versioned agent file was reported missing), run in that order for as
long as none fails: either all of them are run and succeed, and the response is
left as it was, or they are run up to the first one that fails, no later one is
run, and the status is `SETUP_FAILED`. -/
theorem SetUpAgent_follows_plan (env : InstallEnv) (self : OverlayInstallCommand) (k : Nat)
    (agent : String) (overlay_response : proto.OverlayInstallResponse) :
    ((OverlayInstallCommand.SetUpAgent env self k agent overlay_response).2.filter
          InstallAction.isRunAs =
        (SetUpAgent.plan env self agent (SetUpAgent.missing_files env self k agent)).map
          (fun c => .RunAs c.1 c.2 true) ∧
      (∀ c ∈ SetUpAgent.plan env self agent (SetUpAgent.missing_files env self k agent),
        env.launcher.Run self.request_.package_name c.1 c.2 = true) ∧
      (OverlayInstallCommand.SetUpAgent env self k agent overlay_response).1 =
        overlay_response) ∨
    (∃ pre c post,
      SetUpAgent.plan env self agent (SetUpAgent.missing_files env self k agent) =
        pre ++ c :: post ∧
      (OverlayInstallCommand.SetUpAgent env self k agent overlay_response).2.filter
          InstallAction.isRunAs =
        pre.map (fun c => .RunAs c.1 c.2 true) ++ [.RunAs c.1 c.2 false] ∧
      (∀ c ∈ pre, env.launcher.Run self.request_.package_name c.1 c.2 = true) ∧
      env.launcher.Run self.request_.package_name c.1 c.2 = false ∧
      (OverlayInstallCommand.SetUpAgent env self k agent overlay_response).1 =
        { overlay_response with status := .SETUP_FAILED }) := by
  obtain ⟨hr, ht⟩ := SetUpAgent_eq_runPlan env self k agent overlay_response
  have hc := CheckFilesExist_no_provisioning env k
    [SetUpAgent.startup_path self, SetUpAgent.studio_path self,
      SetUpAgent.agent_path env self agent] []
  have hp : ∀ plan : List (String × List String),
      (SetUpAgent.runPlan (env.launcher.Run self.request_.package_name) plan).2.filter
        InstallAction.isRunAs =
      (SetUpAgent.runPlan (env.launcher.Run self.request_.package_name) plan).2 := by
    intro plan
    induction plan with
    | nil => rfl
    | cons c rest ih =>
      unfold SetUpAgent.runPlan
      split
      · rfl
      · simp only [List.filter_cons, InstallAction.isRunAs, if_true, ih]
  rw [hr, ht, List.filter_append, hc, List.nil_append, hp]
  rcases runPlan_spec (env.launcher.Run self.request_.package_name)
      (SetUpAgent.plan env self agent (SetUpAgent.missing_files env self k agent)) with
    ⟨h1, h2, h3⟩ | ⟨h1, pre, c, post, hplan, h2, h3, h4⟩
  · exact Or.inl ⟨h2, h3, by rw [h1]; rfl⟩
  · exact Or.inr ⟨pre, c, post, hplan, h2, h3, h4, by rw [h1]; rfl⟩

/-- C25, the code at the failing input: the check reports the startup directory
present and the versioned agent file missing, and the removal of the startup
directory fails.  `SetUpAgent` sets `SETUP_FAILED` and runs no later provisioning
step; `Run` goes on with `UpdateOverlay`, which the server answers with `OK`, and the
status that the command ends with is `OK`. -/
theorem Run_setup_failure_overwritten :
    (OverlayInstallCommand.SetUpAgent
        (Example.installEnv [Example.agentPath] (fun _ _ => false))
        Example.installCommand 0 kAgent Example.freshInstallResponse).1.status
        = .SETUP_FAILED ∧
      (OverlayInstallCommand.Run
        (Example.installEnv [Example.agentPath] (fun _ _ => false))
        Example.installCommand Example.freshInstallResponse).trace.filter
          InstallAction.isRunAs
        = [.RunAs "rm" ["-f", "-r", Example.startupPath] false] ∧
      (OverlayInstallCommand.Run
        (Example.installEnv [Example.agentPath] (fun _ _ => false))
        Example.installCommand Example.freshInstallResponse).trace.getLast?
        = some (.KillServerAndWait
            (some { Example.serverResponse Example.noReplies with status := .SERVER_EXITED })) ∧
      (OverlayInstallCommand.Run
        (Example.installEnv [Example.agentPath] (fun _ _ => false))
        Example.installCommand Example.freshInstallResponse).overlay_response
        = { status := .OK, extra := "", agent_logs := [{ payload := "crash" }] } := by
  decide

/-- C27.  `GetAgentLogs` never changes the status or the extra of the overlay install
response, whatever the outcomes of the write and of the read.  When the write or the
read fails the response is returned as it was; when both succeed, the log entries
of the server response are added to `agent_logs`, in their order, and nothing else
changes. -/
theorem GetAgentLogs_frame (env : InstallEnv) (self : OverlayInstallCommand) (k : Nat)
    (response : proto.OverlayInstallResponse) :
    (OverlayInstallCommand.GetAgentLogs env self k response).1.status = response.status ∧
    (OverlayInstallCommand.GetAgentLogs env self k response).1.extra = response.extra ∧
    (env.clientWrite k
        { type := .HANDLE_REQUEST
          message := .log_request { package_name := self.request_.package_name } } = false →
      (OverlayInstallCommand.GetAgentLogs env self k response).1 = response) ∧
    (env.clientRead k = none →
      (OverlayInstallCommand.GetAgentLogs env self k response).1 = response) ∧
    (∀ install_response,
      env.clientWrite k
        { type := .HANDLE_REQUEST
          message := .log_request { package_name := self.request_.package_name } } = true →
      env.clientRead k = some install_response →
      (OverlayInstallCommand.GetAgentLogs env self k response).1 =
        { response with
          agent_logs := response.agent_logs ++ install_response.log_response.logs }) := by
  unfold OverlayInstallCommand.GetAgentLogs
  dsimp only
  by_cases hw : env.clientWrite k
      { type := .HANDLE_REQUEST
        message := .log_request { package_name := self.request_.package_name } } = false
  · simp [hw]
  · cases hr : env.clientRead k with
    | none => simp [hw]
    | some install_response => simp [hw]

/-- Witness for C27: the server answers the log request with one entry, which is
added to the logs of the response. -/
theorem GetAgentLogs_frame_witness :
    (OverlayInstallCommand.GetAgentLogs (Example.installEnv [] (fun _ _ => true))
        Example.installCommand 2 Example.freshInstallResponse).1 =
      { Example.freshInstallResponse with agent_logs := [{ payload := "crash" }] } :=
  (GetAgentLogs_frame (Example.installEnv [] (fun _ _ => true)) Example.installCommand 2
    Example.freshInstallResponse).2.2.2.2 _ rfl rfl

end deploy
